import Mathlib

/-! USB host protocol engine (USBHost library, `Usb.cpp` and `hidboot.h`).

A shallow embedding of the transfer dispatcher, the bulk IN transfer, the
enumeration state machine, the configuration dispatcher and the HID boot
driver release path, followed by theorems about them.

Conventions.
* Machine integers are natural numbers; where the source arithmetic can wrap,
  the width is written out (`u32`, `u8`).
* Hardware registers are volatile inputs.  A function that polls the hardware
  takes the list of samples the hardware presents, one element per pass of the
  polling loop, and answers `none` when the loop is still running after the
  last sample that was supplied.
* Preprocessor constants whose headers are not part of the translated sources
  are collected in `Defs` and passed as a parameter.
-/

namespace USBHost

/-- Values of the preprocessor constants used by `Usb.cpp`.  The headers that
define them (`Usb.h`, `UsbCore.h`, the host controller headers) are not among
the translated sources, so every function takes them as a parameter. -/
structure Defs where
  USB_ERRORFLOW : Nat
  USB_ERRORTIMEOUT : Nat
  USB_ERROR_DATATOGGLE : Nat
  USB_ERROR_TRANSFER_TIMEOUT : Nat
  USB_RETRY_LIMIT : Nat
  USB_XFER_TIMEOUT : Nat
  USB_SETTLE_DELAY : Nat
  USB_NUMDEVICES : Nat
  USB_NAK_MAX_POWER : Nat
  UHD_STATE_ERROR : Nat
  UHD_STATE_DISCONNECTED : Nat
  UHD_STATE_CONNECTED : Nat
  USB_STATE_MASK : Nat
  USB_STATE_DETACHED : Nat
  USB_DETACHED_SUBSTATE_INITIALIZE : Nat
  USB_DETACHED_SUBSTATE_WAIT_FOR_DEVICE : Nat
  USB_DETACHED_SUBSTATE_ILLEGAL : Nat
  USB_ATTACHED_SUBSTATE_SETTLE : Nat
  USB_ATTACHED_SUBSTATE_RESET_DEVICE : Nat
  USB_ATTACHED_SUBSTATE_WAIT_RESET_COMPLETE : Nat
  USB_ATTACHED_SUBSTATE_WAIT_SOF : Nat
  USB_STATE_CONFIGURING : Nat
  USB_STATE_RUNNING : Nat
  USB_STATE_ERROR : Nat
  USB_DEV_CONFIG_ERROR_DEVICE_NOT_SUPPORTED : Nat
  USB_DEV_CONFIG_ERROR_DEVICE_INIT_INCOMPLETE : Nat
  USB_ERROR_OUT_OF_ADDRESS_SPACE_IN_POOL : Nat
  USB_ERROR_ADDRESS_NOT_FOUND_IN_POOL : Nat
  USB_ERROR_EPINFO_IS_NULL : Nat
  USB_ERROR_INVALID_ARGUMENT : Nat
  USB_ERROR_CLASS_INSTANCE_ALREADY_IN_USE : Nat
  USB_ERROR_INVALID_MAX_PKT_SIZE : Nat
  USB_ERROR_EP_NOT_FOUND_IN_TBL : Nat
  USB_ERROR_CONFIG_REQUIRES_ADDITIONAL_RESET : Nat

/-- One assignment of the constants, following the headers of the SAMD21 port of
the library.  It is used only to evaluate the definitions on concrete inputs;
no general theorem depends on these particular numbers. -/
def samd21 : Defs where
  USB_ERRORFLOW := 0x02
  USB_ERRORTIMEOUT := 0x08
  USB_ERROR_DATATOGGLE := 0x01
  USB_ERROR_TRANSFER_TIMEOUT := 0xFF
  USB_RETRY_LIMIT := 3
  USB_XFER_TIMEOUT := 5000
  USB_SETTLE_DELAY := 200
  USB_NUMDEVICES := 16
  USB_NAK_MAX_POWER := 15
  UHD_STATE_ERROR := 3
  UHD_STATE_DISCONNECTED := 1
  UHD_STATE_CONNECTED := 2
  USB_STATE_MASK := 0xf0
  USB_STATE_DETACHED := 0x10
  USB_DETACHED_SUBSTATE_INITIALIZE := 0x11
  USB_DETACHED_SUBSTATE_WAIT_FOR_DEVICE := 0x12
  USB_DETACHED_SUBSTATE_ILLEGAL := 0x13
  USB_ATTACHED_SUBSTATE_SETTLE := 0x20
  USB_ATTACHED_SUBSTATE_RESET_DEVICE := 0x30
  USB_ATTACHED_SUBSTATE_WAIT_RESET_COMPLETE := 0x40
  USB_ATTACHED_SUBSTATE_WAIT_SOF := 0x50
  USB_STATE_CONFIGURING := 0x80
  USB_STATE_RUNNING := 0x90
  USB_STATE_ERROR := 0xa0
  USB_DEV_CONFIG_ERROR_DEVICE_NOT_SUPPORTED := 0xD1
  USB_DEV_CONFIG_ERROR_DEVICE_INIT_INCOMPLETE := 0xD2
  USB_ERROR_OUT_OF_ADDRESS_SPACE_IN_POOL := 0xD4
  USB_ERROR_ADDRESS_NOT_FOUND_IN_POOL := 0xD6
  USB_ERROR_EPINFO_IS_NULL := 0xD7
  USB_ERROR_INVALID_ARGUMENT := 0xD8
  USB_ERROR_CLASS_INSTANCE_ALREADY_IN_USE := 0xD9
  USB_ERROR_INVALID_MAX_PKT_SIZE := 0xDA
  USB_ERROR_EP_NOT_FOUND_IN_TBL := 0xDB
  USB_ERROR_CONFIG_REQUIRES_ADDITIONAL_RESET := 0xE0

/-- Arithmetic of `uint32_t`: reduction modulo `2 ^ 32`. -/
def u32 (n : Nat) : Nat := n % 2 ^ 32

/-- Arithmetic of `uint8_t`: reduction modulo `2 ^ 8`. -/
def u8 (n : Nat) : Nat := n % 2 ^ 8

/-! ## Transfer dispatcher: `USBHost::dispatchPkt` -/

/-- What the hardware shows during one pass of the wait loop of `dispatchPkt`:
the clock, the VBUS state, and the result of each of the five register tests
the loop body makes, in the order the source makes them. -/
structure PipeSample where
  /-- The value of `millis()` in the loop condition. -/
  millis : Nat
  /-- The value of `UHD_GetVBUSState()` in the loop condition. -/
  vbus : Nat
  /-- The test `UHD_Pipe_Is_Transfer_Complete(epAddr, token)`. -/
  complete : Bool
  /-- The test `PINTFLAG.reg & USB_HOST_PINTFLAG_TRFAIL`. -/
  trfail : Bool
  /-- The test `STATUS_BK.reg & USB_ERRORFLOW`. -/
  bk_errorflow : Bool
  /-- The test `STATUS_PIPE.reg & USB_ERRORTIMEOUT`. -/
  pipe_timeout : Bool
  /-- The test `STATUS_PIPE.reg & USB_ERROR_DATATOGGLE`. -/
  pipe_toggle : Bool
deriving DecidableEq, Repr

/-- The way `dispatchPkt` leaves: the code it returns, its two counters at that
moment, and the number of times the loop condition was evaluated. -/
structure DispatchExit where
  rcode : Nat
  nak_count : Nat
  retry_count : Nat
  polls : Nat
deriving DecidableEq, Repr

/-- The loop condition of `dispatchPkt`:
`(timeout > millis()) && (UHD_GetVBUSState() == UHD_STATE_CONNECTED)`. -/
def dispatchPkt.waiting (c : Defs) (timeout : Nat) (s : PipeSample) : Bool :=
  decide (timeout > s.millis) && decide (s.vbus = c.UHD_STATE_CONNECTED)

/-- How one pass through the body of the wait loop ends: with a `return`, or at
the closing brace with the two counters updated. -/
inductive PassEnd where
  | ret (rcode nak_count retry_count : Nat)
  | next (nak_count retry_count : Nat)
deriving DecidableEq, Repr

/-- The body of the `while` loop of `dispatchPkt`, on one sample.  The counters
are `uint32_t`, hence the `u32` on each increment. -/
def dispatchPkt.pass (c : Defs) (nak_limit : Nat) (s : PipeSample)
    (nak_count retry_count : Nat) : PassEnd :=
  if s.complete then .ret 0 nak_count retry_count
  else
    let nak1 := if s.trfail then u32 (nak_count + 1) else nak_count
    if s.trfail ∧ nak_limit ≠ 0 ∧ nak1 = nak_limit then
      .ret c.USB_ERRORFLOW nak1 retry_count
    else
      let nak2 := if s.bk_errorflow then u32 (nak1 + 1) else nak1
      if s.bk_errorflow ∧ nak_limit ≠ 0 ∧ nak2 = nak_limit then
        .ret c.USB_ERRORFLOW nak2 retry_count
      else
        let retry1 := if s.pipe_timeout then u32 (retry_count + 1) else retry_count
        if s.pipe_timeout ∧ retry1 = c.USB_RETRY_LIMIT then
          .ret c.USB_ERRORTIMEOUT nak2 retry1
        else if s.pipe_toggle then
          .ret c.USB_ERROR_DATATOGGLE nak2 retry1
        else
          .next nak2 retry1

/-- The `while` loop of `dispatchPkt`, one list element per pass.  When the loop
condition fails the function returns `rcode`, which still has its initial
value `USB_ERROR_TRANSFER_TIMEOUT`. -/
def dispatchPkt.loop (c : Defs) (timeout nak_limit : Nat) :
    List PipeSample → Nat → Nat → Nat → Option DispatchExit
  | [], _, _, _ => none
  | s :: rest, nak_count, retry_count, polls =>
    if dispatchPkt.waiting c timeout s = false then
      some ⟨c.USB_ERROR_TRANSFER_TIMEOUT, nak_count, retry_count, polls + 1⟩
    else
      match dispatchPkt.pass c nak_limit s nak_count retry_count with
      | .ret rcode nak retry => some ⟨rcode, nak, retry, polls + 1⟩
      | .next nak retry => dispatchPkt.loop c timeout nak_limit rest nak retry (polls + 1)

/-- Model of `USBHost::dispatchPkt(token, epAddr, nak_limit)`.  `now` is the value of
`millis()` on entry, `samples` what the hardware shows on the successive
passes of the wait loop.  The token and the pipe number only select which
registers are read, so they do not appear. -/
def dispatchPkt (c : Defs) (now nak_limit : Nat) (samples : List PipeSample) :
    Option DispatchExit :=
  dispatchPkt.loop c (u32 (now + c.USB_XFER_TIMEOUT)) nak_limit samples 0 0 0

/-- Number of flow-control indications in one sample: the `TRFAIL` flag and the
`ERRORFLOW` status bit are counted separately by the source. -/
def PipeSample.naks (s : PipeSample) : Nat :=
  (if s.trfail then 1 else 0) + (if s.bk_errorflow then 1 else 0)

/-- Number of flow-control indications in a run of samples. -/
def naksSeen : List PipeSample → Nat
  | [] => 0
  | s :: rest => s.naks + naksSeen rest

/-- A sample during which nothing but flow control can happen: the deadline is
not reached, VBUS is connected, the transfer is not complete and neither the
bus-timeout nor the toggle error bit is set. -/
def PipeSample.quiet (c : Defs) (timeout : Nat) (s : PipeSample) : Prop :=
  dispatchPkt.waiting c timeout s = true ∧ s.complete = false ∧
    s.pipe_timeout = false ∧ s.pipe_toggle = false

instance (c : Defs) (timeout : Nat) (s : PipeSample) : Decidable (s.quiet c timeout) := by
  unfold PipeSample.quiet
  infer_instance

/-- A sample taken at time `t` with VBUS connected and no flag set. -/
def PipeSample.idle (c : Defs) (t : Nat) : PipeSample :=
  ⟨t, c.UHD_STATE_CONNECTED, false, false, false, false, false⟩

/-- A sample taken at time `t` with VBUS connected and the `TRFAIL` flag set: one NAK. -/
def PipeSample.nak (c : Defs) (t : Nat) : PipeSample :=
  ⟨t, c.UHD_STATE_CONNECTED, false, true, false, false, false⟩

/-- A sample taken at time `t` at which VBUS reads disconnected. -/
def PipeSample.vbusLost (c : Defs) (t : Nat) : PipeSample :=
  ⟨t, c.UHD_STATE_DISCONNECTED, false, false, false, false, false⟩

/-- A sample taken at time `t` on which `dispatchPkt` returns 0: the transfer is
complete and VBUS is connected. -/
def PipeSample.done (c : Defs) (t : Nat) : PipeSample :=
  ⟨t, c.UHD_STATE_CONNECTED, true, false, false, false, false⟩

/-! ## Bulk and interrupt IN transfer: `USBHost::InTransfer` -/

/-- The endpoint record `EpInfo` that `pep` points to. -/
structure EpInfo where
  epAddr : Nat
  maxPktSize : Nat
  bmSndToggle : Nat
  bmRcvToggle : Nat
  bmNakPower : Nat
deriving DecidableEq, Repr

/-- What the hardware does in answer to one IN dispatch made by `InTransfer`. -/
structure InReply where
  /-- The value of `millis()` when `dispatchPkt` is entered. -/
  now : Nat
  /-- What the wait loop of that `dispatchPkt` call sees. -/
  samples : List PipeSample
  /-- The value of `uhd_byte_count(pep->epAddr)` once the dispatch has succeeded. -/
  byte_count : Nat
  /-- The value of `USB_HOST_DTGL(pep->epAddr)` when the source reads it. -/
  dtgl : Nat
deriving DecidableEq, Repr

/-- The way `InTransfer` returns. -/
structure InExit where
  /-- The return value. -/
  rcode : Nat
  /-- The byte count left in `*nbytesptr`. -/
  nbytes : Nat
  /-- The endpoint record as the function leaves it. -/
  pep : EpInfo
  /-- The value of the pipe descriptor `ADDR.reg` (the receive destination) at
  each `dispatchPkt(tokIN, ...)`, in order; one entry per dispatch. -/
  addrs : List Nat
deriving DecidableEq, Repr

/-- The `while (1)` loop of `InTransfer`, one reply per pass.  `count` is
`*nbytesptr` (an `uint8_t`, so the addition wraps modulo 256), `addr` the
`ADDR.reg` of the pipe descriptor and `pktsize` the local of that name.  The
local `mem_left` is computed by the source but never used and has no
counterpart here; the writes to `PSTATUSSET`, `PSTATUSCLR` and the call of
`uhd_freeze_pipe` are commands to the controller whose outcome the function
does not read back. -/
def InTransfer.loop (c : Defs) (nak_limit nbytes maxpktsize : Nat) :
    List InReply → EpInfo → Nat → Nat → Nat → List Nat → Option InExit
  | [], _, _, _, _, _ => none
  | r :: rest, pep, count, addr, pktsize, addrs =>
    let addr := u32 (addr + pktsize)
    match dispatchPkt c r.now nak_limit r.samples with
    | none => none
    | some d =>
      if d.rcode = c.USB_ERROR_DATATOGGLE then
        -- `continue` with the toggle taken from the hardware
        InTransfer.loop c nak_limit nbytes maxpktsize rest
          { pep with bmRcvToggle := r.dtgl } count addr pktsize (addrs ++ [addr])
      else if d.rcode ≠ 0 then
        some ⟨d.rcode, count, pep, addrs ++ [addr]⟩
      else
        let pktsize := if r.byte_count > nbytes then nbytes else r.byte_count
        let count := u8 (count + pktsize)
        if pktsize < maxpktsize ∨ count ≥ nbytes then
          some ⟨0, count, { pep with bmRcvToggle := r.dtgl }, addrs ++ [addr]⟩
        else
          InTransfer.loop c nak_limit nbytes maxpktsize rest pep count addr pktsize
            (addrs ++ [addr])

/-- Model of `USBHost::InTransfer(pep, nak_limit, nbytesptr, data)`.  `nbytes` is the
value `*nbytesptr` holds on entry (the requested length, an `uint8_t`), `data`
the address of the receive buffer, `replies` the behaviour of the hardware at
the successive IN dispatches. -/
def InTransfer (c : Defs) (pep : EpInfo) (nak_limit nbytes data : Nat)
    (replies : List InReply) : Option InExit :=
  InTransfer.loop c nak_limit nbytes pep.maxPktSize replies pep 0 (u32 data) 0 []

/-- The IN dispatch answered by `r` succeeds: `dispatchPkt` returns 0. -/
def InReply.succeeds (c : Defs) (nak_limit : Nat) (r : InReply) : Prop :=
  ∃ d, dispatchPkt c r.now nak_limit r.samples = some d ∧ d.rcode = 0

/-- A reply in which the IN dispatch succeeds on the first look at the hardware
and `n` bytes have arrived. -/
def InReply.ack (c : Defs) (n : Nat) : InReply :=
  ⟨0, [PipeSample.done c 0], n, 0⟩

/-- A sample taken at time `t` with VBUS connected and the toggle error bit set. -/
def PipeSample.toggleError (c : Defs) (t : Nat) : PipeSample :=
  ⟨t, c.UHD_STATE_CONNECTED, false, false, false, false, true⟩

/-- A reply in which the IN dispatch ends with a data toggle error and the
hardware toggle then reads `dtgl`. -/
def InReply.toggleError (c : Defs) (dtgl : Nat) : InReply :=
  ⟨0, [PipeSample.toggleError c 0], 0, dtgl⟩

/-! ## Enumeration layer: calls that leave `Usb.cpp`

`Task`, `Configuring`, `AttemptConfig` and `DefaultAddressing` call the
registered drivers through the virtual interface `USBDeviceConfig`, the host
controller through the `UHD_` functions, the address pool, and the control
transfers of this engine.  None of these callees is determined by the four
functions themselves, so each such call is a request to an environment that
answers with a number and moves to a new state; the functions are modelled
for every environment, and every call is recorded, with its answer, in a
trace.  A driver is named by its index in the table `devConfig`. -/

/-- The pointer stored into `p->epinfo` by `Configuring`. -/
inductive EpInfoPtr where
  /-- The address of the local record `epInfo` of `Configuring`. -/
  | local_epInfo
  /-- A pointer value read back earlier from `p->epinfo`. -/
  | saved (ptr : Nat)
  /-- The address of the member array `epInfo` of the driver that is running. -/
  | driver_epInfo
deriving DecidableEq, Repr

/-- The calls made by the enumeration layer.  A call on a driver carries the
index of the slot of `devConfig` it goes through. -/
inductive Ext where
  | UHD_GetVBUSState
  | millis
  | UHD_Init
  | UHD_BusReset
  | Is_uhd_reset_sent
  | uhd_ack_reset_sent
  | uhd_enable_sof
  | Is_uhd_sof
  | delay (ms : Nat)
  | Poll (driver : Nat)
  | Release (driver : Nat)
  | GetAddress (driver : Nat)
  | VIDPIDOK (driver vid pid : Nat)
  | DEVCLASSOK (driver klass : Nat)
  | ConfigureDevice (driver parent port lowspeed : Nat)
  | Init (driver parent port lowspeed : Nat)
  | ResetHubPort (driver port : Nat)
  /-- The lookup `addrPool.GetUsbDevicePtr(addr)`; the answer 0 is the null pointer. -/
  | GetUsbDevicePtr (addr : Nat)
  | AllocAddress (parent is_hub port : Nat)
  | FreeAddress (addr : Nat)
  /-- Reading the field `epinfo` of the pool slot found for `addr`. -/
  | get_epinfo (addr : Nat)
  /-- Writing the field `epinfo` of the pool slot found for `addr`. -/
  | set_epinfo (addr : Nat) (ptr : EpInfoPtr)
  /-- Writing the field `lowspeed` of the pool slot found for `addr`. -/
  | set_lowspeed (addr value : Nat)
  /-- The control transfer issued by `getDevDescr(addr, ep, nbytes, buf)`. -/
  | ctrlReq_GET_DESCRIPTOR_DEVICE (addr ep nbytes : Nat)
  /-- The control transfer issued by `setAddr(oldaddr, ep, newaddr)`. -/
  | ctrlReq_SET_ADDRESS (oldaddr ep newaddr : Nat)
  /-- Reading `udd->idVendor` from the descriptor buffer. -/
  | udd_idVendor
  /-- Reading `udd->idProduct` from the descriptor buffer. -/
  | udd_idProduct
  /-- Reading `udd->bDeviceClass` from the descriptor buffer. -/
  | udd_bDeviceClass
  /-- Reading `buf[0]`, the field `bLength` of the descriptor buffer. -/
  | udd_bLength
  /-- Reading `bMaxPacketSize0` from the descriptor buffer. -/
  | udd_bMaxPacketSize0
  /-- Reading `bNumConfigurations` from the descriptor buffer. -/
  | udd_bNumConfigurations
  /-- The control transfer issued by `getConfDescr` for configuration `conf`,
  asking for `total` bytes into a buffer of `nbytes` bytes. -/
  | ctrlReq_GET_DESCRIPTOR_CONFIGURATION (addr ep conf total nbytes : Nat)
  /-- Reading `ucd->wTotalLength` from the buffer of `getConfDescr`. -/
  | ucd_wTotalLength
  /-- The call `setEpInfoEntry(addr, epcount, eprecord_ptr)`. -/
  | setEpInfoEntry (addr epcount : Nat) (eprecord_ptr : EpInfoPtr)
  /-- The control transfer issued by `setConf(addr, ep, conf_value)`. -/
  | ctrlReq_SET_CONFIGURATION (addr ep conf_value : Nat)
  /-- The control transfer issued by `HID::SetProtocol(iface, protocol)` of the
  driver that owns `addr`. -/
  | ctrlReq_SET_PROTOCOL (addr iface protocol : Nat)
  /-- The control transfer issued by `HID::SetIdle(iface, reportID, duration)`. -/
  | ctrlReq_SET_IDLE (addr iface reportID duration : Nat)
  /-- The control transfer issued by `HID::GetReportDescr(ep, parser)`. -/
  | ctrlReq_GET_REPORT_DESCR (addr ep : Nat)
  /-- The control transfer issued by
  `HID::SetReport(ep, iface, report_type, report_id, nbytes, dataptr)`, with the
  byte `dataptr` points to. -/
  | ctrlReq_SET_REPORT (addr ep iface report_type report_id nbytes data : Nat)
deriving DecidableEq, Repr

/-- An entry of the trace: a call with the value it returned, a mark put where
one of the functions of `Usb.cpp` is entered, or a mark put where `Configuring`
has received the result of `AttemptConfig`. -/
inductive Event where
  | call (e : Ext) (ret : Nat)
  | AttemptConfig (driver parent port lowspeed : Nat)
  | DefaultAddressing (parent port lowspeed : Nat)
  /-- Put after `rcode = AttemptConfig(devConfigIndex, ...)` in the first
  (`pass = 1`) or the second (`pass = 2`) loop of `Configuring`: the driver
  attempted and the value of `rcode`. -/
  | attempted (pass driver rcode : Nat)
deriving DecidableEq, Repr

/-- The surroundings of the engine: which slots of `devConfig` hold a driver, and
how every outside call answers and changes the state `W` of everything that
is not a variable of `Usb.cpp` (drivers, controller, devices, address pool). -/
structure Host (W : Type) where
  /-- Whether `devConfig[i]` is a non-null pointer. -/
  devConfig : Nat → Bool
  /-- The answer to a call and the state it leaves. -/
  run : Ext → W → Nat × W

/-- The state threaded through the enumeration layer: the environment and the
trace of what has been called so far. -/
structure Sys (W : Type) where
  world : W
  trace : List Event

/-- Make one outside call: ask the environment, record call and answer. -/
def Host.call {W : Type} (H : Host W) (e : Ext) (s : Sys W) : Nat × Sys W :=
  ((H.run e s.world).1, ⟨(H.run e s.world).2, s.trace ++ [Event.call e (H.run e s.world).1]⟩)

/-- Put a mark in the trace. -/
def Sys.mark {W : Type} (ev : Event) (s : Sys W) : Sys W :=
  ⟨s.world, s.trace ++ [ev]⟩

/-- Whether a trace entry is a call (and not a mark). -/
def Event.isCall : Event → Bool
  | .call _ _ => true
  | _ => false

/-- The calls of a trace, in order, without their answers. -/
def calls : List Event → List Ext
  | [] => []
  | .call e _ :: rest => e :: calls rest
  | _ :: rest => calls rest

/-- The drivers on which `AttemptConfig` was entered, in the order of the trace. -/
def attempts : List Event → List Nat
  | [] => []
  | .AttemptConfig driver _ _ _ :: rest => driver :: attempts rest
  | _ :: rest => attempts rest

/-- Whether a trace entry is the mark of an entry into `DefaultAddressing`. -/
def Event.isDefaultAddressing : Event → Bool
  | .DefaultAddressing _ _ _ => true
  | _ => false

/-- A trace entry other than a device descriptor request that failed. -/
def Event.descriptorRead : Event → Bool
  | .call (.ctrlReq_GET_DESCRIPTOR_DEVICE _ _ _) ret => ret == 0
  | _ => true

/-- A trace entry other than an attempt that claimed the device or failed hard:
every result of `AttemptConfig` received in the first loop of `Configuring` is
`USB_DEV_CONFIG_ERROR_DEVICE_NOT_SUPPORTED`, every one received in the second
loop is that code or `USB_ERROR_CLASS_INSTANCE_ALREADY_IN_USE`. -/
def Event.declined (c : Defs) : Event → Bool
  | .attempted pass _ rcode =>
    if pass = 1 then rcode == c.USB_DEV_CONFIG_ERROR_DEVICE_NOT_SUPPORTED
    else rcode == c.USB_DEV_CONFIG_ERROR_DEVICE_NOT_SUPPORTED ||
      rcode == c.USB_ERROR_CLASS_INSTANCE_ALREADY_IN_USE
  | _ => true

/-- Whether a trace entry is something else than the mark of an entry into
`DefaultAddressing`. -/
def Event.notDefaultAddressing (ev : Event) : Bool := !ev.isDefaultAddressing

/-- How many times `DefaultAddressing` was entered. -/
def countDefaultAddressing (trace : List Event) : Nat :=
  trace.countP Event.isDefaultAddressing

/-- Whether a trace entry is a call of `Release()` through slot `i` of `devConfig`. -/
def Event.isRelease (i : Nat) : Event → Bool
  | .call (.Release j) _ => j == i
  | _ => false

/-- How many times `Release()` was called through slot `i`. -/
def releases (i : Nat) (trace : List Event) : Nat :=
  trace.countP (Event.isRelease i)

/-- How many calls of `ConfigureDevice` a trace holds. -/
def countConfigureDevice (trace : List Event) : Nat :=
  trace.countP fun ev => match ev with
    | .call (.ConfigureDevice _ _ _ _) _ => true
    | _ => false

/-- How many calls of `Init` a trace holds. -/
def countInit (trace : List Event) : Nat :=
  trace.countP fun ev => match ev with
    | .call (.Init _ _ _ _) _ => true
    | _ => false

/-- How many calls of `delay(100)` a trace holds.  In `AttemptConfig` this call
stands next to `retries++` and nowhere else, so it counts the retries. -/
def countRetryDelay (trace : List Event) : Nat :=
  trace.countP fun ev => match ev with
    | .call (.delay 100) _ => true
    | _ => false

/-- The state `t` continues `s` by a stretch of trace that holds `a` calls of
`ConfigureDevice`, `b` calls of `Init` and `d` calls of `delay(100)`. -/
def Sys.tallies {W : Type} (a b d : Nat) (s t : Sys W) : Prop :=
  ∃ ext, t.trace = s.trace ++ ext ∧
    countConfigureDevice ext = a ∧ countInit ext = b ∧ countRetryDelay ext = d

/-- The state `t` continues `s` by entries that all satisfy `P`: its trace is the
trace of `s` followed by such entries. -/
def Sys.extendsWith {W : Type} (P : Event → Bool) (s t : Sys W) : Prop :=
  ∃ ext, t.trace = s.trace ++ ext ∧ ∀ ev ∈ ext, P ev = true

/-! ## `USBHost::AttemptConfig` -/

section Enumeration

variable {W : Type}

/-- The reset issued by `AttemptConfig`, the same statement in both places it
occurs: `UHD_BusReset(); delay(102);` when `parent == 0`, and otherwise
`devConfig[parent]->ResetHubPort(port)`, a call through the table slot whose
index is the value of `parent`. -/
def AttemptConfig.reset (H : Host W) (parent port : Nat) (s : Sys W) : Sys W :=
  if parent = 0 then
    (H.call (.delay 102) (H.call .UHD_BusReset s).2).2
  else
    (H.call (.ResetHubPort parent port) s).2

/-- The calls made by `AttemptConfig.reset`. -/
def AttemptConfig.resetCalls (parent port : Nat) : List Ext :=
  if parent = 0 then [.UHD_BusReset, .delay 102] else [.ResetHubPort parent port]

/-- The trace entries `AttemptConfig(driver, parent, port, lowspeed)` can add after
its mark: calls only; a call of `ResetHubPort` only when `parent` is not 0, and
then through the table slot `parent` with argument `port`; a call of
`UHD_BusReset` only when `parent` is 0. -/
def AttemptConfig.resetOk (parent port : Nat) : Event → Bool
  | .call (.ResetHubPort slot p) _ => decide (parent ≠ 0 ∧ slot = parent ∧ p = port)
  | .call .UHD_BusReset _ => decide (parent = 0)
  | .call _ _ => true
  | _ => false

/-- The last part of `AttemptConfig`, from `rcode = devConfig[driver]->Init(...)`
on.  `retry` is `some k` while `retries < 3` holds, `k` being the code at the
label `again` run with `retries + 1`; it is `none` when `retries` is 3.  The
local `rcode` is an `uint8_t`. -/
def AttemptConfig.initStep (H : Host W) (driver parent port lowspeed : Nat)
    (retry : Option (Sys W → Nat × Sys W)) (s : Sys W) : Nat × Sys W :=
  let r := H.call (.Init driver parent port lowspeed) s
  let rcode := u8 r.1
  match retry with
  | some again =>
    if rcode ≠ 0 then again (H.call (.delay 100) r.2).2 else (rcode, r.2)
  | none =>
    if rcode ≠ 0 then (rcode, AttemptConfig.reset H parent port r.2) else (rcode, r.2)

/-- The code of `AttemptConfig` from the label `again` on, for one value of
`retries` (see `AttemptConfig.initStep` for `retry`). -/
def AttemptConfig.body (H : Host W) (c : Defs) (driver parent port lowspeed : Nat)
    (retry : Option (Sys W → Nat × Sys W)) (s : Sys W) : Nat × Sys W :=
  let r := H.call (.ConfigureDevice driver parent port lowspeed) s
  let rcode := u8 r.1
  if rcode = c.USB_ERROR_CONFIG_REQUIRES_ADDITIONAL_RESET then
    AttemptConfig.initStep H driver parent port lowspeed retry
      (AttemptConfig.reset H parent port r.2)
  else
    match retry with
    | some again =>
      if rcode ≠ 0 then again (H.call (.delay 100) r.2).2
      else AttemptConfig.initStep H driver parent port lowspeed retry r.2
    | none =>
      if rcode ≠ 0 then (rcode, r.2)
      else AttemptConfig.initStep H driver parent port lowspeed retry r.2

/-- The label `again` of `AttemptConfig`, by the number `3 - retries` of retries
still allowed. -/
def AttemptConfig.again (H : Host W) (c : Defs) (driver parent port lowspeed : Nat) :
    Nat → Sys W → Nat × Sys W
  | 0 => AttemptConfig.body H c driver parent port lowspeed none
  | left + 1 =>
    AttemptConfig.body H c driver parent port lowspeed
      (some (AttemptConfig.again H c driver parent port lowspeed left))

/-- Model of `USBHost::AttemptConfig(driver, parent, port, lowspeed)`: entered with
`retries = 0`. -/
def AttemptConfig (H : Host W) (c : Defs) (driver parent port lowspeed : Nat)
    (s : Sys W) : Nat × Sys W :=
  AttemptConfig.again H c driver parent port lowspeed 3
    (s.mark (.AttemptConfig driver parent port lowspeed))

/-! ## `USBHost::DefaultAddressing` and `USBHost::Configuring` -/

/-- Model of `USBHost::setAddr(oldaddr, ep, newaddr)`: the control request, then
`delay(300)`. -/
def setAddr (H : Host W) (oldaddr ep newaddr : Nat) (s : Sys W) : Nat × Sys W :=
  let r := H.call (.ctrlReq_SET_ADDRESS oldaddr ep newaddr) s
  (r.1, (H.call (.delay 300) r.2).2)

/-- Model of `USBHost::DefaultAddressing(parent, port, lowspeed)`. -/
def DefaultAddressing (H : Host W) (c : Defs) (parent port lowspeed : Nat)
    (s : Sys W) : Nat × Sys W :=
  let s := s.mark (.DefaultAddressing parent port lowspeed)
  let p0 := H.call (.GetUsbDevicePtr 0) s
  if p0.1 = 0 then (c.USB_ERROR_ADDRESS_NOT_FOUND_IN_POOL, p0.2) else
  let ep := H.call (.get_epinfo 0) p0.2
  if ep.1 = 0 then (c.USB_ERROR_EPINFO_IS_NULL, ep.2) else
  let s := (H.call (.set_lowspeed 0 (if lowspeed ≠ 0 then 1 else 0)) ep.2).2
  let bAddress := H.call (.AllocAddress parent 0 port) s
  if bAddress.1 = 0 then (c.USB_ERROR_OUT_OF_ADDRESS_SPACE_IN_POOL, bAddress.2) else
  let p := H.call (.GetUsbDevicePtr bAddress.1) bAddress.2
  if p.1 = 0 then (c.USB_ERROR_ADDRESS_NOT_FOUND_IN_POOL, p.2) else
  let s := (H.call (.set_lowspeed bAddress.1 lowspeed) p.2).2
  let rcode := setAddr H 0 0 bAddress.1 s
  if rcode.1 ≠ 0 then (rcode.1, (H.call (.FreeAddress bAddress.1) rcode.2).2)
  else (0, rcode.2)

/-- The test `devConfig[i]->VIDPIDOK(vid, pid) || devConfig[i]->DEVCLASSOK(klass)`;
the second call is made only when the first answers false. -/
def Configuring.matches (H : Host W) (i vid pid klass : Nat) (s : Sys W) : Bool × Sys W :=
  let v := H.call (.VIDPIDOK i vid pid) s
  if v.1 ≠ 0 then (true, v.2)
  else
    let k := H.call (.DEVCLASSOK i klass) v.2
    (decide (k.1 ≠ 0), k.2)

/-- The first `for` loop of `Configuring`.  The first argument is
`USB_NUMDEVICES - devConfigIndex`, the number of slots still to visit, the
second `devConfigIndex`.  The result is the value of `devConfigIndex` when the
loop is left (by `break` or by its condition) and the value of `rcode`. -/
def Configuring.pass1 (H : Host W) (c : Defs) (vid pid klass parent port lowspeed : Nat) :
    Nat → Nat → Nat → Sys W → Nat × Nat × Sys W
  | 0, devConfigIndex, rcode, s => (devConfigIndex, rcode, s)
  | left + 1, devConfigIndex, rcode, s =>
    if H.devConfig devConfigIndex = false then
      Configuring.pass1 H c vid pid klass parent port lowspeed left (devConfigIndex + 1) rcode s
    else
      let a := H.call (.GetAddress devConfigIndex) s
      if a.1 ≠ 0 then
        Configuring.pass1 H c vid pid klass parent port lowspeed left (devConfigIndex + 1) rcode a.2
      else
        let m := Configuring.matches H devConfigIndex vid pid klass a.2
        if m.1 then
          let r := AttemptConfig H c devConfigIndex parent port lowspeed m.2
          let t := r.2.mark (.attempted 1 devConfigIndex r.1)
          if r.1 ≠ c.USB_DEV_CONFIG_ERROR_DEVICE_NOT_SUPPORTED then
            (devConfigIndex, r.1, t)
          else
            Configuring.pass1 H c vid pid klass parent port lowspeed left (devConfigIndex + 1)
              r.1 t
        else
          Configuring.pass1 H c vid pid klass parent port lowspeed left (devConfigIndex + 1)
            rcode m.2

/-- The second `for` loop of `Configuring` (the blind attempt), arguments as in
`Configuring.pass1`.  The result is `some rcode` when the loop executes its
`return rcode`, and `none` when it runs to its end. -/
def Configuring.pass2 (H : Host W) (c : Defs) (vid pid klass parent port lowspeed : Nat) :
    Nat → Nat → Sys W → Option Nat × Sys W
  | 0, _, s => (none, s)
  | left + 1, devConfigIndex, s =>
    if H.devConfig devConfigIndex = false then
      Configuring.pass2 H c vid pid klass parent port lowspeed left (devConfigIndex + 1) s
    else
      let a := H.call (.GetAddress devConfigIndex) s
      if a.1 ≠ 0 then
        Configuring.pass2 H c vid pid klass parent port lowspeed left (devConfigIndex + 1) a.2
      else
        let m := Configuring.matches H devConfigIndex vid pid klass a.2
        if m.1 then
          Configuring.pass2 H c vid pid klass parent port lowspeed left (devConfigIndex + 1) m.2
        else
          let r := AttemptConfig H c devConfigIndex parent port lowspeed m.2
          let t := r.2.mark (.attempted 2 devConfigIndex r.1)
          if ¬ (r.1 = c.USB_DEV_CONFIG_ERROR_DEVICE_NOT_SUPPORTED ∨
                r.1 = c.USB_ERROR_CLASS_INSTANCE_ALREADY_IN_USE) then
            (some r.1, t)
          else
            Configuring.pass2 H c vid pid klass parent port lowspeed left (devConfigIndex + 1)
              t

/-- The part of `Configuring` after the device descriptor has been read
successfully: the three descriptor fields, the two loops over the driver
table, and the fall back to `DefaultAddressing`. -/
def Configuring.dispatch (H : Host W) (c : Defs) (parent port lowspeed : Nat)
    (s : Sys W) : Nat × Sys W :=
  let vid := H.call .udd_idVendor s
  let pid := H.call .udd_idProduct vid.2
  let klass := H.call .udd_bDeviceClass pid.2
  let first := Configuring.pass1 H c vid.1 pid.1 klass.1 parent port lowspeed
    c.USB_NUMDEVICES 0 0 klass.2
  if first.1 < c.USB_NUMDEVICES then (first.2.1, first.2.2)
  else
    let second := Configuring.pass2 H c vid.1 pid.1 klass.1 parent port lowspeed
      c.USB_NUMDEVICES 0 first.2.2
    match second.1 with
    | some rcode => (rcode, second.2)
    | none => DefaultAddressing H c parent port lowspeed second.2

/-- Model of `USBHost::Configuring(parent, port, lowspeed)`.  `sizeof_udd` is
`sizeof (USB_DEVICE_DESCRIPTOR)`.  The store `epInfo.maxPktSize = buf[7]` goes
to a local record that nothing refers to once `p->epinfo` is restored on the
next line, and is not represented. -/
def Configuring (H : Host W) (c : Defs) (sizeof_udd parent port lowspeed : Nat)
    (s : Sys W) : Nat × Sys W :=
  let p := H.call (.GetUsbDevicePtr 0) s
  if p.1 = 0 then (c.USB_ERROR_ADDRESS_NOT_FOUND_IN_POOL, p.2) else
  let oldep_ptr := H.call (.get_epinfo 0) p.2
  let s := (H.call (.set_epinfo 0 .local_epInfo) oldep_ptr.2).2
  let s := (H.call (.set_lowspeed 0 lowspeed) s).2
  let rcode := H.call (.ctrlReq_GET_DESCRIPTOR_DEVICE 0 0 sizeof_udd) s
  let s := (H.call (.set_epinfo 0 (.saved oldep_ptr.1)) rcode.2).2
  if rcode.1 ≠ 0 then (rcode.1, s)
  else Configuring.dispatch H c parent port lowspeed s

/-! ## Enumeration state machine: `USBHost::Task` -/

/-- The variables of `Usb.cpp` that outlive a call of `Task`: the file-scope
`usb_task_state` and `usb_error`, and the function-static `delay`. -/
structure Engine where
  usb_task_state : Nat
  usb_error : Nat
  delay : Nat
deriving DecidableEq, Repr

/-- The first part of `Task`: read VBUS and `switch (tmpdata)`. -/
def Task.vbus (H : Host W) (c : Defs) (e : Engine) (s : Sys W) : Engine × Sys W :=
  let tmpdata := H.call .UHD_GetVBUSState s
  if tmpdata.1 = c.UHD_STATE_ERROR then
    ({ e with usb_task_state := c.USB_DETACHED_SUBSTATE_ILLEGAL }, tmpdata.2)
  else if tmpdata.1 = c.UHD_STATE_DISCONNECTED then
    if e.usb_task_state &&& c.USB_STATE_MASK ≠ c.USB_STATE_DETACHED then
      ({ e with usb_task_state := c.USB_DETACHED_SUBSTATE_INITIALIZE }, tmpdata.2)
    else (e, tmpdata.2)
  else if tmpdata.1 = c.UHD_STATE_CONNECTED then
    if e.usb_task_state &&& c.USB_STATE_MASK = c.USB_STATE_DETACHED then
      let now := H.call .millis tmpdata.2
      ({ e with delay := u32 (now.1 + c.USB_SETTLE_DELAY),
                usb_task_state := c.USB_ATTACHED_SUBSTATE_SETTLE }, now.2)
    else (e, tmpdata.2)
  else (e, tmpdata.2)

/-- The loop `for (i = 0; i < USB_NUMDEVICES; ++i) if (devConfig[i]) devConfig[i]->f()`
that `Task` runs with `f = Poll` and with `f = Release`.  The first argument
is the number of slots still to visit, the second the index `i`. -/
def Task.forEach (H : Host W) (f : Nat → Ext) : Nat → Nat → Sys W → Sys W
  | 0, _, s => s
  | left + 1, i, s =>
    Task.forEach H f left (i + 1) (if H.devConfig i then (H.call (f i) s).2 else s)

/-- The last part of `Task`: `switch (usb_task_state)`.  The local `lowspeed` is 0
on every path that reaches `Configuring`. -/
def Task.stage (H : Host W) (c : Defs) (sizeof_udd : Nat) (e : Engine) (s : Sys W) :
    Engine × Sys W :=
  if e.usb_task_state = c.USB_DETACHED_SUBSTATE_INITIALIZE then
    let s := (H.call .UHD_Init s).2
    let s := Task.forEach H Ext.Release c.USB_NUMDEVICES 0 s
    ({ e with usb_task_state := c.USB_DETACHED_SUBSTATE_WAIT_FOR_DEVICE }, s)
  else if e.usb_task_state = c.USB_DETACHED_SUBSTATE_WAIT_FOR_DEVICE then (e, s)
  else if e.usb_task_state = c.USB_DETACHED_SUBSTATE_ILLEGAL then (e, s)
  else if e.usb_task_state = c.USB_ATTACHED_SUBSTATE_SETTLE then
    let now := H.call .millis s
    -- `(long)(millis() - delay) >= 0L`
    if u32 (now.1 + (2 ^ 32 - u32 e.delay)) < 2 ^ 31 then
      ({ e with usb_task_state := c.USB_ATTACHED_SUBSTATE_RESET_DEVICE }, now.2)
    else (e, now.2)
  else if e.usb_task_state = c.USB_ATTACHED_SUBSTATE_RESET_DEVICE then
    ({ e with usb_task_state := c.USB_ATTACHED_SUBSTATE_WAIT_RESET_COMPLETE },
      (H.call .UHD_BusReset s).2)
  else if e.usb_task_state = c.USB_ATTACHED_SUBSTATE_WAIT_RESET_COMPLETE then
    let sent := H.call .Is_uhd_reset_sent s
    if sent.1 ≠ 0 then
      let s := (H.call .uhd_ack_reset_sent sent.2).2
      let s := (H.call .uhd_enable_sof s).2
      let now := H.call .millis s
      ({ e with usb_task_state := c.USB_ATTACHED_SUBSTATE_WAIT_SOF,
                delay := u32 (now.1 + 20) }, now.2)
    else (e, sent.2)
  else if e.usb_task_state = c.USB_ATTACHED_SUBSTATE_WAIT_SOF then
    let sof := H.call .Is_uhd_sof s
    if sof.1 ≠ 0 then
      let now := H.call .millis sof.2
      if e.delay < now.1 then
        ({ e with usb_task_state := c.USB_STATE_CONFIGURING }, now.2)
      else (e, now.2)
    else (e, sof.2)
  else if e.usb_task_state = c.USB_STATE_CONFIGURING then
    let rcode := Configuring H c sizeof_udd 0 0 0 s
    if rcode.1 ≠ 0 then
      if rcode.1 ≠ c.USB_DEV_CONFIG_ERROR_DEVICE_INIT_INCOMPLETE then
        ({ e with usb_error := rcode.1, usb_task_state := c.USB_STATE_ERROR }, rcode.2)
      else (e, rcode.2)
    else
      ({ e with usb_task_state := c.USB_STATE_RUNNING }, rcode.2)
  else (e, s)

/-- The case labels of `switch (usb_task_state)` in `Task`, in source order.  A
C `switch` cannot have two equal case labels, so they are pairwise different
in every build. -/
def Defs.stateLabels (c : Defs) : List Nat :=
  [c.USB_DETACHED_SUBSTATE_INITIALIZE, c.USB_DETACHED_SUBSTATE_WAIT_FOR_DEVICE,
   c.USB_DETACHED_SUBSTATE_ILLEGAL, c.USB_ATTACHED_SUBSTATE_SETTLE,
   c.USB_ATTACHED_SUBSTATE_RESET_DEVICE, c.USB_ATTACHED_SUBSTATE_WAIT_RESET_COMPLETE,
   c.USB_ATTACHED_SUBSTATE_WAIT_SOF, c.USB_STATE_CONFIGURING, c.USB_STATE_RUNNING,
   c.USB_STATE_ERROR]

/-- The case labels of `switch (tmpdata)` in `Task`, in source order. -/
def Defs.vbusLabels (c : Defs) : List Nat :=
  [c.UHD_STATE_ERROR, c.UHD_STATE_DISCONNECTED, c.UHD_STATE_CONNECTED]

/-- Model of `USBHost::Task()`: one tick. -/
def Task (H : Host W) (c : Defs) (sizeof_udd : Nat) (e : Engine) (s : Sys W) :
    Engine × Sys W :=
  let v := Task.vbus H c e s
  Task.stage H c sizeof_udd v.1 (Task.forEach H Ext.Poll c.USB_NUMDEVICES 0 v.2)

end Enumeration

/-! ## Concrete environments

Small environments without state, used to run the functions above. -/

/-- No driver is registered, VBUS reads `v`, every other call answers 0. -/
def hostVbusReads (v : Nat) : Host Unit where
  devConfig _ := false
  run e w :=
    match e with
    | .UHD_GetVBUSState => (v, w)
    | _ => (0, w)

/-- VBUS reads connected and the pool answers every lookup; one driver is
registered, in slot 0, which matches every device, whose `ConfigureDevice`
answers 0 and whose `Init` answers `code`.  Every other call answers 0. -/
def hostInitAnswers (code : Nat) : Host Unit where
  devConfig i := i == 0
  run e w :=
    match e with
    | .UHD_GetVBUSState => (samd21.UHD_STATE_CONNECTED, w)
    | .GetUsbDevicePtr _ => (1, w)
    | .get_epinfo _ => (1, w)
    | .VIDPIDOK _ _ _ => (1, w)
    | .Init _ _ _ _ => (code, w)
    | _ => (0, w)

/-- VBUS reads disconnected; drivers are registered in slots 0 and 2. -/
def hostUnplugged : Host Unit where
  devConfig i := i == 0 || i == 2
  run e w :=
    match e with
    | .UHD_GetVBUSState => (samd21.UHD_STATE_DISCONNECTED, w)
    | _ => (0, w)

/-- An Arduino Uno (VID 0x2341, PID 0x0043, device class 2) is attached.  Slot 0
holds a driver that matches by device class only and whose `ConfigureDevice`
answers `USB_DEV_CONFIG_ERROR_DEVICE_NOT_SUPPORTED`; slot 1 holds a driver
whose `VIDPIDOK` is true for the Uno and which accepts it.  Both are
unclaimed. -/
def hostUno : Host Unit where
  devConfig i := i == 0 || i == 1
  run e w :=
    match e with
    | .GetUsbDevicePtr _ => (1, w)
    | .get_epinfo _ => (1, w)
    | .udd_idVendor => (0x2341, w)
    | .udd_idProduct => (0x0043, w)
    | .udd_bDeviceClass => (2, w)
    | .VIDPIDOK i vid pid => (if i = 1 ∧ vid = 0x2341 ∧ pid = 0x0043 then 1 else 0, w)
    | .DEVCLASSOK i klass => (if i = 0 ∧ klass = 2 then 1 else 0, w)
    | .ConfigureDevice i _ _ _ =>
      (if i = 0 then samd21.USB_DEV_CONFIG_ERROR_DEVICE_NOT_SUPPORTED else 0, w)
    | _ => (0, w)

/-- A device that no driver takes.  Slot 0 holds a driver whose `VIDPIDOK` is
true for the device and whose `ConfigureDevice` answers
`USB_DEV_CONFIG_ERROR_DEVICE_NOT_SUPPORTED`; slot 1 holds a driver that does
not match and whose `Init` answers `USB_ERROR_CLASS_INSTANCE_ALREADY_IN_USE`.
The address pool hands out address 1 and the control transfers succeed. -/
def hostDeclined : Host Unit where
  devConfig i := i == 0 || i == 1
  run e w :=
    match e with
    | .GetUsbDevicePtr _ => (1, w)
    | .get_epinfo _ => (1, w)
    | .AllocAddress _ _ _ => (1, w)
    | .VIDPIDOK i _ _ => (if i = 0 then 1 else 0, w)
    | .ConfigureDevice i _ _ _ =>
      (if i = 0 then samd21.USB_DEV_CONFIG_ERROR_DEVICE_NOT_SUPPORTED else 0, w)
    | .Init _ _ _ _ => (samd21.USB_ERROR_CLASS_INSTANCE_ALREADY_IN_USE, w)
    | _ => (0, w)

/-- A device behind a hub.  The hub driver, which owns bus address 5, is
registered in slot 1 of `devConfig`; slot 5 holds another driver, which owns
address 9; the driver in slot 0 answers `ConfigureDevice` with
`USB_ERROR_CONFIG_REQUIRES_ADDITIONAL_RESET` and accepts `Init`. -/
def hostHubInSlot1 : Host Unit where
  devConfig i := i == 0 || i == 1 || i == 5
  run e w :=
    match e with
    | .GetAddress i => (if i = 1 then 5 else if i = 5 then 9 else 0, w)
    | .ConfigureDevice i _ _ _ =>
      (if i = 0 then samd21.USB_ERROR_CONFIG_REQUIRES_ADDITIONAL_RESET else 0, w)
    | _ => (0, w)

/-- A device behind a hub whose driver owns bus address 5 and is registered in
slot 5 of `devConfig`; the driver in slot 0 answers `ConfigureDevice` with
`USB_ERROR_CONFIG_REQUIRES_ADDITIONAL_RESET` and accepts `Init`. -/
def hostHubInSlot5 : Host Unit where
  devConfig i := i == 0 || i == 5
  run e w :=
    match e with
    | .GetAddress i => (if i = 5 then 5 else 0, w)
    | .ConfigureDevice i _ _ _ =>
      (if i = 0 then samd21.USB_ERROR_CONFIG_REQUIRES_ADDITIONAL_RESET else 0, w)
    | _ => (0, w)

end USBHost

/-! ## HID boot driver: `HIDBoot::Release` -/

namespace HIDBoot

/-- The data members of `HIDBoot<BOOT_PROTOCOL>` (with `bAddress`, inherited from `HID`). -/
structure Driver where
  bAddress : Nat
  epInfo : List USBHost.EpInfo
  pRptParser : List Nat
  bConfNum : Nat
  bIfaceNum : Nat
  bNumIface : Nat
  bNumEP : Nat
  qNextPollTime : Nat
  bPollEnable : Nat
  bInterval : Nat
deriving DecidableEq, Repr

/-- Model of `HIDBoot::GetAddress()`. -/
def GetAddress (d : Driver) : Nat := d.bAddress

/-- Model of `HIDBoot::Release()`.  The call `FreeAddress(bAddress)` goes to the
address pool, whose code is elsewhere; `freed` is the list of the addresses
the pool has been asked to free so far.  The result is the return value, the
driver and that list. -/
def Release (d : Driver) (freed : List Nat) : Nat × Driver × List Nat :=
  (0,
   { d with bConfNum := 0, bIfaceNum := 0, bNumEP := 1, bAddress := 0,
            qNextPollTime := 0, bPollEnable := 0 },
   freed ++ [d.bAddress])

end HIDBoot


/-! ## Addresses left allocated, and `HIDBoot::Init` -/

namespace USBHost

/-- Whether a trace entry is the call `FreeAddress(a)`. -/
def Event.isFreeAddress (a : Nat) : Event → Bool
  | .call (.FreeAddress b) _ => b == a
  | _ => false

/-- The addresses a trace leaves allocated: the non-zero answers of
`AllocAddress` that no later `FreeAddress` of the trace names. -/
def leaks : List Event → List Nat
  | [] => []
  | .call (.AllocAddress _ _ _) a :: rest =>
    if a ≠ 0 ∧ rest.any (Event.isFreeAddress a) = false then a :: leaks rest else leaks rest
  | _ :: rest => leaks rest

/-- An environment without drivers whose address pool hands out address 1 and
then does not find it: `GetUsbDevicePtr` answers null for every address but
0.  Everything else answers 0. -/
def hostLostAddress : Host Unit where
  devConfig := fun _ => false
  run := fun e w =>
    match e with
    | .GetUsbDevicePtr a => (if a = 0 then 1 else 0, w)
    | .get_epinfo _ => (1, w)
    | .AllocAddress _ _ _ => (1, w)
    | .udd_bLength => (18, w)
    | .udd_bMaxPacketSize0 => (8, w)
    | _ => (0, w)

/-- Model of `USBHost::getConfDescr(addr, ep, conf, p)`, the variant with a
parser.  The result is the return value and whether the second request, the
one that feeds the parser, was issued. -/
def getConfDescr {W : Type} (H : Host W) (addr ep conf : Nat) (s : Sys W) :
    Nat × Bool × Sys W :=
  let ret := H.call (.ctrlReq_GET_DESCRIPTOR_CONFIGURATION addr ep conf 9 9) s
  if ret.1 ≠ 0 then (ret.1, false, ret.2)
  else
    let total := H.call .ucd_wTotalLength ret.2
    let r := H.call (.ctrlReq_GET_DESCRIPTOR_CONFIGURATION addr ep conf total.1 64) total.2
    (r.1, true, r.2)

end USBHost

namespace HIDBoot

open USBHost

/-- The constants of `hid.h` and `UsbCore.h` that `hidboot.h` uses; the headers
are not part of the sources at hand, so the constants are parameters. -/
structure HidDefs where
  HID_PROTOCOL_KEYBOARD : Nat
  HID_PROTOCOL_MOUSE : Nat
  HID_BOOT_PROTOCOL : Nat
  USB_NAK_NOWAIT : Nat

/-- The values these constants have in the library, used only to evaluate the
definitions on concrete inputs. -/
def hidDefs : HidDefs where
  HID_PROTOCOL_KEYBOARD := 0x01
  HID_PROTOCOL_MOUSE := 0x02
  HID_BOOT_PROTOCOL := 0x00
  USB_NAK_NOWAIT := 1

/-- The macro `bitsEndpoints(p)`. -/
def bitsEndpoints (h : HidDefs) (p : Nat) : Nat :=
  (if p &&& h.HID_PROTOCOL_KEYBOARD ≠ 0 then 2 else 0) |||
    (if p &&& h.HID_PROTOCOL_MOUSE ≠ 0 then 1 else 0)

/-- The macro `totalEndpoints(p)`. -/
def totalEndpoints (h : HidDefs) (p : Nat) : Nat :=
  if bitsEndpoints h p = 3 then 3 else 2

/-- The macro `epMUL(p)`. -/
def epMUL (h : HidDefs) (p : Nat) : Nat :=
  (if p &&& h.HID_PROTOCOL_KEYBOARD ≠ 0 then 1 else 0) +
    (if p &&& h.HID_PROTOCOL_MOUSE ≠ 0 then 1 else 0)

/-- The arguments of one call of `EndpointXtract` that the function reads:
`conf`, `iface` and four fields of the endpoint descriptor `*pep`. -/
structure EndpointCall where
  conf : Nat
  iface : Nat
  bmAttributes : Nat
  bEndpointAddress : Nat
  wMaxPacketSize : Nat
  bInterval : Nat
deriving DecidableEq, Repr

/-- Model of `HIDBoot<BOOT_PROTOCOL>::EndpointXtract`. -/
def EndpointXtract (h : HidDefs) (BOOT_PROTOCOL : Nat) (d : Driver) (x : EndpointCall) :
    Driver :=
  if d.bNumEP = totalEndpoints h BOOT_PROTOCOL then d
  else
    let d := { d with bConfNum := x.conf, bIfaceNum := x.iface }
    if x.bmAttributes &&& 0x03 = 3 ∧ x.bEndpointAddress &&& 0x80 = 0x80 then
      let d := if x.bInterval > d.bInterval then { d with bInterval := x.bInterval } else d
      { d with
        epInfo := d.epInfo.set d.bNumEP
          ⟨x.bEndpointAddress &&& 0x0F, u8 x.wMaxPacketSize, 0, 0, h.USB_NAK_NOWAIT⟩,
        bNumEP := u32 (d.bNumEP + 1) }
    else d

/-- The label `Fail:` of `Init`: `Release()`, then `return rcode`. -/
def Init.Fail {W : Type} (H : Host W) (rcode : Nat) (d : Driver) (s : Sys W) :
    Nat × Driver × Sys W :=
  (rcode, (Release d []).2.1, (H.call (.FreeAddress d.bAddress) s).2)

/-- One of the loops `for (i = 0; i < num_of_conf; i++)` of `Init` that read the
configuration descriptors through a parser for the interface protocol
`proto`.  The calls of `EndpointXtract` the parser makes while the descriptor
comes in are given by `parsed proto i`.  The first argument is
`num_of_conf - i`, the second `i`. -/
def Init.scan {W : Type} (H : Host W) (parsed : Nat → Nat → W → List EndpointCall)
    (h : HidDefs) (BOOT_PROTOCOL proto : Nat) : Nat → Nat → Driver → Sys W → Driver × Sys W
  | 0, _, d, s => (d, s)
  | left + 1, i, d, s =>
    let r := getConfDescr H d.bAddress 0 i s
    let found := if r.2.1 then parsed proto i r.2.2.world else []
    let d := found.foldl (EndpointXtract h BOOT_PROTOCOL) d
    if d.bNumEP = u8 (totalEndpoints h BOOT_PROTOCOL) then (d, r.2.2)
    else Init.scan H parsed h BOOT_PROTOCOL proto left (i + 1) d r.2.2

/-- The loop `for (i = 0; i < epMUL(BOOT_PROTOCOL); i++)` of `Init`.  The first
argument is the number of rounds still to run, the second `i`.  The result is
`some rcode` when the loop is left by `goto FailSetProtocol`. -/
def Init.protocols {W : Type} (H : Host W) (h : HidDefs) (d : Driver) :
    Nat → Nat → Sys W → Option Nat × Sys W
  | 0, _, s => (none, s)
  | left + 1, i, s =>
    let r := H.call (.ctrlReq_SET_PROTOCOL d.bAddress i h.HID_BOOT_PROTOCOL) s
    if r.1 ≠ 0 then (some r.1, r.2)
    else
      let s := (H.call (.ctrlReq_SET_IDLE d.bAddress i 0 0) r.2).2
      let s := (H.call (.ctrlReq_GET_REPORT_DESCR d.bAddress i) s).2
      Init.protocols H h d left (i + 1) s

/-- The loop `while (rcode) { rcode >>= 1; SetReport(...); delay(25); }` of
`Init`.  The first argument bounds the number of rounds; `rcode` starts at
`0x20`, so six rounds bring it to 0 and end the loop. -/
def Init.leds {W : Type} (H : Host W) (d : Driver) : Nat → Nat → Sys W → Sys W
  | 0, _, s => s
  | rounds + 1, rcode, s =>
    if rcode ≠ 0 then
      let rcode := rcode >>> 1
      let s := (H.call (.ctrlReq_SET_REPORT d.bAddress 0 0 2 0 1 (u8 rcode)) s).2
      let s := (H.call (.delay 25) s).2
      Init.leds H d rounds rcode s
    else s

/-- The part of `Init` that reads the configuration descriptors: one loop with
the parser for keyboard or mouse when `BOOT_PROTOCOL` has both bits, else the
keyboard loop and the mouse loop, each if its bit is set. -/
def Init.descriptors {W : Type} (H : Host W) (parsed : Nat → Nat → W → List EndpointCall)
    (h : HidDefs) (BOOT_PROTOCOL num_of_conf : Nat) (d : Driver) (s : Sys W) :
    Driver × Sys W :=
  let both := h.HID_PROTOCOL_KEYBOARD ||| h.HID_PROTOCOL_MOUSE
  if BOOT_PROTOCOL &&& both = both then
    Init.scan H parsed h BOOT_PROTOCOL both num_of_conf 0 d s
  else
    let a :=
      if BOOT_PROTOCOL &&& h.HID_PROTOCOL_KEYBOARD ≠ 0 then
        Init.scan H parsed h BOOT_PROTOCOL h.HID_PROTOCOL_KEYBOARD num_of_conf 0 d s
      else (d, s)
    if BOOT_PROTOCOL &&& h.HID_PROTOCOL_MOUSE ≠ 0 then
      Init.scan H parsed h BOOT_PROTOCOL h.HID_PROTOCOL_MOUSE num_of_conf 0 a.1 a.2
    else a

/-- The part of `Init` from `num_of_conf = ...bNumConfigurations` on. -/
def Init.configure {W : Type} (H : Host W) (parsed : Nat → Nat → W → List EndpointCall)
    (c : Defs) (h : HidDefs) (BOOT_PROTOCOL : Nat) (d : Driver) (s : Sys W) :
    Nat × Driver × Sys W :=
  let n := H.call .udd_bNumConfigurations s
  let num_of_conf := u8 n.1
  let scanned := Init.descriptors H parsed h BOOT_PROTOCOL num_of_conf d n.2
  let d := scanned.1
  if d.bNumEP ≠ u8 (totalEndpoints h BOOT_PROTOCOL) then
    Init.Fail H c.USB_DEV_CONFIG_ERROR_DEVICE_NOT_SUPPORTED d scanned.2
  else
    let s := (H.call (.setEpInfoEntry d.bAddress d.bNumEP .driver_epInfo) scanned.2).2
    let s := (H.call (.delay 1000) s).2
    let rcode := H.call (.ctrlReq_SET_CONFIGURATION d.bAddress 0 d.bConfNum) s
    if rcode.1 ≠ 0 then Init.Fail H rcode.1 d rcode.2
    else
      let s := (H.call (.delay 1000) rcode.2).2
      let p := Init.protocols H h d (epMUL h BOOT_PROTOCOL) 0 s
      match p.1 with
      | some rcode => Init.Fail H rcode d p.2
      | none =>
        let s :=
          if BOOT_PROTOCOL &&& h.HID_PROTOCOL_KEYBOARD ≠ 0 then Init.leds H d 6 0x20 p.2
          else p.2
        (0, { d with bPollEnable := 1 }, s)

/-- The part of `Init` that follows a successful `AllocAddress`; `d.bAddress`
holds the new address and `len` the length found in the first descriptor. -/
def Init.addressed {W : Type} (H : Host W) (parsed : Nat → Nat → W → List EndpointCall)
    (c : Defs) (h : HidDefs) (BOOT_PROTOCOL sizeof_udd lowspeed len : Nat) (d : Driver)
    (s : Sys W) : Nat × Driver × Sys W :=
  let mps := H.call .udd_bMaxPacketSize0 s
  let d := { d with epInfo := d.epInfo.modify (fun e => { e with maxPktSize := u8 mps.1 }) 0 }
  let rcode := setAddr H 0 0 d.bAddress mps.2
  if rcode.1 ≠ 0 then
    let s := (H.call (.set_lowspeed 0 0) rcode.2).2
    let s := (H.call (.FreeAddress d.bAddress) s).2
    (rcode.1, { d with bAddress := 0 }, s)
  else
    let oldep_ptr := H.call (.get_epinfo 0) rcode.2
    let s := (H.call (.set_epinfo 0 .driver_epInfo) oldep_ptr.2).2
    let rcode := H.call (.ctrlReq_GET_DESCRIPTOR_DEVICE d.bAddress 0 sizeof_udd) s
    let s := (H.call (.set_epinfo 0 (.saved oldep_ptr.1)) rcode.2).2
    if rcode.1 ≠ 0 then Init.Fail H rcode.1 d s
    else
      let s := (H.call (.set_lowspeed 0 0) s).2
      let p := H.call (.GetUsbDevicePtr d.bAddress) s
      if p.1 = 0 then (c.USB_ERROR_ADDRESS_NOT_FOUND_IN_POOL, d, p.2)
      else
        let s := (H.call (.set_lowspeed d.bAddress lowspeed) p.2).2
        let rcode :=
          if len ≠ 0 then H.call (.ctrlReq_GET_DESCRIPTOR_DEVICE d.bAddress 0 len) s
          else (rcode.1, s)
        if rcode.1 ≠ 0 then Init.Fail H rcode.1 d rcode.2
        else Init.configure H parsed c h BOOT_PROTOCOL d rcode.2

/-- Model of `HIDBoot<BOOT_PROTOCOL>::Init(parent, port, lowspeed)`.
`sizeof_udd` is `sizeof (USB_DEVICE_DESCRIPTOR)`.  The result is the return
value, the driver and the state of the surroundings. -/
def Init {W : Type} (H : Host W) (parsed : Nat → Nat → W → List EndpointCall)
    (c : Defs) (h : HidDefs) (BOOT_PROTOCOL sizeof_udd parent port lowspeed : Nat)
    (d : Driver) (s : Sys W) : Nat × Driver × Sys W :=
  let constBufSize := u8 sizeof_udd
  if d.bAddress ≠ 0 then (c.USB_ERROR_CLASS_INSTANCE_ALREADY_IN_USE, d, s)
  else
    let d := { d with bInterval := 0 }
    let p := H.call (.GetUsbDevicePtr 0) s
    if p.1 = 0 then (c.USB_ERROR_ADDRESS_NOT_FOUND_IN_POOL, d, p.2)
    else
      let oldep_ptr := H.call (.get_epinfo 0) p.2
      if oldep_ptr.1 = 0 then (c.USB_ERROR_EPINFO_IS_NULL, d, oldep_ptr.2)
      else
        let s := (H.call (.set_epinfo 0 .driver_epInfo) oldep_ptr.2).2
        let s := (H.call (.set_lowspeed 0 lowspeed) s).2
        let rcode := H.call (.ctrlReq_GET_DESCRIPTOR_DEVICE 0 0 sizeof_udd) s
        if rcode.1 ≠ 0 then
          let s := (H.call (.set_epinfo 0 (.saved oldep_ptr.1)) rcode.2).2
          Init.Fail H rcode.1 d s
        else
          let buf0 := H.call .udd_bLength rcode.2
          let len := if u8 buf0.1 > constBufSize then constBufSize else u8 buf0.1
          let s := (H.call (.set_epinfo 0 (.saved oldep_ptr.1)) buf0.2).2
          let bAddress := H.call (.AllocAddress parent 0 port) s
          let d := { d with bAddress := bAddress.1 }
          if bAddress.1 = 0 then (c.USB_ERROR_OUT_OF_ADDRESS_SPACE_IN_POOL, d, bAddress.2)
          else
            Init.addressed H parsed c h BOOT_PROTOCOL sizeof_udd lowspeed len d bAddress.2

/-- A boot keyboard driver as its constructor leaves it (`Initialize()`), with
`USB_NAK_NOWAIT = 1`. -/
def fresh : Driver :=
  { bAddress := 0,
    epInfo := [⟨0, 8, 0, 0, samd21.USB_NAK_MAX_POWER⟩, ⟨0, 0, 0, 0, 1⟩],
    pRptParser := [0], bConfNum := 0, bIfaceNum := 0, bNumIface := 0, bNumEP := 1,
    qNextPollTime := 0, bPollEnable := 0, bInterval := 0 }

end HIDBoot

/-! ## Bulk OUT transfer: `USBHost::OutTransfer` -/

namespace USBHost

/-- What the hardware does in answer to one OUT dispatch made by `OutTransfer`. -/
structure OutReply where
  /-- The value of `millis()` when `dispatchPkt` is entered. -/
  now : Nat
  /-- What the wait loop of that `dispatchPkt` call sees. -/
  samples : List PipeSample
  /-- The value `USB_HOST_DTGL(pep->epAddr)` has from the end of this dispatch
  until the next one. -/
  dtgl : Nat
deriving DecidableEq, Repr

/-- One call `UHD_Pipe_Write(pep->epAddr, bytes_tosend, buf)`: the pipe, the
count, and the `nbytes` bytes that stand at the address passed. -/
structure PipeWrite where
  pipe : Nat
  nbytes : Nat
  bytes : List Nat
deriving DecidableEq, Repr

/-- The way `OutTransfer` returns. -/
structure OutExit where
  /-- The return value. -/
  rcode : Nat
  /-- The endpoint record as the function leaves it. -/
  pep : EpInfo
  /-- The calls of `UHD_Pipe_Write`, in order; one per dispatch. -/
  writes : List PipeWrite
  /-- The value of `bytes_left` at each dispatch, in order. -/
  pending : List Nat
  /-- Whether the function left through the label `breakout`, where
  `pep->bmSndToggle` is read back from the hardware. -/
  breakout : Bool
  /-- The indices `i` of the stores `buf[i] = data[i]` of the copy loop, in order. -/
  stored : List Nat
deriving DecidableEq, Repr

/-- The copy loop `for (i = 0; i < nbytes; i++) buf[i] = data[i]` of
`OutTransfer`, with `i` an `uint8_t`.  The first argument bounds the number of
times the loop condition is evaluated; `none` means the bound is reached with
the loop still running.  A store to an index outside `buf` is recorded and
leaves the 64 bytes of `buf` as they are.  The result is `buf` and the
indices stored to. -/
def OutTransfer.copy (nbytes : Nat) (data : List Nat) :
    Nat → Nat → List Nat → List Nat → Option (List Nat × List Nat)
  | 0, _, _, _ => none
  | fuel + 1, i, buf, stored =>
    if i < nbytes then
      OutTransfer.copy nbytes data fuel (u8 (i + 1)) (buf.set i (data.getD i 0)) (stored ++ [i])
    else some (buf, stored)

/-- The loop `while (bytes_left)` of `OutTransfer` and the label `breakout`, one
reply per pass.  `rcode` is the local of that name, `dtgl` the current value of
`USB_HOST_DTGL(pep->epAddr)`.  The locals `nak_count` and `retry_count` are
set to 0 at the top of every pass, so each is 1 after its increment.  The call
`UHD_Pipe_Write` is always given `buf`; the local `data_p` is advanced by the
source but never read and has no counterpart here. -/
def OutTransfer.loop (c : Defs) (nak_limit maxpktsize : Nat) (buf stored : List Nat) :
    List OutReply → EpInfo → Nat → Nat → Nat → List PipeWrite → List Nat → Option OutExit
  | [], pep, bytes_left, rcode, dtgl, writes, pending =>
    if bytes_left = 0 then
      some ⟨rcode, { pep with bmSndToggle := dtgl }, writes, pending, true, stored⟩
    else none
  | r :: rest, pep, bytes_left, rcode, dtgl, writes, pending =>
    if bytes_left = 0 then
      some ⟨rcode, { pep with bmSndToggle := dtgl }, writes, pending, true, stored⟩
    else
      let bytes_tosend := if bytes_left ≥ maxpktsize then maxpktsize else bytes_left
      let writes := writes ++ [⟨pep.epAddr, bytes_tosend, buf.take bytes_tosend⟩]
      let pending := pending ++ [bytes_left]
      match dispatchPkt c r.now nak_limit r.samples with
      | none => none
      | some d =>
        if d.rcode ≠ 0 then
          if d.rcode = c.USB_ERRORFLOW then
            if nak_limit ≠ 0 ∧ 1 = nak_limit then
              some ⟨d.rcode, { pep with bmSndToggle := r.dtgl }, writes, pending, true, stored⟩
            else some ⟨d.rcode, pep, writes, pending, false, stored⟩
          else if d.rcode = c.USB_ERRORTIMEOUT then
            if 1 = c.USB_RETRY_LIMIT then
              some ⟨d.rcode, { pep with bmSndToggle := r.dtgl }, writes, pending, true, stored⟩
            else some ⟨d.rcode, pep, writes, pending, false, stored⟩
          else if d.rcode = c.USB_ERROR_DATATOGGLE then
            -- `break` out of the `switch`, on to `bytes_left -= bytes_tosend`
            OutTransfer.loop c nak_limit maxpktsize buf stored rest
              { pep with bmSndToggle := r.dtgl } (bytes_left - bytes_tosend) d.rcode r.dtgl
              writes pending
          else
            some ⟨d.rcode, { pep with bmSndToggle := r.dtgl }, writes, pending, true, stored⟩
        else
          OutTransfer.loop c nak_limit maxpktsize buf stored rest pep
            (bytes_left - bytes_tosend) d.rcode r.dtgl writes pending

/-- Model of `USBHost::OutTransfer(pep, nak_limit, nbytes, data)`.  `data` is what
the caller's buffer holds, `dtgl` the value `USB_HOST_DTGL(pep->epAddr)` has
before the first dispatch, `fuel` the bound handed to the copy loop and
`replies` the behaviour of the hardware at the successive OUT dispatches.
The local `buf` starts as 64 zero bytes; every byte handed to
`UHD_Pipe_Write` has an index below `nbytes` and has been stored by the copy
loop.  The writes to `PSTATUSSET` and `PSTATUSCLR` are commands to the
controller whose outcome the function does not read back. -/
def OutTransfer (c : Defs) (pep : EpInfo) (nak_limit nbytes : Nat) (data : List Nat)
    (dtgl fuel : Nat) (replies : List OutReply) : Option OutExit :=
  let maxpktsize := pep.maxPktSize
  if maxpktsize < 1 ∨ maxpktsize > 64 then
    some ⟨c.USB_ERROR_INVALID_MAX_PKT_SIZE, pep, [], [], false, []⟩
  else
    match OutTransfer.copy nbytes data fuel 0 (List.replicate 64 0) [] with
    | none => none
    | some copied =>
      OutTransfer.loop c nak_limit maxpktsize copied.1 copied.2 replies pep nbytes 0 dtgl [] []

/-- A reply in which the OUT dispatch succeeds on the first look at the hardware. -/
def OutReply.ack (c : Defs) : OutReply :=
  ⟨0, [PipeSample.done c 0], 0⟩

/-- The slices `data[i*m .. min((i+1)*m, length))` for `i = 0 .. ceil(length/m) - 1`:
the first `length` bytes of `data` cut into pieces of `m` bytes.  The first
argument bounds the number of pieces. -/
def chunks (m : Nat) : Nat → List Nat → List (List Nat)
  | 0, _ => []
  | n + 1, data => if data = [] then [] else data.take m :: chunks m n (data.drop m)

end USBHost

/-! ## Endpoint lookup and control transfer: `SetPipeAddress`, `ctrlReq` -/

namespace USBHost

/-- Arithmetic of `uint16_t`: reduction modulo `2 ^ 16`. -/
def u16 (n : Nat) : Nat := n % 2 ^ 16

/-- A slot of the address pool (`UsbDeviceDefinition`), with the fields that
`Usb.cpp` reads and writes. -/
structure UsbDeviceDefinition where
  /-- The field `epinfo`: `none` is the null pointer, otherwise the endpoint
  records that stand at the address it holds. -/
  epinfo : Option (List EpInfo)
  /-- The field `address.devAddress`. -/
  devAddress : Nat
  epcount : Nat
  lowspeed : Nat
deriving DecidableEq, Repr

/-- The address pool as `Usb.cpp` sees it: its slots, and for every address the
slot its lookup points to.  The lookup is code of `address.h`, which is not
part of the sources at hand, so it is a parameter. -/
structure AddressPool where
  thePool : List UsbDeviceDefinition
  /-- The index of the slot `GetUsbDevicePtr(addr)` points to; `none` is the
  null pointer. -/
  index : Nat → Option Nat

/-- The slot `addrPool.GetUsbDevicePtr(addr)` points to. -/
def AddressPool.GetUsbDevicePtr (pool : AddressPool) (addr : Nat) :
    Option UsbDeviceDefinition :=
  match pool.index addr with
  | none => none
  | some i => pool.thePool[i]?

/-- The `for` loop of `getEpInfoEntry`: the first argument is `p->epcount - i`,
the list holds the records from `pep` on.  Past the end of the records the
model knows, nothing matches. -/
def getEpInfoEntry.scan (ep : Nat) : Nat → List EpInfo → Option EpInfo
  | 0, _ => none
  | _ + 1, [] => none
  | left + 1, pep :: rest =>
    if pep.epAddr = ep then some pep else getEpInfoEntry.scan ep left rest

/-- Model of `USBHost::getEpInfoEntry(addr, ep)`; `none` is the null pointer. -/
def getEpInfoEntry (pool : AddressPool) (addr ep : Nat) : Option EpInfo :=
  match pool.GetUsbDevicePtr addr with
  | none => none
  | some p =>
    match p.epinfo with
    | none => none
    | some pep => getEpInfoEntry.scan ep p.epcount pep

/-- The tokens handed to `dispatchPkt`. -/
inductive Token where
  | tokSETUP
  | tokIN
  | tokOUT
  | tokINHS
  | tokOUTHS
deriving DecidableEq, Repr

/-- What the transfer functions do to the host controller, as far as this
development observes it: the calls that set up or fill a pipe, every
`dispatchPkt`, and the call of the parser of `ctrlReq`. -/
inductive HwOp where
  | uhd_configure_address (pipe addr : Nat)
  | UHD_Pipe0_Alloc (addr size : Nat)
  /-- The call `UHD_Pipe_Write(pep->epAddr, sizeof(setup_pkt), &setup_pkt)` with
  the six fields of the setup packet. -/
  | UHD_Pipe_Write_setup (pipe bmRequestType bRequest wValueLo wValueHi wIndex wLength : Nat)
  | UHD_Pipe_Write (pipe nbytes : Nat) (bytes : List Nat)
  | dispatchPkt (token : Token) (epAddr nak_limit : Nat)
  | UHD_Pipe_CountZero (pipe : Nat)
  | Parse (len dataptr offset : Nat)
deriving DecidableEq, Repr

/-- The way `SetPipeAddress` returns: the return value, `*ppep`, `nak_limit`
and what it did to the controller. -/
structure PipeAddress where
  rcode : Nat
  pep : Option EpInfo
  nak_limit : Nat
  ops : List HwOp
deriving DecidableEq, Repr

/-- Model of `USBHost::SetPipeAddress(addr, ep, ppep, nak_limit)`.  The argument
`nak_limit` is the value the caller's variable holds on entry; `*ppep` is null
on entry in every caller. -/
def SetPipeAddress (c : Defs) (pool : AddressPool) (addr ep nak_limit : Nat) : PipeAddress :=
  match pool.GetUsbDevicePtr addr with
  | none => ⟨c.USB_ERROR_ADDRESS_NOT_FOUND_IN_POOL, none, nak_limit, []⟩
  | some p =>
    if p.epinfo = none then ⟨c.USB_ERROR_EPINFO_IS_NULL, none, nak_limit, []⟩
    else
      match getEpInfoEntry pool addr ep with
      | none => ⟨c.USB_ERROR_EP_NOT_FOUND_IN_TBL, none, nak_limit, []⟩
      | some pep =>
        let power :=
          if pep.bmNakPower > c.USB_NAK_MAX_POWER then c.USB_NAK_MAX_POWER else pep.bmNakPower
        let nak_limit := u32 (0x0001 <<< power)
        -- `nak_limit--` on an `uint32_t`
        let nak_limit := u32 (nak_limit + (2 ^ 32 - 1))
        ⟨0, some pep, nak_limit, [.uhd_configure_address pep.epAddr addr]⟩

/-- What the hardware shows during one call of `dispatchPkt`. -/
structure Dispatch where
  /-- The value of `millis()` when `dispatchPkt` is entered. -/
  now : Nat
  /-- What the wait loop sees. -/
  samples : List PipeSample
deriving DecidableEq, Repr

/-- The behaviour of the controller during one call of `ctrlReq`. -/
structure CtrlHw where
  /-- The value returned by `UHD_Pipe0_Alloc(0, 64)`. -/
  alloc : Nat
  /-- The dispatch of the SETUP packet. -/
  setup : Dispatch
  /-- The IN dispatches of the data stage. -/
  ins : List InReply
  /-- The OUT dispatches of the data stage. -/
  outs : List OutReply
  /-- The value of `USB_HOST_DTGL(pep->epAddr)` when `ctrlReq` reads it after
  `InTransfer`, and before the first OUT dispatch. -/
  dtgl : Nat
  /-- The bound handed to the copy loop of `OutTransfer`. -/
  fuel : Nat
  /-- The dispatch of the status stage. -/
  status : Dispatch

/-- A non-null `dataptr`: the address, and the bytes that stand there. -/
structure Buffer where
  address : Nat
  bytes : List Nat
deriving DecidableEq, Repr

/-- The `return` statement through which a transfer function leaves: after
`SetPipeAddress`, after `UHD_Pipe0_Alloc`, after the SETUP dispatch, after the
data stage, or with the result of the status stage. -/
inductive Stage where
  | address
  | alloc
  | setup
  | data
  | status
deriving DecidableEq, Repr

/-- The way `ctrlReq`, `inTransfer` and `outTransfer` return. -/
structure TransferExit where
  rcode : Nat
  /-- The endpoint record found, as the function leaves it. -/
  pep : Option EpInfo
  /-- What was done to the controller, in order. -/
  ops : List HwOp
  stage : Stage
deriving DecidableEq, Repr

/-- The controller operations of an `OutTransfer`: each `UHD_Pipe_Write` and the
`dispatchPkt(tokOUT, ...)` that follows it. -/
def OutTransfer.ops (epAddr nak_limit : Nat) : List PipeWrite → List HwOp
  | [] => []
  | w :: rest =>
    .UHD_Pipe_Write w.pipe w.nbytes w.bytes :: .dispatchPkt .tokOUT epAddr nak_limit ::
      OutTransfer.ops epAddr nak_limit rest

/-- The data stage of `ctrlReq` (`if (dataptr != NULL) { ... }`).  The result is
the value of `rcode` after it (0 when there is no data stage), the endpoint
record and the operations made.  In the IN branch `InTransfer` is given the
address of the 32-bit local `read`, so it sees the low byte of `nbytes`. -/
def ctrlReq.data (c : Defs) (direction : Bool) (nbytes : Nat) (dataptr : Option Buffer)
    (p : Bool) (hw : CtrlHw) (pep : EpInfo) (nak_limit : Nat) :
    Option (Nat × EpInfo × List HwOp) :=
  match dataptr with
  | none => some (0, pep, [])
  | some buf =>
    if direction then
      let pep := { pep with bmRcvToggle := 1 }
      match InTransfer c pep nak_limit (u8 nbytes) buf.address hw.ins with
      | none => none
      | some x =>
        let ops := x.addrs.map (fun _ => HwOp.dispatchPkt .tokIN pep.epAddr nak_limit)
        let read := u32 nbytes - u8 nbytes + x.nbytes
        let pep :=
          if x.rcode &&& c.USB_ERROR_DATATOGGLE = c.USB_ERROR_DATATOGGLE then
            { x.pep with bmRcvToggle := hw.dtgl }
          else x.pep
        if x.rcode ≠ 0 then some (x.rcode, pep, ops)
        else some (x.rcode, pep, ops ++ (if p then [.Parse read buf.address 0] else []))
    else
      let pep := { pep with bmSndToggle := 1 }
      match OutTransfer c pep nak_limit nbytes buf.bytes hw.dtgl hw.fuel hw.outs with
      | none => none
      | some x => some (x.rcode, x.pep, OutTransfer.ops pep.epAddr nak_limit x.writes)

/-- Model of `USBHost::ctrlReq(addr, ep, bmReqType, bRequest, wValLo, wValHi, wInd, total,
nbytes, dataptr, p)`.  `p` says whether the parser pointer is non-null.  The
result is `none` when a dispatch never ends on the samples given, or when
`SetPipeAddress` returns 0 without an endpoint record. -/
def ctrlReq (c : Defs) (pool : AddressPool)
    (addr ep bmReqType bRequest wValLo wValHi wInd total nbytes : Nat)
    (dataptr : Option Buffer) (p : Bool) (hw : CtrlHw) : Option TransferExit :=
  let a := SetPipeAddress c pool addr ep 0
  if a.rcode ≠ 0 then some ⟨a.rcode, a.pep, a.ops, .address⟩
  else
    match a.pep with
    | none => none
    | some pep =>
      let ops := a.ops ++ [.UHD_Pipe0_Alloc 0 64]
      if hw.alloc ≠ 0 then some ⟨hw.alloc, some pep, ops, .alloc⟩
      else
        let direction := decide (u8 bmReqType &&& 0x80 > 0)
        let ops := ops ++
          [.UHD_Pipe_Write_setup pep.epAddr (u8 bmReqType) (u8 bRequest) (u8 wValLo) (u8 wValHi)
              (u16 wInd) (u16 total),
           .dispatchPkt .tokSETUP ep a.nak_limit]
        match dispatchPkt c hw.setup.now a.nak_limit hw.setup.samples with
        | none => none
        | some d =>
          if d.rcode ≠ 0 then some ⟨d.rcode, some pep, ops, .setup⟩
          else
            match ctrlReq.data c direction nbytes dataptr p hw pep a.nak_limit with
            | none => none
            | some stage =>
              let pep := stage.2.1
              let ops := ops ++ stage.2.2
              if stage.1 ≠ 0 then some ⟨stage.1, some pep, ops, .data⟩
              else
                -- Status stage
                let token := if direction then Token.tokOUTHS else Token.tokINHS
                let ops := ops ++
                  [.UHD_Pipe_CountZero pep.epAddr, .dispatchPkt token pep.epAddr a.nak_limit]
                match dispatchPkt c hw.status.now a.nak_limit hw.status.samples with
                | none => none
                | some d => some ⟨d.rcode, some pep, ops, .status⟩

/-- Model of `USBHost::inTransfer(addr, ep, nbytesptr, data)`; `nbytes` is the
value of `*nbytesptr` on entry, `data` the address of the receive buffer. -/
def inTransfer (c : Defs) (pool : AddressPool) (addr ep nbytes data : Nat)
    (replies : List InReply) : Option TransferExit :=
  let a := SetPipeAddress c pool addr ep 0
  if a.rcode ≠ 0 then some ⟨a.rcode, a.pep, a.ops, .address⟩
  else
    match a.pep with
    | none => none
    | some pep =>
      match InTransfer c pep a.nak_limit nbytes data replies with
      | none => none
      | some x =>
        some ⟨x.rcode, some x.pep,
          a.ops ++ x.addrs.map (fun _ => HwOp.dispatchPkt .tokIN pep.epAddr a.nak_limit), .data⟩

/-- Model of `USBHost::outTransfer(addr, ep, nbytes, data)`; `dtgl` and `fuel` are
handed to `OutTransfer`. -/
def outTransfer (c : Defs) (pool : AddressPool) (addr ep nbytes : Nat) (data : List Nat)
    (dtgl fuel : Nat) (replies : List OutReply) : Option TransferExit :=
  let a := SetPipeAddress c pool addr ep 0
  if a.rcode ≠ 0 then some ⟨a.rcode, a.pep, a.ops, .address⟩
  else
    match a.pep with
    | none => none
    | some pep =>
      match OutTransfer c pep a.nak_limit nbytes data dtgl fuel replies with
      | none => none
      | some x =>
        some ⟨x.rcode, some x.pep, a.ops ++ OutTransfer.ops pep.epAddr a.nak_limit x.writes, .data⟩

/-- A pool with the pseudo-device slot of address 0 and one device at address 1
whose table holds the control endpoint (NAK power 15) and an interrupt
endpoint 1 (NAK power 1), and a slot for address 2 that has no endpoint
table.  No other address is found. -/
def poolOneDevice : AddressPool where
  thePool :=
    [⟨some [⟨0, 8, 0, 0, 15⟩], 0, 1, 0⟩,
     ⟨some [⟨0, 8, 0, 0, 15⟩, ⟨1, 8, 0, 0, 1⟩], 1, 2, 0⟩,
     ⟨none, 2, 0, 0⟩]
  index := fun addr => if addr < 3 then some addr else none

/-- A controller on which every dispatch succeeds at the first look. -/
def hwAllAck : CtrlHw where
  alloc := 0
  setup := ⟨0, [PipeSample.done samd21 0]⟩
  ins := [InReply.ack samd21 8]
  outs := [OutReply.ack samd21]
  dtgl := 0
  fuel := 65
  status := ⟨0, [PipeSample.done samd21 0]⟩

end USBHost

/-! ## Addresses left allocated: reading a trace -/

namespace USBHost

/-- A trace entry other than a call of `AllocAddress`. -/
def Event.notAllocAddress : Event → Bool
  | .call (.AllocAddress _ _ _) _ => false
  | _ => true

/-- The state `t` continues `s` by entries without a call of `AllocAddress`, the
last of which is the call `FreeAddress(a)`. -/
def Sys.freedAfter {W : Type} (a : Nat) (s t : Sys W) : Prop :=
  ∃ mid r, t.trace = s.trace ++ mid ++ [Event.call (.FreeAddress a) r] ∧
    ∀ ev ∈ mid, ev.notAllocAddress = true

end USBHost

/-! ## Replies used to run `OutTransfer` -/

namespace USBHost

/-- A sample taken at time `t` with VBUS connected and the bus-timeout bit set. -/
def PipeSample.busTimeout (c : Defs) (t : Nat) : PipeSample :=
  ⟨t, c.UHD_STATE_CONNECTED, false, false, false, true, false⟩

/-- A reply in which the OUT dispatch ends with a data toggle error and the
hardware toggle then reads `dtgl`. -/
def OutReply.toggleError (c : Defs) (dtgl : Nat) : OutReply :=
  ⟨0, [PipeSample.toggleError c 0], dtgl⟩

/-- A reply in which the device answers NAK `n` times and the hardware toggle
then reads `dtgl`. -/
def OutReply.naks (c : Defs) (n dtgl : Nat) : OutReply :=
  ⟨0, List.replicate n (PipeSample.nak c 0), dtgl⟩

/-- A reply in which the bus-timeout bit is set on `n` looks at the hardware and
the hardware toggle then reads `dtgl`. -/
def OutReply.busTimeouts (c : Defs) (n dtgl : Nat) : OutReply :=
  ⟨0, List.replicate n (PipeSample.busTimeout c 0), dtgl⟩

/-- A reply in which VBUS is lost during the dispatch and the hardware toggle
then reads `dtgl`. -/
def OutReply.vbusLost (c : Defs) (dtgl : Nat) : OutReply :=
  ⟨0, [PipeSample.vbusLost c 0], dtgl⟩

end USBHost

/-! ## libserialport: port configurations (`serialport.c`) -/

namespace serialport

/-- The structure `struct sp_port_config` of `libserialport_internal.h`; the
`int` and `enum` members are integers. -/
structure sp_port_config where
  baudrate : Int
  bits : Int
  parity : Int
  stopbits : Int
  rts : Int
  cts : Int
  dtr : Int
  dsr : Int
  xon_xoff : Int
deriving DecidableEq, Repr

/-! The enumerators of `libserialport.h` that the two functions use. -/

def SP_OK : Int := 0
def SP_ERR_ARG : Int := -1
def SP_ERR_MEM : Int := -3
def SP_PARITY_INVALID : Int := -1
def SP_RTS_INVALID : Int := -1
def SP_RTS_ON : Int := 1
def SP_RTS_FLOW_CONTROL : Int := 2
def SP_CTS_INVALID : Int := -1
def SP_CTS_IGNORE : Int := 0
def SP_CTS_FLOW_CONTROL : Int := 1
def SP_DTR_INVALID : Int := -1
def SP_DTR_ON : Int := 1
def SP_DTR_FLOW_CONTROL : Int := 2
def SP_DSR_INVALID : Int := -1
def SP_DSR_IGNORE : Int := 0
def SP_DSR_FLOW_CONTROL : Int := 1
def SP_XONXOFF_INVALID : Int := -1
def SP_XONXOFF_DISABLED : Int := 0
def SP_XONXOFF_INOUT : Int := 3
def SP_FLOWCONTROL_NONE : Nat := 0
def SP_FLOWCONTROL_XONXOFF : Nat := 1
def SP_FLOWCONTROL_RTSCTS : Nat := 2
def SP_FLOWCONTROL_DTRDSR : Nat := 3

/-- Model of `sp_new_config(config_ptr)`.  `config_ptr` says whether the pointer
is non-null.  `malloc` is what `malloc(sizeof(struct sp_port_config))` returns:
`none` for a null pointer, otherwise the contents the fresh block happens to
have.  The result is the return value and the configuration `*config_ptr`
points to afterwards (`none`: null, or nothing stored). -/
def sp_new_config (config_ptr : Bool) (malloc : Option sp_port_config) :
    Int × Option sp_port_config :=
  if config_ptr = false then (SP_ERR_ARG, none)
  else
    match malloc with
    | none => (SP_ERR_MEM, none)
    | some config =>
      (SP_OK, some { config with baudrate := -1, bits := -1, parity := -1, stopbits := -1,
                                 rts := -1, cts := -1, dtr := -1, dsr := -1 })

/-- Model of `sp_set_config_flowcontrol(config, flowcontrol)`.  `config` is
the structure the pointer refers to, `none` for a null pointer;
`flowcontrol` is the value of the `enum sp_flowcontrol` argument, an
enumeration without negative enumerators.  The result is the return value
and the structure afterwards. -/
def sp_set_config_flowcontrol (config : Option sp_port_config) (flowcontrol : Nat) :
    Int × Option sp_port_config :=
  match config with
  | none => (SP_ERR_ARG, none)
  | some config =>
    if flowcontrol > SP_FLOWCONTROL_DTRDSR then (SP_ERR_ARG, some config)
    else
      let config :=
        if flowcontrol = SP_FLOWCONTROL_XONXOFF then { config with xon_xoff := SP_XONXOFF_INOUT }
        else { config with xon_xoff := SP_XONXOFF_DISABLED }
      let config :=
        if flowcontrol = SP_FLOWCONTROL_RTSCTS then
          { config with rts := SP_RTS_FLOW_CONTROL, cts := SP_CTS_FLOW_CONTROL }
        else
          let config :=
            if config.rts = SP_RTS_FLOW_CONTROL then { config with rts := SP_RTS_ON } else config
          { config with cts := SP_CTS_IGNORE }
      let config :=
        if flowcontrol = SP_FLOWCONTROL_DTRDSR then
          { config with dtr := SP_DTR_FLOW_CONTROL, dsr := SP_DSR_FLOW_CONTROL }
        else
          let config :=
            if config.dtr = SP_DTR_FLOW_CONTROL then { config with dtr := SP_DTR_ON } else config
          { config with dsr := SP_DSR_IGNORE }
      (SP_OK, some config)

end serialport

/-! ## Reading the trace of the driver scan of `Configuring` -/

namespace USBHost

/-- A call that `AttemptConfig` makes: to the driver it configures, to the
driver or the controller it resets through, or `delay`. -/
def Event.byAttemptConfig : Event → Bool
  | .call (.ConfigureDevice _ _ _ _) _ => true
  | .call (.Init _ _ _ _) _ => true
  | .call (.delay _) _ => true
  | .call .UHD_BusReset _ => true
  | .call (.ResetHubPort _ _) _ => true
  | _ => false

/-- A call that `DefaultAddressing` makes: to the address pool, the control
request of `setAddr`, or `delay`. -/
def Event.byDefaultAddressing : Event → Bool
  | .call (.GetUsbDevicePtr _) _ => true
  | .call (.get_epinfo _) _ => true
  | .call (.set_lowspeed _ _) _ => true
  | .call (.AllocAddress _ _ _) _ => true
  | .call (.FreeAddress _) _ => true
  | .call (.ctrlReq_SET_ADDRESS _ _ _) _ => true
  | .call (.delay _) _ => true
  | _ => false

/-- A trace entry that one of the two loops of `Configuring` can add: the three
questions asked of a driver, what `AttemptConfig` adds, and the marks. -/
def Event.inScan : Event → Bool
  | .call (.GetAddress _) _ => true
  | .call (.VIDPIDOK _ _ _) _ => true
  | .call (.DEVCLASSOK _ _) _ => true
  | .AttemptConfig _ _ _ _ => true
  | .attempted _ _ _ => true
  | ev => ev.byAttemptConfig

/-- The results of `AttemptConfig` received in the first loop of `Configuring`,
in order: driver and `rcode`. -/
def firstPassResults : List Event → List (Nat × Nat)
  | [] => []
  | .attempted pass driver rcode :: rest =>
    if pass = 1 then (driver, rcode) :: firstPassResults rest else firstPassResults rest
  | _ :: rest => firstPassResults rest

/-- The results of `AttemptConfig` received in the second loop of `Configuring`,
in order: driver and `rcode`. -/
def secondPassResults : List Event → List (Nat × Nat)
  | [] => []
  | .attempted pass driver rcode :: rest =>
    if pass = 2 then (driver, rcode) :: secondPassResults rest else secondPassResults rest
  | _ :: rest => secondPassResults rest

/-- A trace entry other than a store to the field `epinfo` of a pool slot. -/
def Event.notSetEpinfo : Event → Bool
  | .call (.set_epinfo _ _) _ => false
  | _ => true

/-- Whether a trace entry is a call of `UHD_BusReset()`. -/
def Event.isBusReset : Event → Bool
  | .call .UHD_BusReset _ => true
  | _ => false

/-- How many calls of `UHD_BusReset()` a trace holds. -/
def countBusReset (trace : List Event) : Nat :=
  trace.countP Event.isBusReset

end USBHost

namespace USBHost

/-- What holds of a stretch of trace added by the first loop of `Configuring`:
its entries are those of a scan, none is a result of the second loop, every
entry into `AttemptConfig` has its result recorded, the drivers attempted are
registered, answered `GetAddress()` with 0 and one of the two predicates with
true, and every driver that answered a predicate with true is attempted. -/
def FirstPassFacts {W : Type} (H : Host W) (vid pid klass : Nat) (ext : List Event) : Prop :=
  (∀ ev ∈ ext, ev.inScan = true) ∧
  secondPassResults ext = [] ∧
  attempts ext = (firstPassResults ext).map Prod.fst ∧
  (∀ d ∈ attempts ext, H.devConfig d = true ∧ Event.call (.GetAddress d) 0 ∈ ext ∧
    ∃ v, v ≠ 0 ∧ (Event.call (.VIDPIDOK d vid pid) v ∈ ext ∨
      Event.call (.DEVCLASSOK d klass) v ∈ ext)) ∧
  (∀ d v, v ≠ 0 → (Event.call (.VIDPIDOK d vid pid) v ∈ ext ∨
      Event.call (.DEVCLASSOK d klass) v ∈ ext) → d ∈ attempts ext)

/-- What holds of a stretch of trace added by the second loop of `Configuring`:
its entries are those of a scan, none is a result of the first loop, every
entry into `AttemptConfig` has its result recorded, the drivers attempted are
registered and answered `GetAddress()` with 0 and both predicates with false,
and every driver that answered `DEVCLASSOK` with false is attempted. -/
def SecondPassFacts {W : Type} (H : Host W) (vid pid klass : Nat) (ext : List Event) : Prop :=
  (∀ ev ∈ ext, ev.inScan = true) ∧
  firstPassResults ext = [] ∧
  attempts ext = (secondPassResults ext).map Prod.fst ∧
  (∀ d ∈ attempts ext, H.devConfig d = true ∧ Event.call (.GetAddress d) 0 ∈ ext ∧
    Event.call (.VIDPIDOK d vid pid) 0 ∈ ext ∧ Event.call (.DEVCLASSOK d klass) 0 ∈ ext) ∧
  (∀ d, Event.call (.DEVCLASSOK d klass) 0 ∈ ext → d ∈ attempts ext)

end USBHost

namespace USBHost

end USBHost

namespace USBHost

/-- The chain of attached-family states as the design document gives it:
Attached-Settle, Attached-ResetDevice, Attached-WaitResetComplete,
Attached-WaitStartOfFrame, Configuring, Running. -/
def Defs.attachedChain (c : Defs) : List Nat :=
  [c.USB_ATTACHED_SUBSTATE_SETTLE, c.USB_ATTACHED_SUBSTATE_RESET_DEVICE,
   c.USB_ATTACHED_SUBSTATE_WAIT_RESET_COMPLETE, c.USB_ATTACHED_SUBSTATE_WAIT_SOF,
   c.USB_STATE_CONFIGURING, c.USB_STATE_RUNNING]

/-- The moves the design document allows along the chain: from a state to its
immediate successor, and from Configuring to Error. -/
def Defs.chainSteps (c : Defs) : List (Nat × Nat) :=
  c.attachedChain.zip c.attachedChain.tail ++ [(c.USB_STATE_CONFIGURING, c.USB_STATE_ERROR)]

end USBHost

namespace USBHost

/-- VBUS reads connected, start-of-frame is reported and `millis()` answers 100;
no driver is registered and every other call answers 0. -/
def hostFramesRunning : Host Unit where
  devConfig _ := false
  run e w :=
    match e with
    | .UHD_GetVBUSState => (samd21.UHD_STATE_CONNECTED, w)
    | .Is_uhd_sof => (1, w)
    | .millis => (100, w)
    | _ => (0, w)

end USBHost

/-! ## Installing an endpoint table: `USBHost::setEpInfoEntry` -/

namespace USBHost

/-- Modelled from the spec: the address pool (`lookup(address) -> DeviceSlot?`) is
code of `address.h`, which is not among the sources.  Writing the fields of
the slot that the lookup of `addr` points to changes that slot and no other,
and leaves the lookup of every address as it was. -/
def AddressPool.writeSlot (pool : AddressPool) (addr : Nat)
    (f : UsbDeviceDefinition → UsbDeviceDefinition) : AddressPool :=
  match pool.index addr with
  | none => pool
  | some i =>
    match pool.thePool[i]? with
    | none => pool
    | some p => { pool with thePool := pool.thePool.set i (f p) }

/-- Model of `USBHost::setEpInfoEntry(addr, epcount, eprecord_ptr)`: the value
returned and the pool it leaves.  `eprecord_ptr` is `none` for the null
pointer and otherwise the records that stand at the address it holds.  The
fields `address.devAddress` and `epcount` of `UsbDeviceDefinition` are
declared in `address.h`; their widths in bits are the parameters
`devAddressBits` and `epcountBits`. -/
def setEpInfoEntry (c : Defs) (devAddressBits epcountBits : Nat) (pool : AddressPool)
    (addr epcount : Nat) (eprecord_ptr : Option (List EpInfo)) : Nat × AddressPool :=
  match eprecord_ptr with
  | none => (c.USB_ERROR_INVALID_ARGUMENT, pool)
  | some t =>
    match pool.GetUsbDevicePtr addr with
    | none => (c.USB_ERROR_ADDRESS_NOT_FOUND_IN_POOL, pool)
    | some _ =>
      (0, pool.writeSlot addr fun p =>
        { p with devAddress := addr % 2 ^ devAddressBits, epinfo := some t,
                 epcount := epcount % 2 ^ epcountBits })

end USBHost

namespace USBHost

/-- VBUS reads connected and the clock jumps: `millis()` answers 0 the first
time, 1000 the second time, and so on.  No driver is registered and every
other call answers 0. -/
def hostClockJumps : Host Nat where
  devConfig _ := false
  run e w :=
    match e with
    | .UHD_GetVBUSState => (samd21.UHD_STATE_CONNECTED, w)
    | .millis => (1000 * w, w + 1)
    | _ => (0, w)

end USBHost

namespace USBHost

/-- The pool has the slot of address 0, but the device descriptor request fails
with code 13.  Slot 0 of the driver table holds a driver whose `VIDPIDOK` is
true for every device; every other call answers 0. -/
def hostDescriptorFails : Host Unit where
  devConfig i := i == 0
  run e w :=
    match e with
    | .GetUsbDevicePtr _ => (1, w)
    | .get_epinfo _ => (1, w)
    | .ctrlReq_GET_DESCRIPTOR_DEVICE _ _ _ => (13, w)
    | .VIDPIDOK _ _ _ => (1, w)
    | _ => (0, w)

end USBHost

/-! ## The rule of the address pool about allocated addresses -/

namespace USBHost

/-- A trace entry other than a call of `FreeAddress`. -/
def Event.notFreeAddress : Event → Bool
  | .call (.FreeAddress _) _ => false
  | _ => true

/-- The addresses that are handed out and not given back at the end of a stretch
of trace, `live` being those at its start: a non-zero answer of `AllocAddress`
is added, the argument of `FreeAddress` is removed. -/
def liveAfter : List Nat → List Event → List Nat
  | live, [] => live
  | live, .call (.AllocAddress _ _ _) a :: rest =>
    liveAfter (if a ≠ 0 then a :: live else live) rest
  | live, .call (.FreeAddress a) _ :: rest => liveAfter (live.filter (· != a)) rest
  | live, _ :: rest => liveAfter live rest

/-- Modelled from the spec: "For all addresses `a` allocated by the Address Pool,
`lookup(a)` returns a non-null slot until `free(a)` is called."  The pool is
code of `address.h`, which is not among the sources.  A stretch of trace
keeps to the rule, `live` being the addresses handed out at its start, when
no lookup of an address that is handed out and not given back at that
moment is answered with the null pointer. -/
def poolFindsAllocated : List Nat → List Event → Bool
  | _, [] => true
  | live, .call (.GetUsbDevicePtr a) r :: rest =>
    (!live.contains a || r != 0) && poolFindsAllocated live rest
  | live, ev :: rest => poolFindsAllocated (liveAfter live [ev]) rest

/-- The pool hands out address 1 and finds it, but the device does not take the
address: `setAddr` fails with code 5.  No driver is registered and every
other call answers 0. -/
def hostSetAddressFails : Host Unit where
  devConfig _ := false
  run e w :=
    match e with
    | .GetUsbDevicePtr _ => (1, w)
    | .get_epinfo _ => (1, w)
    | .AllocAddress _ _ _ => (1, w)
    | .ctrlReq_SET_ADDRESS _ _ _ => (5, w)
    | _ => (0, w)

end USBHost
/-! Theorems. -/

namespace USBHost

/-! ## Arithmetic helpers -/

theorem u32_of_lt {n : Nat} (h : n < 2 ^ 32) : u32 n = n := Nat.mod_eq_of_lt h

theorem u8_of_lt {n : Nat} (h : n < 2 ^ 8) : u8 n = n := Nat.mod_eq_of_lt h

/-! ## `dispatchPkt` -/

/-- While nothing but flow control happens, the wait loop started with `nak`
NAKs already counted keeps running as long as fewer than `nak_limit` have been
seen, and returns `USB_ERRORFLOW` with `nak_count = nak_limit` in the pass in
which the count reaches `nak_limit`. -/
theorem dispatchPkt.loop_quiet (c : Defs) (timeout nak_limit : Nat)
    (hlim : nak_limit < 2 ^ 32) :
    ∀ (rs : List PipeSample) (nak retry polls : Nat), nak < nak_limit →
      (∀ s ∈ rs, s.quiet c timeout) →
      (nak + naksSeen rs < nak_limit →
          dispatchPkt.loop c timeout nak_limit rs nak retry polls = none) ∧
      (nak_limit ≤ nak + naksSeen rs →
          ∃ n, n < rs.length ∧ nak + naksSeen (rs.take n) < nak_limit ∧
            nak_limit ≤ nak + naksSeen (rs.take (n + 1)) ∧
            dispatchPkt.loop c timeout nak_limit rs nak retry polls
              = some ⟨c.USB_ERRORFLOW, nak_limit, retry, polls + n + 1⟩) := by
  intro rs
  induction rs with
  | nil =>
    intro nak retry polls hnak _
    refine ⟨fun _ => rfl, fun h => ?_⟩
    simp [naksSeen] at h
    omega
  | cons s rest ih =>
    intro nak retry polls hnak hq
    obtain ⟨hw, hc, ht, hg⟩ := hq s (List.mem_cons_self _ _)
    have hrest : ∀ s ∈ rest, s.quiet c timeout := fun x hx => hq x (List.mem_cons_of_mem _ hx)
    have hpos : nak_limit ≠ 0 := by omega
    have hmod : u32 (nak + 1) = nak + 1 := u32_of_lt (by omega)
    -- the pass ends in the recursive call, `k` more NAKs counted
    have step : ∀ k, s.naks = k → nak + k < nak_limit →
        dispatchPkt.loop c timeout nak_limit (s :: rest) nak retry polls
          = dispatchPkt.loop c timeout nak_limit rest (nak + k) retry (polls + 1) →
        (nak + naksSeen (s :: rest) < nak_limit →
          dispatchPkt.loop c timeout nak_limit (s :: rest) nak retry polls = none) ∧
        (nak_limit ≤ nak + naksSeen (s :: rest) →
          ∃ n, n < (s :: rest).length ∧ nak + naksSeen ((s :: rest).take n) < nak_limit ∧
            nak_limit ≤ nak + naksSeen ((s :: rest).take (n + 1)) ∧
            dispatchPkt.loop c timeout nak_limit (s :: rest) nak retry polls
              = some ⟨c.USB_ERRORFLOW, nak_limit, retry, polls + n + 1⟩) := by
      intro k hk hlt heq
      obtain ⟨h1, h2⟩ := ih (nak + k) retry (polls + 1) hlt hrest
      constructor
      · intro h
        simp only [naksSeen, hk] at h
        rw [heq]
        exact h1 (by omega)
      · intro h
        simp only [naksSeen, hk] at h
        obtain ⟨n, hn1, hn2, hn3, hn4⟩ := h2 (by omega)
        refine ⟨n + 1, by simpa using hn1, ?_, ?_, ?_⟩
        · simp only [List.take_succ_cons, naksSeen, hk]; omega
        · simp only [List.take_succ_cons, naksSeen, hk]; omega
        · rw [heq, hn4]
          simp only [Option.some.injEq, DispatchExit.mk.injEq, true_and]
          omega
    -- the pass ends in `return USB_ERRORFLOW`
    have stop : s.naks ≠ 0 → nak_limit ≤ nak + s.naks →
        dispatchPkt.loop c timeout nak_limit (s :: rest) nak retry polls
          = some ⟨c.USB_ERRORFLOW, nak_limit, retry, polls + 0 + 1⟩ →
        (nak + naksSeen (s :: rest) < nak_limit →
          dispatchPkt.loop c timeout nak_limit (s :: rest) nak retry polls = none) ∧
        (nak_limit ≤ nak + naksSeen (s :: rest) →
          ∃ n, n < (s :: rest).length ∧ nak + naksSeen ((s :: rest).take n) < nak_limit ∧
            nak_limit ≤ nak + naksSeen ((s :: rest).take (n + 1)) ∧
            dispatchPkt.loop c timeout nak_limit (s :: rest) nak retry polls
              = some ⟨c.USB_ERRORFLOW, nak_limit, retry, polls + n + 1⟩) := by
      intro _ hge heq
      constructor
      · intro h
        simp only [naksSeen] at h
        omega
      · intro _
        refine ⟨0, by simp, by simpa [naksSeen] using hnak, ?_, heq⟩
        simp only [List.take_succ_cons, List.take_zero, naksSeen]
        omega
    rcases hA : s.trfail with _ | _ <;> rcases hB : s.bk_errorflow with _ | _
    · exact step 0 (by simp [PipeSample.naks, hA, hB]) hnak
        (by rw [dispatchPkt.loop]; simp [dispatchPkt.pass, hw, hc, ht, hg, hA, hB])
    · have hn : s.naks = 1 := by simp [PipeSample.naks, hA, hB]
      by_cases hreach : nak + 1 = nak_limit
      · subst hreach
        exact stop (by omega) (by omega)
          (by rw [dispatchPkt.loop]; simp [dispatchPkt.pass, hw, hc, hA, hB, hmod])
      · exact step 1 hn (by omega)
          (by rw [dispatchPkt.loop]; simp [dispatchPkt.pass, hw, hc, ht, hg, hA, hB, hmod, hreach])
    · have hn : s.naks = 1 := by simp [PipeSample.naks, hA, hB]
      by_cases hreach : nak + 1 = nak_limit
      · subst hreach
        exact stop (by omega) (by omega)
          (by rw [dispatchPkt.loop]; simp [dispatchPkt.pass, hw, hc, hA, hmod])
      · exact step 1 hn (by omega)
          (by rw [dispatchPkt.loop]; simp [dispatchPkt.pass, hw, hc, ht, hg, hA, hB, hmod, hreach])
    · have hn : s.naks = 2 := by simp [PipeSample.naks, hA, hB]
      by_cases hreach : nak + 1 = nak_limit
      · subst hreach
        exact stop (by omega) (by omega)
          (by rw [dispatchPkt.loop]; simp [dispatchPkt.pass, hw, hc, hA, hmod])
      · have hmod2 : u32 (nak + 1 + 1) = nak + 1 + 1 := u32_of_lt (by omega)
        by_cases hreach2 : nak + 1 + 1 = nak_limit
        · subst hreach2
          exact stop (by omega) (by omega)
            (by rw [dispatchPkt.loop]; simp [dispatchPkt.pass, hw, hc, hA, hB, hmod, hmod2])
        · exact step 2 hn (by omega)
            (by rw [dispatchPkt.loop]; simp [dispatchPkt.pass, hw, hc, ht, hg, hA, hB, hmod, hmod2, hreach, hreach2])

/-- C1. With `nak_limit >= 1` and hardware samples in which the transfer never
completes, no bus timeout or toggle error is flagged, VBUS stays connected and
the deadline is not reached, `dispatchPkt` is still waiting as long as fewer
than `nak_limit` NAKs have been observed, and it returns `USB_ERRORFLOW` in
the pass `n + 1` in which the number of observed NAKs reaches `nak_limit`, its
NAK counter being exactly `nak_limit` at that moment. -/
theorem dispatchPkt_flow_on_nakLimit_th_nak (c : Defs) (now nak_limit : Nat)
    (rs : List PipeSample) (hpos : 1 ≤ nak_limit) (hlim : nak_limit < 2 ^ 32)
    (hq : ∀ s ∈ rs, s.quiet c (u32 (now + c.USB_XFER_TIMEOUT))) :
    (naksSeen rs < nak_limit → dispatchPkt c now nak_limit rs = none) ∧
    (nak_limit ≤ naksSeen rs →
      ∃ n, n < rs.length ∧ naksSeen (rs.take n) < nak_limit ∧
        nak_limit ≤ naksSeen (rs.take (n + 1)) ∧
        dispatchPkt c now nak_limit rs = some ⟨c.USB_ERRORFLOW, nak_limit, 0, n + 1⟩) := by
  have h := dispatchPkt.loop_quiet c (u32 (now + c.USB_XFER_TIMEOUT)) nak_limit hlim rs 0 0 0
    (by omega) hq
  simpa [dispatchPkt] using h

/-- As long as the wait loop has not returned, the samples seen so far only
determine the counters with which it goes on. -/
theorem dispatchPkt.loop_append (c : Defs) (timeout nak_limit : Nat) (l : List PipeSample) :
    ∀ (pre : List PipeSample) (nak retry polls : Nat),
      dispatchPkt.loop c timeout nak_limit pre nak retry polls = none →
      ∃ nak2 retry2, dispatchPkt.loop c timeout nak_limit (pre ++ l) nak retry polls
        = dispatchPkt.loop c timeout nak_limit l nak2 retry2 (polls + pre.length) := by
  intro pre
  induction pre with
  | nil => intro nak retry polls _; exact ⟨nak, retry, by simp⟩
  | cons s rest ih =>
    intro nak retry polls h
    rw [dispatchPkt.loop] at h
    rw [List.cons_append, dispatchPkt.loop]
    by_cases hw : dispatchPkt.waiting c timeout s = false
    · simp [hw] at h
    · rw [if_neg hw] at h ⊢
      cases hp : dispatchPkt.pass c nak_limit s nak retry with
      | ret rc n r => simp [hp] at h
      | next n r =>
        simp only [hp] at h ⊢
        obtain ⟨n2, r2, h2⟩ := ih _ _ _ h
        refine ⟨n2, r2, ?_⟩
        have e : polls + 1 + rest.length = polls + (rest.length + 1) := by omega
        rw [h2, List.length_cons, e]

/-- C9, as the code has it.  When the wait loop of `dispatchPkt` ends because VBUS
is no longer connected, or because the deadline has passed, the function
returns in that pass, and in both cases the value returned is the one code
`USB_ERROR_TRANSFER_TIMEOUT`: loss of bus power ends the wait early but is
reported with the code of a timeout. -/
theorem dispatchPkt_vbus_loss_returns_transfer_timeout (c : Defs) (now nak_limit : Nat)
    (pre rest : List PipeSample) (s : PipeSample)
    (hrun : dispatchPkt c now nak_limit pre = none)
    (hend : s.vbus ≠ c.UHD_STATE_CONNECTED ∨ u32 (now + c.USB_XFER_TIMEOUT) ≤ s.millis) :
    ∃ d, dispatchPkt c now nak_limit (pre ++ s :: rest) = some d ∧
      d.rcode = c.USB_ERROR_TRANSFER_TIMEOUT ∧ d.polls = pre.length + 1 := by
  obtain ⟨n2, r2, h2⟩ := dispatchPkt.loop_append c (u32 (now + c.USB_XFER_TIMEOUT)) nak_limit
    (s :: rest) pre 0 0 0 hrun
  have hw : dispatchPkt.waiting c (u32 (now + c.USB_XFER_TIMEOUT)) s = false := by
    unfold dispatchPkt.waiting
    rcases hend with h | h
    · simp [h]
    · simp [Nat.not_lt.mpr h]
  refine ⟨⟨c.USB_ERROR_TRANSFER_TIMEOUT, n2, r2, pre.length + 1⟩, ?_, rfl, rfl⟩
  unfold dispatchPkt
  rw [h2, dispatchPkt.loop]
  simp [hw]

/-- With `nak_limit = 0` a pass of the loop body can return in three ways only. -/
theorem dispatchPkt.pass_nak_limit_zero (c : Defs) (s : PipeSample) (nak retry : Nat)
    (rc n r : Nat) (h : dispatchPkt.pass c 0 s nak retry = .ret rc n r) :
    (s.complete = true ∧ rc = 0) ∨
    (s.pipe_timeout = true ∧ r = c.USB_RETRY_LIMIT ∧ rc = c.USB_ERRORTIMEOUT) ∨
    (s.pipe_toggle = true ∧ rc = c.USB_ERROR_DATATOGGLE) := by
  rcases hc : s.complete with _ | _
  · rcases ht : s.pipe_timeout with _ | _
    · rcases hg : s.pipe_toggle with _ | _
      · simp [dispatchPkt.pass, hc, ht, hg] at h
      · simp [dispatchPkt.pass, hc, ht, hg] at h
        simp [h.1]
    · by_cases hl : u32 (retry + 1) = c.USB_RETRY_LIMIT
      · simp [dispatchPkt.pass, hc, ht, hl] at h
        simp [← h.1, ← h.2.2, hl]
      · rcases hg : s.pipe_toggle with _ | _
        · simp [dispatchPkt.pass, hc, ht, hg, hl] at h
        · simp [dispatchPkt.pass, hc, ht, hg, hl] at h
          simp [h.1]
  · simp [dispatchPkt.pass, hc] at h
    simp [h.1]

/-- With `nak_limit = 0` every return of the wait loop is one of four: the loop
condition failed, the transfer completed, the bus-timeout count reached
`USB_RETRY_LIMIT`, or a toggle error was flagged. -/
theorem dispatchPkt.loop_nak_limit_zero (c : Defs) (timeout : Nat) :
    ∀ (rs : List PipeSample) (nak retry polls : Nat) (d : DispatchExit),
      dispatchPkt.loop c timeout 0 rs nak retry polls = some d →
      ∃ s ∈ rs,
        (dispatchPkt.waiting c timeout s = false ∧ d.rcode = c.USB_ERROR_TRANSFER_TIMEOUT) ∨
        (s.complete = true ∧ d.rcode = 0) ∨
        (s.pipe_timeout = true ∧ d.retry_count = c.USB_RETRY_LIMIT ∧
          d.rcode = c.USB_ERRORTIMEOUT) ∨
        (s.pipe_toggle = true ∧ d.rcode = c.USB_ERROR_DATATOGGLE) := by
  intro rs
  induction rs with
  | nil => intro nak retry polls d h; simp [dispatchPkt.loop] at h
  | cons s rest ih =>
    intro nak retry polls d h
    rw [dispatchPkt.loop] at h
    by_cases hw : dispatchPkt.waiting c timeout s = false
    · simp only [hw, if_true, Option.some.injEq] at h
      subst h
      exact ⟨s, List.mem_cons_self _ _, Or.inl ⟨hw, rfl⟩⟩
    · rw [if_neg hw] at h
      cases hp : dispatchPkt.pass c 0 s nak retry with
      | ret rc n r =>
        simp only [hp, Option.some.injEq] at h
        subst h
        exact ⟨s, List.mem_cons_self _ _,
          Or.inr (dispatchPkt.pass_nak_limit_zero c s nak retry rc n r hp)⟩
      | next n r =>
        simp only [hp] at h
        obtain ⟨x, hx, hc⟩ := ih _ _ _ d h
        exact ⟨x, List.mem_cons_of_mem _ hx, hc⟩

/-- C10. With `nak_limit = 0`, whatever the hardware shows and however many NAKs
are observed, `dispatchPkt` never returns `USB_ERRORFLOW` (a code different
from the four others it can return): when it returns, it does so in a pass in
which the deadline was reached or VBUS was lost, the transfer was complete,
the bus-timeout ceiling was reached, or a toggle error was flagged, with the
code of that case. -/
theorem dispatchPkt_nak_limit_zero_never_flow (c : Defs) (now : Nat)
    (rs : List PipeSample) (d : DispatchExit)
    (h0 : c.USB_ERRORFLOW ≠ 0)
    (h1 : c.USB_ERRORFLOW ≠ c.USB_ERRORTIMEOUT)
    (h2 : c.USB_ERRORFLOW ≠ c.USB_ERROR_DATATOGGLE)
    (h3 : c.USB_ERRORFLOW ≠ c.USB_ERROR_TRANSFER_TIMEOUT)
    (hret : dispatchPkt c now 0 rs = some d) :
    d.rcode ≠ c.USB_ERRORFLOW ∧
    ∃ s ∈ rs,
      (dispatchPkt.waiting c (u32 (now + c.USB_XFER_TIMEOUT)) s = false ∧
        d.rcode = c.USB_ERROR_TRANSFER_TIMEOUT) ∨
      (s.complete = true ∧ d.rcode = 0) ∨
      (s.pipe_timeout = true ∧ d.retry_count = c.USB_RETRY_LIMIT ∧
        d.rcode = c.USB_ERRORTIMEOUT) ∨
      (s.pipe_toggle = true ∧ d.rcode = c.USB_ERROR_DATATOGGLE) := by
  obtain ⟨s, hs, hc⟩ := dispatchPkt.loop_nak_limit_zero c _ rs 0 0 0 d hret
  refine ⟨?_, s, hs, hc⟩
  rcases hc with h | h | h | h
  · rw [h.2]; exact fun e => h3 e.symm
  · rw [h.2]; exact fun e => h0 e.symm
  · rw [h.2.2]; exact fun e => h1 e.symm
  · rw [h.2]; exact fun e => h2 e.symm

/-- Witness for C1: limit 2, a NAK, an idle pass, a second NAK. -/
theorem dispatchPkt_flow_on_nakLimit_th_nak_witness :
    (1 ≤ 2 ∧ 2 < 2 ^ 32 ∧
      ∀ s ∈ [PipeSample.nak samd21 1, PipeSample.idle samd21 2, PipeSample.nak samd21 3],
        s.quiet samd21 (u32 (0 + samd21.USB_XFER_TIMEOUT))) ∧
    ((naksSeen [PipeSample.nak samd21 1, PipeSample.idle samd21 2, PipeSample.nak samd21 3] < 2 →
        dispatchPkt samd21 0 2
          [PipeSample.nak samd21 1, PipeSample.idle samd21 2, PipeSample.nak samd21 3] = none) ∧
     (2 ≤ naksSeen [PipeSample.nak samd21 1, PipeSample.idle samd21 2, PipeSample.nak samd21 3] →
        ∃ n, n < [PipeSample.nak samd21 1, PipeSample.idle samd21 2,
                  PipeSample.nak samd21 3].length ∧
          naksSeen ([PipeSample.nak samd21 1, PipeSample.idle samd21 2,
                     PipeSample.nak samd21 3].take n) < 2 ∧
          2 ≤ naksSeen ([PipeSample.nak samd21 1, PipeSample.idle samd21 2,
                         PipeSample.nak samd21 3].take (n + 1)) ∧
          dispatchPkt samd21 0 2
            [PipeSample.nak samd21 1, PipeSample.idle samd21 2, PipeSample.nak samd21 3]
            = some ⟨samd21.USB_ERRORFLOW, 2, 0, n + 1⟩)) :=
  ⟨⟨by decide, by decide, by decide⟩,
   dispatchPkt_flow_on_nakLimit_th_nak samd21 0 2
     [PipeSample.nak samd21 1, PipeSample.idle samd21 2, PipeSample.nak samd21 3]
     (by decide) (by decide) (by decide)⟩

/-- C9 as stated fails.  A wait that ends at time 10 because VBUS reads
disconnected, well before the deadline 5000, and a wait that ends at time 5000
because the deadline has passed with VBUS connected, return the same code,
`USB_ERROR_TRANSFER_TIMEOUT`. -/
theorem dispatchPkt_vbus_loss_not_distinguished :
    (dispatchPkt samd21 0 1 [PipeSample.vbusLost samd21 10]).map DispatchExit.rcode
      = (dispatchPkt samd21 0 1 [PipeSample.idle samd21 5000]).map DispatchExit.rcode ∧
    (dispatchPkt samd21 0 1 [PipeSample.vbusLost samd21 10]).map DispatchExit.rcode
      = some samd21.USB_ERROR_TRANSFER_TIMEOUT := by
  decide

/-- Witness for C9: one idle pass, then VBUS reads disconnected at time 2. -/
theorem dispatchPkt_vbus_loss_returns_transfer_timeout_witness :
    (dispatchPkt samd21 0 1 [PipeSample.idle samd21 1] = none ∧
      ((PipeSample.vbusLost samd21 2).vbus ≠ samd21.UHD_STATE_CONNECTED ∨
        u32 (0 + samd21.USB_XFER_TIMEOUT) ≤ (PipeSample.vbusLost samd21 2).millis)) ∧
    ∃ d, dispatchPkt samd21 0 1 ([PipeSample.idle samd21 1] ++ PipeSample.vbusLost samd21 2 :: [])
        = some d ∧
      d.rcode = samd21.USB_ERROR_TRANSFER_TIMEOUT ∧
      d.polls = [PipeSample.idle samd21 1].length + 1 :=
  ⟨⟨by decide, Or.inl (by decide)⟩,
   dispatchPkt_vbus_loss_returns_transfer_timeout samd21 0 1 [PipeSample.idle samd21 1] []
     (PipeSample.vbusLost samd21 2) (by decide) (Or.inl (by decide))⟩

/-- Witness for C10: three NAKs with `nak_limit = 0`, then completion. -/
theorem dispatchPkt_nak_limit_zero_never_flow_witness :
    (samd21.USB_ERRORFLOW ≠ 0 ∧ samd21.USB_ERRORFLOW ≠ samd21.USB_ERRORTIMEOUT ∧
      samd21.USB_ERRORFLOW ≠ samd21.USB_ERROR_DATATOGGLE ∧
      samd21.USB_ERRORFLOW ≠ samd21.USB_ERROR_TRANSFER_TIMEOUT ∧
      dispatchPkt samd21 0 0
        [PipeSample.nak samd21 1, PipeSample.nak samd21 2, PipeSample.nak samd21 3,
         PipeSample.done samd21 4] = some ⟨0, 3, 0, 4⟩) ∧
    ((⟨0, 3, 0, 4⟩ : DispatchExit).rcode ≠ samd21.USB_ERRORFLOW ∧
      ∃ s ∈ [PipeSample.nak samd21 1, PipeSample.nak samd21 2, PipeSample.nak samd21 3,
             PipeSample.done samd21 4],
        (dispatchPkt.waiting samd21 (u32 (0 + samd21.USB_XFER_TIMEOUT)) s = false ∧
          (⟨0, 3, 0, 4⟩ : DispatchExit).rcode = samd21.USB_ERROR_TRANSFER_TIMEOUT) ∨
        (s.complete = true ∧ (⟨0, 3, 0, 4⟩ : DispatchExit).rcode = 0) ∨
        (s.pipe_timeout = true ∧
          (⟨0, 3, 0, 4⟩ : DispatchExit).retry_count = samd21.USB_RETRY_LIMIT ∧
          (⟨0, 3, 0, 4⟩ : DispatchExit).rcode = samd21.USB_ERRORTIMEOUT) ∨
        (s.pipe_toggle = true ∧
          (⟨0, 3, 0, 4⟩ : DispatchExit).rcode = samd21.USB_ERROR_DATATOGGLE)) :=
  ⟨⟨by decide, by decide, by decide, by decide, by decide⟩,
   dispatchPkt_nak_limit_zero_never_flow samd21 0
     [PipeSample.nak samd21 1, PipeSample.nak samd21 2, PipeSample.nak samd21 3,
      PipeSample.done samd21 4] ⟨0, 3, 0, 4⟩
     (by decide) (by decide) (by decide) (by decide) (by decide)⟩


/-! ## `InTransfer` -/

/-- C2 fails on the code.  Ten bytes are requested on an endpoint with
`maxPktSize = 8` and the device sends two full packets of 8 bytes, every
dispatch succeeding: `InTransfer` returns 0 and leaves 16, more than the 10
requested, in `*nbytesptr`.  The packet size is trimmed to the requested
total, not to what is still missing. -/
theorem InTransfer_reports_more_than_requested :
    InTransfer samd21 ⟨1, 8, 0, 0, 0⟩ 0 10 0 [InReply.ack samd21 8, InReply.ack samd21 8]
      = some ⟨0, 16, ⟨1, 8, 0, 0, 0⟩, [0, 8]⟩ ∧ 10 < 16 := by
  decide

/-- The receive loop on `fulls.length` full packets followed by a short one, all
dispatches succeeding and the total staying below the requested length. -/
theorem InTransfer.loop_short_packet (c : Defs) (nak_limit N m s : Nat)
    (hN : N < 256) (hs : s < m) (htog : c.USB_ERROR_DATATOGGLE ≠ 0)
    (last : InReply) (rest : List InReply)
    (hlast : last.succeeds c nak_limit) (hcount : last.byte_count = s) :
    ∀ (fulls : List InReply) (pep : EpInfo) (count addr pktsize : Nat) (addrs : List Nat),
      (∀ r ∈ fulls, r.succeeds c nak_limit ∧ r.byte_count = m) →
      count + fulls.length * m + s < N →
      ∃ e, InTransfer.loop c nak_limit N m (fulls ++ last :: rest) pep count addr pktsize addrs
            = some e ∧
        e.rcode = 0 ∧ e.nbytes = count + fulls.length * m + s ∧
        e.addrs.length = addrs.length + fulls.length + 1 := by
  intro fulls
  induction fulls with
  | nil =>
    intro pep count addr pktsize addrs _ hlt
    obtain ⟨d, hd, hd0⟩ := hlast
    have h0 : ¬ (0 = c.USB_ERROR_DATATOGGLE) := fun e => htog e.symm
    have hle : ¬ (s > N) := by simp at hlt; omega
    have hu : u8 (count + s) = count + s := u8_of_lt (by simp at hlt; omega)
    refine ⟨⟨0, count + s, { pep with bmRcvToggle := last.dtgl },
      addrs ++ [u32 (addr + pktsize)]⟩, ?_, rfl, by simp, by simp⟩
    rw [List.nil_append, InTransfer.loop]
    simp [hd, hd0, h0, hcount, hle, hu, hs]
  | cons r fulls ih =>
    intro pep count addr pktsize addrs hall hlt
    obtain ⟨⟨d, hd, hd0⟩, hrm⟩ := hall r (List.mem_cons_self _ _)
    have h0 : ¬ (0 = c.USB_ERROR_DATATOGGLE) := fun e => htog e.symm
    rw [List.length_cons, Nat.add_mul, Nat.one_mul] at hlt
    have hle : ¬ (m > N) := by omega
    have hu : u8 (count + m) = count + m := u8_of_lt (by norm_num; omega)
    obtain ⟨e, he, he0, hen, hea⟩ := ih pep (count + m) (u32 (addr + pktsize)) m
      (addrs ++ [u32 (addr + pktsize)]) (fun x hx => hall x (List.mem_cons_of_mem _ hx))
      (by omega)
    refine ⟨e, ?_, he0, ?_, ?_⟩
    · rw [List.cons_append, InTransfer.loop]
      have hge : ¬ (N ≤ count + m) := by omega
      simp [hd, hd0, h0, hrm, hle, hu, hge, he]
    · rw [hen, List.length_cons]; ring
    · rw [hea, List.length_append, List.length_cons]; simp; omega

/-- C3. A request for `N` bytes on an endpoint with maximum packet size `m`,
answered by `k` full packets of `m` bytes and then one packet of `s < m`
bytes with `k * m + s < N`, every dispatch succeeding: `InTransfer` makes
exactly `k + 1` IN dispatches, returns 0 and reports `k * m + s` bytes, fewer
than `N`.  (`N` is an `uint8_t`; zero must not be the toggle error code.) -/
theorem InTransfer_short_packet_terminates (c : Defs) (pep : EpInfo)
    (nak_limit N data s : Nat) (fulls rest : List InReply) (last : InReply)
    (hN : N < 256) (htog : c.USB_ERROR_DATATOGGLE ≠ 0)
    (hfull : ∀ r ∈ fulls, r.succeeds c nak_limit ∧ r.byte_count = pep.maxPktSize)
    (hlast : last.succeeds c nak_limit) (hcount : last.byte_count = s)
    (hs : s < pep.maxPktSize)
    (hlt : fulls.length * pep.maxPktSize + s < N) :
    ∃ e, InTransfer c pep nak_limit N data (fulls ++ last :: rest) = some e ∧
      e.rcode = 0 ∧ e.nbytes = fulls.length * pep.maxPktSize + s ∧ e.nbytes < N ∧
      e.addrs.length = fulls.length + 1 := by
  obtain ⟨e, he, he0, hen, hea⟩ := InTransfer.loop_short_packet c nak_limit N pep.maxPktSize s
    hN hs htog last rest hlast hcount fulls pep 0 (u32 data) 0 [] hfull (by omega)
  refine ⟨e, he, he0, by omega, by omega, by simpa using hea⟩

/-- Witness for C3: 20 bytes requested, maximum packet size 8, packets of 8 and 3. -/
theorem InTransfer_short_packet_terminates_witness :
    (20 < 256 ∧ samd21.USB_ERROR_DATATOGGLE ≠ 0 ∧
      (∀ r ∈ [InReply.ack samd21 8],
        r.succeeds samd21 0 ∧ r.byte_count = (⟨1, 8, 0, 0, 0⟩ : EpInfo).maxPktSize) ∧
      (InReply.ack samd21 3).succeeds samd21 0 ∧ (InReply.ack samd21 3).byte_count = 3 ∧
      3 < (⟨1, 8, 0, 0, 0⟩ : EpInfo).maxPktSize ∧
      [InReply.ack samd21 8].length * (⟨1, 8, 0, 0, 0⟩ : EpInfo).maxPktSize + 3 < 20) ∧
    ∃ e, InTransfer samd21 ⟨1, 8, 0, 0, 0⟩ 0 20 0
          ([InReply.ack samd21 8] ++ InReply.ack samd21 3 :: []) = some e ∧
      e.rcode = 0 ∧
      e.nbytes = [InReply.ack samd21 8].length * (⟨1, 8, 0, 0, 0⟩ : EpInfo).maxPktSize + 3 ∧
      e.nbytes < 20 ∧ e.addrs.length = [InReply.ack samd21 8].length + 1 :=
  have h8 : (InReply.ack samd21 8).succeeds samd21 0 := ⟨⟨0, 0, 0, 1⟩, by decide, rfl⟩
  have h3 : (InReply.ack samd21 3).succeeds samd21 0 := ⟨⟨0, 0, 0, 1⟩, by decide, rfl⟩
  ⟨⟨by decide, by decide, by simpa using ⟨h8, rfl⟩, h3, rfl, by decide, by decide⟩,
   InTransfer_short_packet_terminates samd21 ⟨1, 8, 0, 0, 0⟩ 0 20 0 3 [InReply.ack samd21 8] []
     (InReply.ack samd21 3) (by decide) (by decide) (by simpa using ⟨h8, rfl⟩) h3 rfl
     (by decide) (by decide)⟩


/-! ## Traces of the enumeration layer -/

section EnumerationProofs

variable {W : Type}

theorem Host.call_trace (H : Host W) (e : Ext) (s : Sys W) :
    (H.call e s).2.trace = s.trace ++ [Event.call e (H.run e s.world).1] := rfl

theorem releases_append (i : Nat) (a b : List Event) :
    releases i (a ++ b) = releases i a + releases i b := by
  simp [releases, List.countP_append]

/-- The loop over the driver table with `Poll` adds no call of `Release`. -/
theorem Task.forEach_Poll_releases (H : Host W) (j : Nat) :
    ∀ (left i : Nat) (s : Sys W),
      releases j (Task.forEach H Ext.Poll left i s).trace = releases j s.trace := by
  intro left
  induction left with
  | zero => intro i s; rfl
  | succ n ih =>
    intro i s
    rw [Task.forEach, ih]
    split
    · rw [Host.call_trace, releases_append]
      simp [releases, Event.isRelease]
    · rfl

/-- The loop over the driver table with `Release` calls it once through every
slot in range that holds a driver. -/
theorem Task.forEach_Release_releases (H : Host W) (j : Nat) :
    ∀ (left i : Nat) (s : Sys W),
      releases j (Task.forEach H Ext.Release left i s).trace
        = releases j s.trace +
          (if i ≤ j ∧ j < i + left ∧ H.devConfig j = true then 1 else 0) := by
  intro left
  induction left with
  | zero => intro i s; simp [Task.forEach]; omega
  | succ n ih =>
    intro i s
    rw [Task.forEach, ih]
    by_cases hreg : H.devConfig i = true
    · rw [if_pos hreg, Host.call_trace, releases_append]
      by_cases hij : i = j
      · subst hij
        simp [releases, Event.isRelease, hreg]
      · have h1 : (i + 1 ≤ j ∧ j < i + 1 + n ∧ H.devConfig j = true)
            ↔ (i ≤ j ∧ j < i + (n + 1) ∧ H.devConfig j = true) := by
          constructor
          · rintro ⟨a, b, c⟩; exact ⟨by omega, by omega, c⟩
          · rintro ⟨a, b, c⟩; exact ⟨by omega, by omega, c⟩
        simp [releases, Event.isRelease, hij, h1]
    · rw [if_neg hreg]
      have h1 : (i + 1 ≤ j ∧ j < i + 1 + n ∧ H.devConfig j = true)
          ↔ (i ≤ j ∧ j < i + (n + 1) ∧ H.devConfig j = true) := by
        constructor
        · rintro ⟨a, b, c⟩; exact ⟨by omega, by omega, c⟩
        · rintro ⟨a, b, c⟩
          refine ⟨?_, by omega, c⟩
          rcases Nat.eq_or_lt_of_le a with h | h
          · subst h; exact absurd c hreg
          · omega
      simp [h1]

/-- C4. In any task state outside the detached family, the tick of `Task` on
which VBUS reads disconnected sets the state to
`USB_DETACHED_SUBSTATE_INITIALIZE` in its VBUS switch, runs that case in the
same tick, calls `Release()` exactly once through every slot of `devConfig`
that holds a driver (and through no other), and ends in
`USB_DETACHED_SUBSTATE_WAIT_FOR_DEVICE`. -/
theorem Task_vbus_disconnect_releases_every_driver (H : Host W) (c : Defs)
    (sizeof_udd : Nat) (e : Engine) (s : Sys W)
    (hstate : e.usb_task_state &&& c.USB_STATE_MASK ≠ c.USB_STATE_DETACHED)
    (hvbus : (H.run .UHD_GetVBUSState s.world).1 = c.UHD_STATE_DISCONNECTED)
    (hcase : c.UHD_STATE_DISCONNECTED ≠ c.UHD_STATE_ERROR) :
    (Task.vbus H c e s).1.usb_task_state = c.USB_DETACHED_SUBSTATE_INITIALIZE ∧
    (Task H c sizeof_udd e s).1.usb_task_state = c.USB_DETACHED_SUBSTATE_WAIT_FOR_DEVICE ∧
    ∀ i, releases i (Task H c sizeof_udd e s).2.trace
      = releases i s.trace + (if i < c.USB_NUMDEVICES ∧ H.devConfig i = true then 1 else 0) := by
  have hv : Task.vbus H c e s
      = ({ e with usb_task_state := c.USB_DETACHED_SUBSTATE_INITIALIZE },
         (H.call .UHD_GetVBUSState s).2) := by
    unfold Task.vbus
    have h1 : (H.call .UHD_GetVBUSState s).1 = c.UHD_STATE_DISCONNECTED := hvbus
    simp only [h1, hcase, if_false, if_true, hstate, ne_eq, not_false_eq_true]
  refine ⟨by rw [hv], ?_, ?_⟩
  · unfold Task
    rw [hv]
    simp [Task.stage]
  · intro i
    unfold Task
    rw [hv]
    simp only [Task.stage, if_true]
    rw [Task.forEach_Release_releases, Host.call_trace, releases_append,
      Task.forEach_Poll_releases, Host.call_trace, releases_append]
    simp [releases, Event.isRelease]

/-- Witness for C4: the state is `USB_STATE_RUNNING`, drivers sit in slots 0 and 2. -/
theorem Task_vbus_disconnect_releases_every_driver_witness :
    ((⟨samd21.USB_STATE_RUNNING, 0, 0⟩ : Engine).usb_task_state &&& samd21.USB_STATE_MASK
        ≠ samd21.USB_STATE_DETACHED ∧
      (hostUnplugged.run .UHD_GetVBUSState (⟨(), []⟩ : Sys Unit).world).1
        = samd21.UHD_STATE_DISCONNECTED ∧
      samd21.UHD_STATE_DISCONNECTED ≠ samd21.UHD_STATE_ERROR) ∧
    ((Task.vbus hostUnplugged samd21 ⟨samd21.USB_STATE_RUNNING, 0, 0⟩ ⟨(), []⟩).1.usb_task_state
        = samd21.USB_DETACHED_SUBSTATE_INITIALIZE ∧
      (Task hostUnplugged samd21 18 ⟨samd21.USB_STATE_RUNNING, 0, 0⟩ ⟨(), []⟩).1.usb_task_state
        = samd21.USB_DETACHED_SUBSTATE_WAIT_FOR_DEVICE ∧
      ∀ i, releases i
          (Task hostUnplugged samd21 18 ⟨samd21.USB_STATE_RUNNING, 0, 0⟩ ⟨(), []⟩).2.trace
        = releases i (⟨(), []⟩ : Sys Unit).trace +
          (if i < samd21.USB_NUMDEVICES ∧ hostUnplugged.devConfig i = true then 1 else 0)) :=
  ⟨⟨by decide, by decide, by decide⟩,
   Task_vbus_disconnect_releases_every_driver hostUnplugged samd21 18
     ⟨samd21.USB_STATE_RUNNING, 0, 0⟩ ⟨(), []⟩ (by decide) (by decide) (by decide)⟩

theorem calls_append (a b : List Event) : calls (a ++ b) = calls a ++ calls b := by
  induction a with
  | nil => rfl
  | cons x xs ih => cases x <;> simp [calls, ih]

theorem attempts_append (a b : List Event) : attempts (a ++ b) = attempts a ++ attempts b := by
  induction a with
  | nil => rfl
  | cons x xs ih => cases x <;> simp [attempts, ih]

theorem attempts_of_calls (ext : List Event) (h : ∀ ev ∈ ext, ev.isCall = true) :
    attempts ext = [] := by
  induction ext with
  | nil => rfl
  | cons x xs ih =>
    have hx := h x (List.mem_cons_self _ _)
    cases x with
    | call e r => exact ih (fun ev hev => h ev (List.mem_cons_of_mem _ hev))
    | AttemptConfig d p q l => simp [Event.isCall] at hx
    | DefaultAddressing p q l => simp [Event.isCall] at hx
    | attempted n d r => simp [Event.isCall] at hx

theorem Sys.extendsWith_refl (P : Event → Bool) (s : Sys W) : s.extendsWith P s :=
  ⟨[], by simp, by simp⟩

theorem Sys.extendsWith_trans {P : Event → Bool} {s t u : Sys W}
    (h1 : s.extendsWith P t) (h2 : t.extendsWith P u) : s.extendsWith P u := by
  obtain ⟨e1, ht, hc1⟩ := h1
  obtain ⟨e2, hu, hc2⟩ := h2
  refine ⟨e1 ++ e2, by rw [hu, ht, List.append_assoc], ?_⟩
  intro ev hev
  rcases List.mem_append.mp hev with h | h
  · exact hc1 ev h
  · exact hc2 ev h

theorem Sys.extendsWith_call (P : Event → Bool) (H : Host W) (e : Ext) (s : Sys W)
    (h : P (Event.call e (H.run e s.world).1) = true) : s.extendsWith P (H.call e s).2 :=
  ⟨[Event.call e (H.run e s.world).1], rfl, by simpa using h⟩

theorem Sys.extendsWith_mono {P Q : Event → Bool} (hPQ : ∀ ev, P ev = true → Q ev = true)
    {s t : Sys W} (h : s.extendsWith P t) : s.extendsWith Q t := by
  obtain ⟨ext, ht, hc⟩ := h
  exact ⟨ext, ht, fun ev hev => hPQ ev (hc ev hev)⟩

theorem Sys.extendsWith_attempts {s t : Sys W} (h : s.extendsWith Event.isCall t) :
    attempts t.trace = attempts s.trace := by
  obtain ⟨ext, ht, hc⟩ := h
  rw [ht, attempts_append, attempts_of_calls ext hc, List.append_nil]

theorem AttemptConfig.resetOk_isCall (parent port : Nat) (ev : Event)
    (h : AttemptConfig.resetOk parent port ev = true) : ev.isCall = true := by
  cases ev with
  | call e r => rfl
  | AttemptConfig d p q l => simp [AttemptConfig.resetOk] at h
  | DefaultAddressing p q l => simp [AttemptConfig.resetOk] at h
  | attempted n d r => simp [AttemptConfig.resetOk] at h

/-- The reset of `AttemptConfig` makes exactly the calls `resetCalls`. -/
theorem AttemptConfig.reset_calls (H : Host W) (parent port : Nat) (s : Sys W) :
    calls (AttemptConfig.reset H parent port s).trace
      = calls s.trace ++ AttemptConfig.resetCalls parent port := by
  unfold AttemptConfig.reset AttemptConfig.resetCalls
  split
  · rw [Host.call_trace, Host.call_trace]
    simp [calls_append, calls]
  · rw [Host.call_trace]
    simp [calls_append, calls]

theorem AttemptConfig.reset_extends (H : Host W) (parent port : Nat) (s : Sys W) :
    s.extendsWith (AttemptConfig.resetOk parent port) (AttemptConfig.reset H parent port s) := by
  unfold AttemptConfig.reset
  split
  · rename_i h0
    exact Sys.extendsWith_trans
      (Sys.extendsWith_call _ H _ s (by simp [AttemptConfig.resetOk, h0]))
      (Sys.extendsWith_call _ H _ _ (by simp [AttemptConfig.resetOk]))
  · rename_i h0
    exact Sys.extendsWith_call _ H _ s (by simp [AttemptConfig.resetOk, h0])

theorem AttemptConfig.initStep_extends (H : Host W) (driver parent port lowspeed : Nat)
    (retry : Option (Sys W → Nat × Sys W))
    (hretry : ∀ k, retry = some k →
      ∀ s : Sys W, s.extendsWith (AttemptConfig.resetOk parent port) (k s).2)
    (s : Sys W) :
    (H.call (.Init driver parent port lowspeed) s).2.extendsWith
      (AttemptConfig.resetOk parent port)
      (AttemptConfig.initStep H driver parent port lowspeed retry s).2 := by
  unfold AttemptConfig.initStep
  cases retry with
  | none =>
    simp only []
    split
    · exact AttemptConfig.reset_extends H parent port _
    · exact Sys.extendsWith_refl _ _
  | some k =>
    simp only []
    split
    · exact Sys.extendsWith_trans
        (Sys.extendsWith_call _ H _ _ (by simp [AttemptConfig.resetOk])) (hretry k rfl _)
    · exact Sys.extendsWith_refl _ _

theorem AttemptConfig.body_extends (H : Host W) (c : Defs) (driver parent port lowspeed : Nat)
    (retry : Option (Sys W → Nat × Sys W))
    (hretry : ∀ k, retry = some k →
      ∀ s : Sys W, s.extendsWith (AttemptConfig.resetOk parent port) (k s).2)
    (s : Sys W) :
    s.extendsWith (AttemptConfig.resetOk parent port)
      (AttemptConfig.body H c driver parent port lowspeed retry s).2 := by
  have hinit : ∀ t : Sys W, t.extendsWith (AttemptConfig.resetOk parent port)
      (AttemptConfig.initStep H driver parent port lowspeed retry t).2 :=
    fun t => Sys.extendsWith_trans
      (Sys.extendsWith_call _ H _ t (by simp [AttemptConfig.resetOk]))
      (AttemptConfig.initStep_extends H driver parent port lowspeed retry hretry t)
  have hcd : s.extendsWith (AttemptConfig.resetOk parent port)
      (H.call (.ConfigureDevice driver parent port lowspeed) s).2 :=
    Sys.extendsWith_call _ H _ s (by simp [AttemptConfig.resetOk])
  unfold AttemptConfig.body
  simp only []
  split
  · exact Sys.extendsWith_trans hcd
      (Sys.extendsWith_trans (AttemptConfig.reset_extends H parent port _) (hinit _))
  · cases retry with
    | none =>
      simp only []
      split
      · exact hcd
      · exact Sys.extendsWith_trans hcd (hinit _)
    | some k =>
      simp only []
      split
      · exact Sys.extendsWith_trans hcd
          (Sys.extendsWith_trans
            (Sys.extendsWith_call _ H _ _ (by simp [AttemptConfig.resetOk])) (hretry k rfl _))
      · exact Sys.extendsWith_trans hcd (hinit _)

/-- From the label `again` on, `AttemptConfig` only adds calls to the trace; a
hub port reset among them goes through the table slot `parent`, and only when
`parent` is not 0, a root bus reset occurs only when `parent` is 0. -/
theorem AttemptConfig.again_extends (H : Host W) (c : Defs)
    (driver parent port lowspeed : Nat) :
    ∀ (left : Nat) (s : Sys W),
      s.extendsWith (AttemptConfig.resetOk parent port)
        (AttemptConfig.again H c driver parent port lowspeed left s).2 := by
  intro left
  induction left with
  | zero =>
    intro s
    exact AttemptConfig.body_extends H c driver parent port lowspeed none
      (fun k hk => by cases hk) s
  | succ n ih =>
    intro s
    exact AttemptConfig.body_extends H c driver parent port lowspeed _
      (fun k hk => by cases hk; exact ih) s

/-- What `AttemptConfig` does for every driver table and every behaviour of the
drivers: after its mark it adds calls only; it calls `ResetHubPort` only
through the slot `devConfig[parent]`, with `port`, and only when `parent` is
not 0; it calls `UHD_BusReset` only when `parent` is 0. -/
theorem AttemptConfig_only_resets_via_parent_index (H : Host W) (c : Defs)
    (driver parent port lowspeed : Nat) (s : Sys W) :
    ∃ ext, (AttemptConfig H c driver parent port lowspeed s).2.trace
        = s.trace ++ Event.AttemptConfig driver parent port lowspeed :: ext ∧
      ∀ ev ∈ ext, AttemptConfig.resetOk parent port ev = true := by
  obtain ⟨ext, h, hc⟩ := AttemptConfig.again_extends H c driver parent port lowspeed 3
    (s.mark (.AttemptConfig driver parent port lowspeed))
  exact ⟨ext, by rw [AttemptConfig, h]; simp [Sys.mark], hc⟩

/-- `AttemptConfig` puts its own mark in the trace and otherwise only calls. -/
theorem AttemptConfig_attempts (H : Host W) (c : Defs) (driver parent port lowspeed : Nat)
    (s : Sys W) :
    attempts (AttemptConfig H c driver parent port lowspeed s).2.trace
      = attempts s.trace ++ [driver] := by
  unfold AttemptConfig
  rw [Sys.extendsWith_attempts (Sys.extendsWith_mono (AttemptConfig.resetOk_isCall parent port)
    (AttemptConfig.again_extends H c driver parent port lowspeed 3 _))]
  simp [Sys.mark, attempts_append, attempts]

theorem Configuring.matches_extends (H : Host W) (i vid pid klass : Nat) (s : Sys W) :
    s.extendsWith Event.isCall (Configuring.matches H i vid pid klass s).2 := by
  unfold Configuring.matches
  simp only []
  split
  · exact Sys.extendsWith_call _ H _ s rfl
  · exact Sys.extendsWith_trans (Sys.extendsWith_call _ H _ s rfl)
      (Sys.extendsWith_call _ H _ _ rfl)

/-- The first loop of `Configuring`, started at slot `i` with `left` slots to go,
enters `AttemptConfig` on drivers of strictly increasing index, all within
`i ≤ x < i + left`. -/
theorem Configuring.pass1_attempts (H : Host W) (c : Defs)
    (vid pid klass parent port lowspeed : Nat) :
    ∀ (left i rcode : Nat) (s : Sys W),
      ∃ l, attempts
            (Configuring.pass1 H c vid pid klass parent port lowspeed left i rcode s).2.2.trace
          = attempts s.trace ++ l ∧
        l.Pairwise (· < ·) ∧ ∀ x ∈ l, i ≤ x ∧ x < i + left := by
  intro left
  induction left with
  | zero => intro i rcode s; exact ⟨[], by simp [Configuring.pass1], List.Pairwise.nil, by simp⟩
  | succ n ih =>
    intro i rcode s
    -- going on with the next slot from a state that added no mark
    have skip : ∀ (rc : Nat) (t : Sys W), attempts t.trace = attempts s.trace →
        ∃ l, attempts
              (Configuring.pass1 H c vid pid klass parent port lowspeed n (i + 1) rc t).2.2.trace
            = attempts s.trace ++ l ∧
          l.Pairwise (· < ·) ∧ ∀ x ∈ l, i ≤ x ∧ x < i + (n + 1) := by
      intro rc t ht
      obtain ⟨l, h1, h2, h3⟩ := ih (i + 1) rc t
      exact ⟨l, by rw [h1, ht], h2, fun x hx => ⟨by have := h3 x hx; omega,
        by have := h3 x hx; omega⟩⟩
    rw [Configuring.pass1]
    simp only []
    split
    · exact skip rcode s rfl
    · split
      · exact skip rcode _ (Sys.extendsWith_attempts (Sys.extendsWith_call _ H _ s rfl))
      · have hm : attempts (Configuring.matches H i vid pid klass
            (H.call (.GetAddress i) s).2).2.trace = attempts s.trace :=
          Sys.extendsWith_attempts (Sys.extendsWith_trans (Sys.extendsWith_call _ H _ s rfl)
            (Configuring.matches_extends H i vid pid klass _))
        split
        · have ha : attempts ((AttemptConfig H c i parent port lowspeed
              (Configuring.matches H i vid pid klass (H.call (.GetAddress i) s).2).2).2.mark
              (.attempted 1 i (AttemptConfig H c i parent port lowspeed
                (Configuring.matches H i vid pid klass (H.call (.GetAddress i) s).2).2).1)).trace
              = attempts s.trace ++ [i] := by
            rw [Sys.mark, attempts_append, AttemptConfig_attempts, hm]
            simp [attempts]
          split
          · exact ⟨[i], ha, List.pairwise_singleton _ _, by simp⟩
          · obtain ⟨l, h1, h2, h3⟩ := ih (i + 1)
              (AttemptConfig H c i parent port lowspeed
                (Configuring.matches H i vid pid klass (H.call (.GetAddress i) s).2).2).1
              ((AttemptConfig H c i parent port lowspeed
                (Configuring.matches H i vid pid klass (H.call (.GetAddress i) s).2).2).2.mark
                (.attempted 1 i (AttemptConfig H c i parent port lowspeed
                  (Configuring.matches H i vid pid klass (H.call (.GetAddress i) s).2).2).1))
            refine ⟨i :: l, by rw [h1, ha]; simp, ?_, ?_⟩
            · exact List.Pairwise.cons (fun x hx => by have := h3 x hx; omega) h2
            · intro x hx
              rcases List.mem_cons.mp hx with h | h
              · subst h; omega
              · have := h3 x h; omega
        · exact skip rcode _ hm

/-- C5, as the code has it.  The first pass of `Configuring` offers configuration
in the order of the driver table, whichever of the two predicates made a
driver match: the drivers on which it enters `AttemptConfig` have strictly
increasing table indices.  So a driver matching by VID and PID is attempted
before a driver matching by device class only when it precedes it in the
table. -/
theorem Configuring_first_pass_attempts_in_table_order (H : Host W) (c : Defs)
    (vid pid klass parent port lowspeed rcode : Nat) (s : Sys W) :
    ∃ l, attempts
          (Configuring.pass1 H c vid pid klass parent port lowspeed
            c.USB_NUMDEVICES 0 rcode s).2.2.trace
        = attempts s.trace ++ l ∧
      l.Pairwise (· < ·) ∧ ∀ x ∈ l, x < c.USB_NUMDEVICES := by
  obtain ⟨l, h1, h2, h3⟩ := Configuring.pass1_attempts H c vid pid klass parent port lowspeed
    c.USB_NUMDEVICES 0 rcode s
  exact ⟨l, h1, h2, fun x hx => by have := h3 x hx; omega⟩

/-- C5 as stated fails.  With an Arduino Uno attached, slot 0 holding a driver
that matches only by device class and slot 1 a driver whose `VIDPIDOK` is true
for the Uno, `Configuring` enters `AttemptConfig` first on the driver of slot
0 and only then on the driver of slot 1. -/
theorem Configuring_class_driver_offered_before_vidpid_driver :
    (hostUno.run (.VIDPIDOK 1 0x2341 0x0043) ()).1 = 1 ∧
    (hostUno.run (.VIDPIDOK 0 0x2341 0x0043) ()).1 = 0 ∧
    (hostUno.run (.DEVCLASSOK 0 2) ()).1 = 1 ∧
    (hostUno.run (.GetAddress 0) ()).1 = 0 ∧ (hostUno.run (.GetAddress 1) ()).1 = 0 ∧
    attempts (Configuring hostUno samd21 18 0 0 0 ⟨(), []⟩).2.trace = [0, 1] := by
  decide

/-- C6 fails on the code.  The hub that owns bus address 5 has its driver in slot
1 of `devConfig`, and slot 5 holds a driver that owns address 9.  When
`ConfigureDevice` answers `USB_ERROR_CONFIG_REQUIRES_ADDITIONAL_RESET` for a
device on port 3 of parent address 5, `AttemptConfig` calls `ResetHubPort(3)`
through slot 5, not on the driver that owns address 5. -/
theorem AttemptConfig_resets_through_slot_parent :
    (hostHubInSlot1.run (.GetAddress 1) ()).1 = 5 ∧
    (hostHubInSlot1.run (.GetAddress 5) ()).1 = 9 ∧
    (AttemptConfig hostHubInSlot1 samd21 0 5 3 0 ⟨(), []⟩).2.trace
      = [Event.AttemptConfig 0 5 3 0,
         Event.call (.ConfigureDevice 0 5 3 0) samd21.USB_ERROR_CONFIG_REQUIRES_ADDITIONAL_RESET,
         Event.call (.ResetHubPort 5 3) 0,
         Event.call (.Init 0 5 3 0) 0] := by
  decide

/-- C7 as stated fails.  For a device on port 3 of the hub at address 5 (driver
in slot 5), after `ConfigureDevice` has answered
`USB_ERROR_CONFIG_REQUIRES_ADDITIONAL_RESET` and the hub port has been reset,
the next call on the driver is `Init`; `ConfigureDevice` is called once. -/
theorem AttemptConfig_no_second_ConfigureDevice_after_reset :
    calls (AttemptConfig hostHubInSlot5 samd21 0 5 3 0 ⟨(), []⟩).2.trace
      = [.ConfigureDevice 0 5 3 0, .ResetHubPort 5 3, .Init 0 5 3 0] ∧
    (AttemptConfig hostHubInSlot5 samd21 0 5 3 0 ⟨(), []⟩).1 = 0 := by
  decide

/-- C7, as the code has it.  Whenever `ConfigureDevice`, called at the label
`again` of `AttemptConfig` (with any number `3 - left` of retries used up),
returns `USB_ERROR_CONFIG_REQUIRES_ADDITIONAL_RESET`, the calls that follow
are those of the reset and then `Init` on the same driver with the same
arguments; `ConfigureDevice` is not called again before `Init`. -/
theorem AttemptConfig_reset_code_then_Init (H : Host W) (c : Defs)
    (driver parent port lowspeed left : Nat) (s : Sys W)
    (hcode : u8 (H.run (.ConfigureDevice driver parent port lowspeed) s.world).1
      = c.USB_ERROR_CONFIG_REQUIRES_ADDITIONAL_RESET) :
    ∃ rest, calls (AttemptConfig.again H c driver parent port lowspeed left s).2.trace
      = calls s.trace ++ [.ConfigureDevice driver parent port lowspeed] ++
          AttemptConfig.resetCalls parent port ++ [.Init driver parent port lowspeed] ++ rest := by
  have key : ∀ retry : Option (Sys W → Nat × Sys W),
      (∀ k, retry = some k →
        ∀ t : Sys W, t.extendsWith (AttemptConfig.resetOk parent port) (k t).2) →
      ∃ rest, calls (AttemptConfig.body H c driver parent port lowspeed retry s).2.trace
        = calls s.trace ++ [.ConfigureDevice driver parent port lowspeed] ++
            AttemptConfig.resetCalls parent port ++ [.Init driver parent port lowspeed] ++
            rest := by
    intro retry hretry
    have hc : u8 (H.call (.ConfigureDevice driver parent port lowspeed) s).1
        = c.USB_ERROR_CONFIG_REQUIRES_ADDITIONAL_RESET := hcode
    obtain ⟨ext, hext, _⟩ := AttemptConfig.initStep_extends H driver parent port lowspeed retry
      hretry (AttemptConfig.reset H parent port
        (H.call (.ConfigureDevice driver parent port lowspeed) s).2)
    refine ⟨calls ext, ?_⟩
    unfold AttemptConfig.body
    simp only [hc, if_true]
    rw [hext, calls_append, Host.call_trace, calls_append, AttemptConfig.reset_calls,
      Host.call_trace, calls_append]
    simp [calls]
  cases left with
  | zero => exact key none (fun k hk => by cases hk)
  | succ n =>
    exact key _ (fun k hk => by
      cases hk; exact AttemptConfig.again_extends H c driver parent port lowspeed n)

/-- Witness for C7: the root port, first attempt. -/
theorem AttemptConfig_reset_code_then_Init_witness :
    u8 (hostHubInSlot5.run (.ConfigureDevice 0 0 1 0) (⟨(), []⟩ : Sys Unit).world).1
      = samd21.USB_ERROR_CONFIG_REQUIRES_ADDITIONAL_RESET ∧
    ∃ rest, calls (AttemptConfig.again hostHubInSlot5 samd21 0 0 1 0 3 ⟨(), []⟩).2.trace
      = calls (⟨(), []⟩ : Sys Unit).trace ++ [.ConfigureDevice 0 0 1 0] ++
          AttemptConfig.resetCalls 0 1 ++ [.Init 0 0 1 0] ++ rest :=
  ⟨by decide,
   AttemptConfig_reset_code_then_Init hostHubInSlot5 samd21 0 0 1 0 3 ⟨(), []⟩ (by decide)⟩

end EnumerationProofs

end USBHost

namespace HIDBoot

/-- C8. `Release()` returns 0 and leaves `GetAddress() == 0`; called a second
time it returns 0 again and leaves every data member of the driver, its table
of endpoints included, as the first call left it. -/
theorem Release_twice_same_driver (d : Driver) (freed : List Nat) :
    (Release d freed).1 = 0 ∧
    GetAddress (Release d freed).2.1 = 0 ∧
    (Release (Release d freed).2.1 (Release d freed).2.2).1 = 0 ∧
    (Release (Release d freed).2.1 (Release d freed).2.2).2.1 = (Release d freed).2.1 :=
  ⟨rfl, rfl, rfl, rfl⟩

end HIDBoot

namespace USBHost

/-! ## `InTransfer`: toggle errors -/

/-- What a pass of the receive loop does when its dispatch reports a toggle
error: the receive toggle is taken from the hardware, the byte count and
`pktsize` are kept, and the loop goes on from the address of the failed
dispatch, to which the next pass adds `pktsize` once more. -/
theorem InTransfer.loop_toggle_error (c : Defs) (nak_limit nbytes maxpktsize : Nat)
    (r : InReply) (rest : List InReply) (pep : EpInfo) (count addr pktsize : Nat)
    (addrs : List Nat) (d : DispatchExit)
    (hd : dispatchPkt c r.now nak_limit r.samples = some d)
    (htog : d.rcode = c.USB_ERROR_DATATOGGLE) :
    InTransfer.loop c nak_limit nbytes maxpktsize (r :: rest) pep count addr pktsize addrs
      = InTransfer.loop c nak_limit nbytes maxpktsize rest
          { pep with bmRcvToggle := r.dtgl } count (u32 (addr + pktsize)) pktsize
          (addrs ++ [u32 (addr + pktsize)]) := by
  rw [InTransfer.loop]
  simp [hd, htog]

/-- C20 fails on the code.  Sixteen bytes are requested with `maxPktSize = 8`.
The first IN dispatch, at buffer offset 0, brings 8 bytes; the second, at
offset 8, reports a toggle error; the dispatch that retries it is made at
offset 16, not 8, because `ADDR.reg += pktsize` at the head of the loop is
executed again on `continue`.  The toggle is resynchronised and the byte count
is not increased by the failed dispatch. -/
theorem InTransfer_toggle_retry_moves_destination :
    InTransfer samd21 ⟨1, 8, 0, 0, 0⟩ 0 16 0
        [InReply.ack samd21 8, InReply.toggleError samd21 1, InReply.ack samd21 8]
      = some ⟨0, 16, ⟨1, 8, 0, 0, 0⟩, [0, 8, 16]⟩ ∧
    InTransfer samd21 ⟨1, 8, 0, 0, 0⟩ 0 16 0
        [InReply.ack samd21 8, InReply.toggleError samd21 1]
      = none := by
  decide

end USBHost

namespace USBHost

/-! ## `Task`: the states Error, Detached-Illegal and Configuring -/

section TaskProofs

variable {W : Type}

/-- C15 as stated fails.  From `USB_STATE_ERROR`, a tick on which VBUS reads
the error state ends in `USB_DETACHED_SUBSTATE_ILLEGAL`, and a tick on which
VBUS reads disconnected ends in `USB_DETACHED_SUBSTATE_WAIT_FOR_DEVICE`; from
`USB_DETACHED_SUBSTATE_ILLEGAL`, a tick on which VBUS reads connected ends in
`USB_ATTACHED_SUBSTATE_SETTLE`. -/
theorem Task_Error_and_Illegal_left_on_vbus_change :
    (Task (hostVbusReads samd21.UHD_STATE_ERROR) samd21 18
        ⟨samd21.USB_STATE_ERROR, 7, 0⟩ ⟨(), []⟩).1.usb_task_state
      = samd21.USB_DETACHED_SUBSTATE_ILLEGAL ∧
    (Task (hostVbusReads samd21.UHD_STATE_DISCONNECTED) samd21 18
        ⟨samd21.USB_STATE_ERROR, 7, 0⟩ ⟨(), []⟩).1.usb_task_state
      = samd21.USB_DETACHED_SUBSTATE_WAIT_FOR_DEVICE ∧
    (Task (hostVbusReads samd21.UHD_STATE_CONNECTED) samd21 18
        ⟨samd21.USB_DETACHED_SUBSTATE_ILLEGAL, 0, 0⟩ ⟨(), []⟩).1.usb_task_state
      = samd21.USB_ATTACHED_SUBSTATE_SETTLE := by
  decide

/-- In a state that is none of the six case labels with code, the state switch
of `Task` does nothing. -/
theorem Task.stage_idle (H : Host W) (c : Defs) (sizeof_udd : Nat) (e : Engine) (s : Sys W)
    (h1 : e.usb_task_state ≠ c.USB_DETACHED_SUBSTATE_INITIALIZE)
    (h2 : e.usb_task_state ≠ c.USB_ATTACHED_SUBSTATE_SETTLE)
    (h3 : e.usb_task_state ≠ c.USB_ATTACHED_SUBSTATE_RESET_DEVICE)
    (h4 : e.usb_task_state ≠ c.USB_ATTACHED_SUBSTATE_WAIT_RESET_COMPLETE)
    (h5 : e.usb_task_state ≠ c.USB_ATTACHED_SUBSTATE_WAIT_SOF)
    (h6 : e.usb_task_state ≠ c.USB_STATE_CONFIGURING) :
    Task.stage H c sizeof_udd e s = (e, s) := by
  unfold Task.stage
  simp [h1, h2, h3, h4, h5, h6]

/-- The loop over the driver table leaves the engine alone, so the state switch
sees the engine as the VBUS switch left it. -/
theorem Task_eq_stage (H : Host W) (c : Defs) (sizeof_udd : Nat) (e : Engine) (s : Sys W) :
    Task H c sizeof_udd e s
      = Task.stage H c sizeof_udd (Task.vbus H c e s).1
          (Task.forEach H Ext.Poll c.USB_NUMDEVICES 0 (Task.vbus H c e s).2) := rfl

/-- C15, as the code has it.  What a tick of `Task` does to the engine from
`USB_STATE_ERROR` and from `USB_DETACHED_SUBSTATE_ILLEGAL`, by the VBUS
reading.  Reading the error state: the state becomes (or stays)
`USB_DETACHED_SUBSTATE_ILLEGAL`.  Reading disconnected: `USB_STATE_ERROR`
goes to `USB_DETACHED_SUBSTATE_INITIALIZE` and, in the same tick, on to
`USB_DETACHED_SUBSTATE_WAIT_FOR_DEVICE`; `USB_DETACHED_SUBSTATE_ILLEGAL` is
kept.  Reading connected: `USB_STATE_ERROR` is kept;
`USB_DETACHED_SUBSTATE_ILLEGAL` goes to `USB_ATTACHED_SUBSTATE_SETTLE` with the
timer set to `millis() + USB_SETTLE_DELAY` and, if the clock read after the
drivers were polled has already reached the timer, in the same tick on to
`USB_ATTACHED_SUBSTATE_RESET_DEVICE`.  Any other reading: both are kept.
Where the state is kept, error code and timer are kept too. -/
theorem Task_Error_and_Illegal_follow_vbus_reading (H : Host W) (c : Defs)
    (sizeof_udd : Nat) (e : Engine) (s : Sys W)
    (hlab : c.stateLabels.Nodup) (hvl : c.vbusLabels.Nodup)
    (herr : c.USB_STATE_ERROR &&& c.USB_STATE_MASK ≠ c.USB_STATE_DETACHED)
    (hill : c.USB_DETACHED_SUBSTATE_ILLEGAL &&& c.USB_STATE_MASK = c.USB_STATE_DETACHED)
    (hst : e.usb_task_state = c.USB_STATE_ERROR ∨
      e.usb_task_state = c.USB_DETACHED_SUBSTATE_ILLEGAL) :
    (Task H c sizeof_udd e s).1 =
      if (H.run .UHD_GetVBUSState s.world).1 = c.UHD_STATE_ERROR then
        { e with usb_task_state := c.USB_DETACHED_SUBSTATE_ILLEGAL }
      else if (H.run .UHD_GetVBUSState s.world).1 = c.UHD_STATE_DISCONNECTED then
        if e.usb_task_state = c.USB_STATE_ERROR then
          { e with usb_task_state := c.USB_DETACHED_SUBSTATE_WAIT_FOR_DEVICE }
        else e
      else if (H.run .UHD_GetVBUSState s.world).1 = c.UHD_STATE_CONNECTED then
        if e.usb_task_state = c.USB_STATE_ERROR then e
        else
          { e with
            delay := u32 ((H.call .millis (H.call .UHD_GetVBUSState s).2).1
              + c.USB_SETTLE_DELAY),
            usb_task_state :=
              if u32 ((H.call .millis (Task.forEach H Ext.Poll c.USB_NUMDEVICES 0
                      (H.call .millis (H.call .UHD_GetVBUSState s).2).2)).1
                    + (2 ^ 32 - u32 (u32 ((H.call .millis (H.call .UHD_GetVBUSState s).2).1
                        + c.USB_SETTLE_DELAY)))) < 2 ^ 31
              then c.USB_ATTACHED_SUBSTATE_RESET_DEVICE
              else c.USB_ATTACHED_SUBSTATE_SETTLE }
      else e := by
  have hlab2 : c.stateLabels.reverse.Nodup := List.nodup_reverse.mpr hlab
  have hvl2 : c.vbusLabels.reverse.Nodup := List.nodup_reverse.mpr hvl
  simp only [Defs.stateLabels, Defs.vbusLabels, List.reverse_cons, List.reverse_nil,
    List.nil_append, List.cons_append, List.nodup_cons, List.mem_cons,
    List.mem_singleton, not_or, List.not_mem_nil, not_false_eq_true, List.nodup_nil,
    and_true] at hlab hlab2 hvl hvl2
  have hv : (H.call .UHD_GetVBUSState s).1 = (H.run .UHD_GetVBUSState s.world).1 := rfl
  rw [Task_eq_stage]
  generalize (H.run .UHD_GetVBUSState s.world).1 = v at hv ⊢
  by_cases h1 : v = c.UHD_STATE_ERROR
  · have hvb : Task.vbus H c e s
        = ({ e with usb_task_state := c.USB_DETACHED_SUBSTATE_ILLEGAL },
            (H.call .UHD_GetVBUSState s).2) := by
      unfold Task.vbus
      simp [hv, h1]
    rw [hvb, if_pos h1]
    rw [Task.stage_idle] <;> simp [hlab, hlab2]
  · rw [if_neg h1]
    by_cases h2 : v = c.UHD_STATE_DISCONNECTED
    · rw [if_pos h2]
      rcases hst with h | h
      · have hvb : Task.vbus H c e s
            = ({ e with usb_task_state := c.USB_DETACHED_SUBSTATE_INITIALIZE },
                (H.call .UHD_GetVBUSState s).2) := by
          unfold Task.vbus
          simp [hv, h2, hvl, hvl2, h, herr]
        rw [hvb, if_pos h]
        unfold Task.stage
        simp
      · have hvb : Task.vbus H c e s = (e, (H.call .UHD_GetVBUSState s).2) := by
          unfold Task.vbus
          simp [hv, h2, hvl, hvl2, h, hill]
        rw [hvb, if_neg (by rw [h]; simp [hlab, hlab2])]
        rw [Task.stage_idle] <;> simp [h, hlab, hlab2]
    · rw [if_neg h2]
      by_cases h3 : v = c.UHD_STATE_CONNECTED
      · rw [if_pos h3]
        rcases hst with h | h
        · have hvb : Task.vbus H c e s = (e, (H.call .UHD_GetVBUSState s).2) := by
            unfold Task.vbus
            simp [hv, h3, hvl, hvl2, h, herr]
          rw [hvb, if_pos h]
          rw [Task.stage_idle] <;> simp [h, hlab, hlab2]
        · have hvb : Task.vbus H c e s
              = ({ e with
                    delay := u32 ((H.call .millis (H.call .UHD_GetVBUSState s).2).1
                      + c.USB_SETTLE_DELAY),
                    usb_task_state := c.USB_ATTACHED_SUBSTATE_SETTLE },
                  (H.call .millis (H.call .UHD_GetVBUSState s).2).2) := by
            unfold Task.vbus
            simp [hv, h3, hvl, hvl2, h, hill]
          rw [hvb, if_neg (by rw [h]; simp [hlab, hlab2])]
          unfold Task.stage
          simp only [hlab, hlab2, if_true, if_false]
          split <;> rfl
      · rw [if_neg h3]
        have hvb : Task.vbus H c e s = (e, (H.call .UHD_GetVBUSState s).2) := by
          unfold Task.vbus
          simp [hv, h1, h2, h3]
        rw [hvb]
        rcases hst with h | h <;> rw [Task.stage_idle] <;> simp [h, hlab, hlab2]

/-- The statement of `Task_Error_and_Illegal_follow_vbus_reading` on ticks with the
constants of the SAMD21 port: `USB_STATE_ERROR` is kept when VBUS reads
connected, becomes Detached-Illegal when VBUS reads the error state and
Detached-WaitForDevice when VBUS reads disconnected; Detached-Illegal is kept
when VBUS reads disconnected, becomes Attached-Settle when VBUS reads
connected and the clock stands still, and Attached-ResetDevice when the clock
has passed the settle delay by the time the state switch reads it. -/
theorem Task_Error_and_Illegal_follow_vbus_reading_witness :
    (samd21.stateLabels.Nodup ∧ samd21.vbusLabels.Nodup ∧
      samd21.USB_STATE_ERROR &&& samd21.USB_STATE_MASK ≠ samd21.USB_STATE_DETACHED ∧
      samd21.USB_DETACHED_SUBSTATE_ILLEGAL &&& samd21.USB_STATE_MASK
        = samd21.USB_STATE_DETACHED) ∧
    (Task (hostVbusReads samd21.UHD_STATE_CONNECTED) samd21 18
        ⟨samd21.USB_STATE_ERROR, 7, 0⟩ ⟨(), []⟩).1 = ⟨samd21.USB_STATE_ERROR, 7, 0⟩ ∧
    (Task (hostVbusReads samd21.UHD_STATE_ERROR) samd21 18
        ⟨samd21.USB_STATE_ERROR, 7, 0⟩ ⟨(), []⟩).1
      = ⟨samd21.USB_DETACHED_SUBSTATE_ILLEGAL, 7, 0⟩ ∧
    (Task (hostVbusReads samd21.UHD_STATE_DISCONNECTED) samd21 18
        ⟨samd21.USB_STATE_ERROR, 7, 0⟩ ⟨(), []⟩).1
      = ⟨samd21.USB_DETACHED_SUBSTATE_WAIT_FOR_DEVICE, 7, 0⟩ ∧
    (Task (hostVbusReads samd21.UHD_STATE_DISCONNECTED) samd21 18
        ⟨samd21.USB_DETACHED_SUBSTATE_ILLEGAL, 7, 0⟩ ⟨(), []⟩).1
      = ⟨samd21.USB_DETACHED_SUBSTATE_ILLEGAL, 7, 0⟩ ∧
    (Task (hostVbusReads samd21.UHD_STATE_CONNECTED) samd21 18
        ⟨samd21.USB_DETACHED_SUBSTATE_ILLEGAL, 7, 0⟩ ⟨(), []⟩).1
      = ⟨samd21.USB_ATTACHED_SUBSTATE_SETTLE, 7, 200⟩ ∧
    (Task hostClockJumps samd21 18
        ⟨samd21.USB_DETACHED_SUBSTATE_ILLEGAL, 7, 0⟩ ⟨0, []⟩).1
      = ⟨samd21.USB_ATTACHED_SUBSTATE_RESET_DEVICE, 7, 200⟩ :=
  ⟨⟨by decide, by decide, by decide, by decide⟩,
   (Task_Error_and_Illegal_follow_vbus_reading (hostVbusReads samd21.UHD_STATE_CONNECTED)
     samd21 18 ⟨samd21.USB_STATE_ERROR, 7, 0⟩ ⟨(), []⟩
     (by decide) (by decide) (by decide) (by decide) (Or.inl rfl)).trans (by decide),
   (Task_Error_and_Illegal_follow_vbus_reading (hostVbusReads samd21.UHD_STATE_ERROR)
     samd21 18 ⟨samd21.USB_STATE_ERROR, 7, 0⟩ ⟨(), []⟩
     (by decide) (by decide) (by decide) (by decide) (Or.inl rfl)).trans (by decide),
   (Task_Error_and_Illegal_follow_vbus_reading (hostVbusReads samd21.UHD_STATE_DISCONNECTED)
     samd21 18 ⟨samd21.USB_STATE_ERROR, 7, 0⟩ ⟨(), []⟩
     (by decide) (by decide) (by decide) (by decide) (Or.inl rfl)).trans (by decide),
   (Task_Error_and_Illegal_follow_vbus_reading (hostVbusReads samd21.UHD_STATE_DISCONNECTED)
     samd21 18 ⟨samd21.USB_DETACHED_SUBSTATE_ILLEGAL, 7, 0⟩ ⟨(), []⟩
     (by decide) (by decide) (by decide) (by decide) (Or.inr rfl)).trans (by decide),
   (Task_Error_and_Illegal_follow_vbus_reading (hostVbusReads samd21.UHD_STATE_CONNECTED)
     samd21 18 ⟨samd21.USB_DETACHED_SUBSTATE_ILLEGAL, 7, 0⟩ ⟨(), []⟩
     (by decide) (by decide) (by decide) (by decide) (Or.inr rfl)).trans (by decide),
   (Task_Error_and_Illegal_follow_vbus_reading hostClockJumps
     samd21 18 ⟨samd21.USB_DETACHED_SUBSTATE_ILLEGAL, 7, 0⟩ ⟨0, []⟩
     (by decide) (by decide) (by decide) (by decide) (Or.inr rfl)).trans (by decide)⟩

/-- C16. A tick of `Task` that starts in `USB_STATE_CONFIGURING` with VBUS
reading connected calls `Configuring(0, 0, 0)` once the drivers have been
polled; with `r` its result: if `r` is 0 the state becomes
`USB_STATE_RUNNING`; if `r` is `USB_DEV_CONFIG_ERROR_DEVICE_INIT_INCOMPLETE`
state and error code stay as they are; for every other `r` the error code
becomes `r` and the state `USB_STATE_ERROR`.  The timer is never changed.
The cases are tested in this order, so the second one is about a non-zero
`USB_DEV_CONFIG_ERROR_DEVICE_INIT_INCOMPLETE`, as the headers have it. -/
theorem Task_Configuring_outcomes (H : Host W) (c : Defs) (sizeof_udd : Nat) (e : Engine)
    (s : Sys W) (r : Nat)
    (hlab : c.stateLabels.Nodup) (hvl : c.vbusLabels.Nodup)
    (hfam : c.USB_STATE_CONFIGURING &&& c.USB_STATE_MASK ≠ c.USB_STATE_DETACHED)
    (hst : e.usb_task_state = c.USB_STATE_CONFIGURING)
    (hv : (H.run .UHD_GetVBUSState s.world).1 = c.UHD_STATE_CONNECTED)
    (hr : (Configuring H c sizeof_udd 0 0 0
            (Task.forEach H Ext.Poll c.USB_NUMDEVICES 0 (H.call .UHD_GetVBUSState s).2)).1 = r) :
    (Task H c sizeof_udd e s).1
      = if r = 0 then { e with usb_task_state := c.USB_STATE_RUNNING }
        else if r = c.USB_DEV_CONFIG_ERROR_DEVICE_INIT_INCOMPLETE then e
        else { e with usb_error := r, usb_task_state := c.USB_STATE_ERROR } := by
  simp only [Defs.stateLabels, Defs.vbusLabels, List.nodup_cons, List.mem_cons,
    List.mem_singleton, not_or, List.not_mem_nil, not_false_eq_true, List.nodup_nil,
    and_true] at hlab hvl
  obtain ⟨⟨hED, hEC⟩, hDC⟩ := hvl
  obtain ⟨hI, hWt, hIl, hSe, hRe, hWr, hWs, hCo, hRu⟩ := hlab
  have h1 : (H.call .UHD_GetVBUSState s).1 = c.UHD_STATE_CONNECTED := hv
  have hvb : Task.vbus H c e s = (e, (H.call .UHD_GetVBUSState s).2) := by
    unfold Task.vbus
    simp [h1, hst, Ne.symm hEC, Ne.symm hDC, hfam]
  have hstage : (Task H c sizeof_udd e s).1
      = if r ≠ 0 then
          if r ≠ c.USB_DEV_CONFIG_ERROR_DEVICE_INIT_INCOMPLETE then
            { e with usb_error := r, usb_task_state := c.USB_STATE_ERROR }
          else e
        else { e with usb_task_state := c.USB_STATE_RUNNING } := by
    unfold Task
    rw [hvb]
    unfold Task.stage
    simp only [hst, Ne.symm hI.2.2.2.2.2.2.1, Ne.symm hWt.2.2.2.2.2.1, Ne.symm hIl.2.2.2.2.1,
      Ne.symm hSe.2.2.2.1, Ne.symm hRe.2.2.1, Ne.symm hWr.2.1, Ne.symm hWs.1, if_false,
      if_true, hr]
    split
    · split <;> rfl
    · rfl
  rw [hstage]
  by_cases h0 : r = 0
  · rw [if_neg (by simpa using h0), if_pos h0]
  · by_cases hi : r = c.USB_DEV_CONFIG_ERROR_DEVICE_INIT_INCOMPLETE
    · rw [if_pos h0, if_neg (by simpa using hi), if_neg h0, if_pos hi]
    · rw [if_pos h0, if_pos hi, if_neg h0, if_neg hi]

/-- The statement of `Task_Configuring_outcomes` in its three cases: a driver whose
`Init` answers 0 (the tick ends in `USB_STATE_RUNNING`), a driver whose `Init`
answers `USB_DEV_CONFIG_ERROR_DEVICE_INIT_INCOMPLETE` (state and error code
stay), and a pool without a slot for address 0, where `Configuring` returns
`USB_ERROR_ADDRESS_NOT_FOUND_IN_POOL` (the tick ends in `USB_STATE_ERROR` with
that error code). -/
theorem Task_Configuring_outcomes_witness :
    ((samd21.stateLabels.Nodup ∧ samd21.vbusLabels.Nodup ∧
      samd21.USB_STATE_CONFIGURING &&& samd21.USB_STATE_MASK ≠ samd21.USB_STATE_DETACHED ∧
      samd21.USB_DEV_CONFIG_ERROR_DEVICE_INIT_INCOMPLETE ≠ 0) ∧
     ((Configuring (hostInitAnswers 0) samd21 18 0 0 0
        (Task.forEach (hostInitAnswers 0) Ext.Poll samd21.USB_NUMDEVICES 0
          ((hostInitAnswers 0).call .UHD_GetVBUSState ⟨(), []⟩).2)).1 = 0 ∧
      (Configuring (hostInitAnswers samd21.USB_DEV_CONFIG_ERROR_DEVICE_INIT_INCOMPLETE)
        samd21 18 0 0 0
        (Task.forEach (hostInitAnswers samd21.USB_DEV_CONFIG_ERROR_DEVICE_INIT_INCOMPLETE)
          Ext.Poll samd21.USB_NUMDEVICES 0
          ((hostInitAnswers samd21.USB_DEV_CONFIG_ERROR_DEVICE_INIT_INCOMPLETE).call
            .UHD_GetVBUSState ⟨(), []⟩).2)).1
        = samd21.USB_DEV_CONFIG_ERROR_DEVICE_INIT_INCOMPLETE ∧
      (Configuring (hostVbusReads samd21.UHD_STATE_CONNECTED) samd21 18 0 0 0
        (Task.forEach (hostVbusReads samd21.UHD_STATE_CONNECTED) Ext.Poll
          samd21.USB_NUMDEVICES 0
          ((hostVbusReads samd21.UHD_STATE_CONNECTED).call .UHD_GetVBUSState ⟨(), []⟩).2)).1
        = samd21.USB_ERROR_ADDRESS_NOT_FOUND_IN_POOL)) ∧
    (Task (hostInitAnswers 0) samd21 18 ⟨samd21.USB_STATE_CONFIGURING, 7, 0⟩ ⟨(), []⟩).1
      = ⟨samd21.USB_STATE_RUNNING, 7, 0⟩ ∧
    (Task (hostInitAnswers samd21.USB_DEV_CONFIG_ERROR_DEVICE_INIT_INCOMPLETE) samd21 18
        ⟨samd21.USB_STATE_CONFIGURING, 7, 0⟩ ⟨(), []⟩).1
      = ⟨samd21.USB_STATE_CONFIGURING, 7, 0⟩ ∧
    (Task (hostVbusReads samd21.UHD_STATE_CONNECTED) samd21 18
        ⟨samd21.USB_STATE_CONFIGURING, 7, 0⟩ ⟨(), []⟩).1
      = ⟨samd21.USB_STATE_ERROR, samd21.USB_ERROR_ADDRESS_NOT_FOUND_IN_POOL, 0⟩ :=
  ⟨⟨⟨by decide, by decide, by decide, by decide⟩, by decide, by decide, by decide⟩,
   Task_Configuring_outcomes (hostInitAnswers 0) samd21 18
     ⟨samd21.USB_STATE_CONFIGURING, 7, 0⟩ ⟨(), []⟩ 0
     (by decide) (by decide) (by decide) rfl rfl (by decide),
   Task_Configuring_outcomes (hostInitAnswers samd21.USB_DEV_CONFIG_ERROR_DEVICE_INIT_INCOMPLETE)
     samd21 18 ⟨samd21.USB_STATE_CONFIGURING, 7, 0⟩ ⟨(), []⟩
     samd21.USB_DEV_CONFIG_ERROR_DEVICE_INIT_INCOMPLETE
     (by decide) (by decide) (by decide) rfl rfl (by decide),
   Task_Configuring_outcomes (hostVbusReads samd21.UHD_STATE_CONNECTED) samd21 18
     ⟨samd21.USB_STATE_CONFIGURING, 7, 0⟩ ⟨(), []⟩ samd21.USB_ERROR_ADDRESS_NOT_FOUND_IN_POOL
     (by decide) (by decide) (by decide) rfl rfl (by decide)⟩

end TaskProofs

end USBHost

namespace USBHost

/-! ## `AttemptConfig`: the retry budget -/

section RetryProofs

variable {W : Type}

theorem Sys.tallies_refl (s : Sys W) : s.tallies 0 0 0 s :=
  ⟨[], by simp, rfl, rfl, rfl⟩

theorem Sys.tallies_trans {a b d a2 b2 d2 : Nat} {s t u : Sys W}
    (h1 : s.tallies a b d t) (h2 : t.tallies a2 b2 d2 u) :
    s.tallies (a + a2) (b + b2) (d + d2) u := by
  obtain ⟨e1, ht, ha, hb, hd⟩ := h1
  obtain ⟨e2, hu, ha2, hb2, hd2⟩ := h2
  refine ⟨e1 ++ e2, by rw [hu, ht, List.append_assoc], ?_, ?_, ?_⟩
  · simp [countConfigureDevice, List.countP_append] at ha ha2 ⊢; omega
  · simp [countInit, List.countP_append] at hb hb2 ⊢; omega
  · simp [countRetryDelay, List.countP_append] at hd hd2 ⊢; omega

theorem Sys.tallies_ConfigureDevice (H : Host W) (driver parent port lowspeed : Nat)
    (s : Sys W) : s.tallies 1 0 0 (H.call (.ConfigureDevice driver parent port lowspeed) s).2 :=
  ⟨_, rfl, by simp [countConfigureDevice], by simp [countInit], by simp [countRetryDelay]⟩

theorem Sys.tallies_Init (H : Host W) (driver parent port lowspeed : Nat) (s : Sys W) :
    s.tallies 0 1 0 (H.call (.Init driver parent port lowspeed) s).2 :=
  ⟨_, rfl, by simp [countConfigureDevice], by simp [countInit], by simp [countRetryDelay]⟩

theorem Sys.tallies_retryDelay (H : Host W) (s : Sys W) :
    s.tallies 0 0 1 (H.call (.delay 100) s).2 :=
  ⟨_, rfl, by simp [countConfigureDevice], by simp [countInit], by simp [countRetryDelay]⟩

theorem AttemptConfig.reset_tallies (H : Host W) (parent port : Nat) (s : Sys W) :
    s.tallies 0 0 0 (AttemptConfig.reset H parent port s) := by
  unfold AttemptConfig.reset
  split
  · exact ⟨_, by rw [Host.call_trace, Host.call_trace, List.append_assoc],
      by simp [countConfigureDevice], by simp [countInit], by simp [countRetryDelay]⟩
  · exact ⟨_, rfl, by simp [countConfigureDevice], by simp [countInit],
      by simp [countRetryDelay]⟩

/-- The last part of `AttemptConfig` within a budget of `m` retries: as many calls
of `ConfigureDevice` as retries, at most `m` retries, and one call of `Init`
more than it has company of a `ConfigureDevice`. -/
theorem AttemptConfig.initStep_tallies (H : Host W) (driver parent port lowspeed m : Nat)
    (retry : Option (Sys W → Nat × Sys W))
    (hretry : ∀ k, retry = some k → ∃ n, m = n + 1 ∧
      ∀ s : Sys W, ∃ a b d, s.tallies a b d (k s).2 ∧ a = d + 1 ∧ d ≤ n ∧ b ≤ a)
    (s : Sys W) :
    ∃ a b d, s.tallies a b d (AttemptConfig.initStep H driver parent port lowspeed retry s).2 ∧
      a = d ∧ d ≤ m ∧ b ≤ a + 1 := by
  have hinit := Sys.tallies_Init H driver parent port lowspeed s
  unfold AttemptConfig.initStep
  cases retry with
  | none =>
    simp only []
    split
    · exact ⟨0 + 0, 1 + 0, 0 + 0,
        Sys.tallies_trans hinit (AttemptConfig.reset_tallies H parent port _),
        rfl, by omega, by omega⟩
    · exact ⟨0, 1, 0, hinit, rfl, by omega, by omega⟩
  | some k =>
    obtain ⟨n, hm, hk⟩ := hretry k rfl
    simp only []
    split
    · obtain ⟨a, b, d, h, ha, hd, hb⟩ := hk (H.call (.delay 100)
        (H.call (.Init driver parent port lowspeed) s).2).2
      exact ⟨0 + 0 + a, 1 + 0 + b, 0 + 1 + d,
        Sys.tallies_trans (Sys.tallies_trans hinit (Sys.tallies_retryDelay H _)) h,
        by omega, by omega, by omega⟩
    · exact ⟨0, 1, 0, hinit, rfl, by omega, by omega⟩

/-- The code at the label `again` within a budget of `m` retries: one call of
`ConfigureDevice` more than retries, at most `m` retries, and no more calls of
`Init` than of `ConfigureDevice`. -/
theorem AttemptConfig.body_tallies (H : Host W) (c : Defs)
    (driver parent port lowspeed m : Nat) (retry : Option (Sys W → Nat × Sys W))
    (hretry : ∀ k, retry = some k → ∃ n, m = n + 1 ∧
      ∀ s : Sys W, ∃ a b d, s.tallies a b d (k s).2 ∧ a = d + 1 ∧ d ≤ n ∧ b ≤ a)
    (s : Sys W) :
    ∃ a b d, s.tallies a b d (AttemptConfig.body H c driver parent port lowspeed retry s).2 ∧
      a = d + 1 ∧ d ≤ m ∧ b ≤ a := by
  have hcd := Sys.tallies_ConfigureDevice H driver parent port lowspeed s
  have hinit : ∀ t : Sys W, (H.call (.ConfigureDevice driver parent port lowspeed) s).2.tallies
      0 0 0 t →
      ∃ a b d, s.tallies a b d
          (AttemptConfig.initStep H driver parent port lowspeed retry t).2 ∧
        a = d + 1 ∧ d ≤ m ∧ b ≤ a := by
    intro t ht
    obtain ⟨a, b, d, h, ha, hd, hb⟩ :=
      AttemptConfig.initStep_tallies H driver parent port lowspeed m retry hretry t
    exact ⟨1 + 0 + a, 0 + 0 + b, 0 + 0 + d, Sys.tallies_trans (Sys.tallies_trans hcd ht) h,
      by omega, by omega, by omega⟩
  unfold AttemptConfig.body
  simp only []
  split
  · exact hinit _ (AttemptConfig.reset_tallies H parent port _)
  · cases retry with
    | none =>
      simp only []
      split
      · exact ⟨1, 0, 0, hcd, rfl, by omega, by omega⟩
      · exact hinit _ (Sys.tallies_refl _)
    | some k =>
      simp only []
      split
      · obtain ⟨n, hm, hk⟩ := hretry k rfl
        obtain ⟨a, b, d, h, ha, hd, hb⟩ := hk (H.call (.delay 100)
          (H.call (.ConfigureDevice driver parent port lowspeed) s).2).2
        exact ⟨1 + 0 + a, 0 + 0 + b, 0 + 1 + d,
          Sys.tallies_trans (Sys.tallies_trans hcd (Sys.tallies_retryDelay H _)) h,
          by omega, by omega, by omega⟩
      · exact hinit _ (Sys.tallies_refl _)

/-- From the label `again` with `left` retries still allowed. -/
theorem AttemptConfig.again_tallies (H : Host W) (c : Defs)
    (driver parent port lowspeed : Nat) :
    ∀ (left : Nat) (s : Sys W),
      ∃ a b d, s.tallies a b d (AttemptConfig.again H c driver parent port lowspeed left s).2 ∧
        a = d + 1 ∧ d ≤ left ∧ b ≤ a := by
  intro left
  induction left with
  | zero =>
    intro s
    exact AttemptConfig.body_tallies H c driver parent port lowspeed 0 none
      (fun k hk => by cases hk) s
  | succ n ih =>
    intro s
    exact AttemptConfig.body_tallies H c driver parent port lowspeed (n + 1) _
      (fun k hk => by cases hk; exact ⟨n, rfl, ih⟩) s

/-- C18. Whatever the driver answers, `AttemptConfig` returns, and the stretch of
trace it adds holds at most 3 retries (`delay(100); retries++`), one call of
`ConfigureDevice` more than retries, hence at most 4, and no more calls of
`Init` than of `ConfigureDevice`, hence at most 4: a retry after a failed
`ConfigureDevice` and a retry after a failed `Init` draw on the same budget. -/
theorem AttemptConfig_retries_at_most_three (H : Host W) (c : Defs)
    (driver parent port lowspeed : Nat) (s : Sys W) :
    ∃ ext, (AttemptConfig H c driver parent port lowspeed s).2.trace = s.trace ++ ext ∧
      countRetryDelay ext ≤ 3 ∧
      countConfigureDevice ext = countRetryDelay ext + 1 ∧
      countConfigureDevice ext ≤ 4 ∧
      countInit ext ≤ countConfigureDevice ext ∧
      countInit ext ≤ 4 := by
  obtain ⟨a, b, d, ⟨ext, htr, ha, hb, hd⟩, hab, hd3, hba⟩ :=
    AttemptConfig.again_tallies H c driver parent port lowspeed 3
      (s.mark (.AttemptConfig driver parent port lowspeed))
  refine ⟨Event.AttemptConfig driver parent port lowspeed :: ext, ?_, ?_, ?_, ?_, ?_, ?_⟩
  · rw [AttemptConfig, htr]; simp [Sys.mark]
  all_goals
    simp only [countRetryDelay, countConfigureDevice, countInit, List.countP_cons] at *
    simp only [Bool.false_eq_true, if_false, Nat.add_zero]
    omega

end RetryProofs

end USBHost

namespace USBHost

/-! ## `Configuring`: the fall back to `DefaultAddressing` -/

section FallbackProofs

variable {W : Type}

theorem Sys.extendsWith_mark (P : Event → Bool) (ev : Event) (s : Sys W) (h : P ev = true) :
    s.extendsWith P (s.mark ev) :=
  ⟨[ev], rfl, by simpa using h⟩

theorem Event.notDefaultAddressing_of_isCall (ev : Event) (h : ev.isCall = true) :
    ev.notDefaultAddressing = true := by
  cases ev <;> simp_all [Event.isCall, Event.notDefaultAddressing, Event.isDefaultAddressing]

theorem Sys.extendsWith_countDefaultAddressing {s t : Sys W}
    (h : s.extendsWith Event.notDefaultAddressing t) :
    countDefaultAddressing t.trace = countDefaultAddressing s.trace := by
  obtain ⟨ext, ht, hc⟩ := h
  have h0 : List.countP Event.isDefaultAddressing ext = 0 := by
    rw [List.countP_eq_zero]
    intro ev hev
    have := hc ev hev
    simpa [Event.notDefaultAddressing] using this
  rw [ht, countDefaultAddressing, List.countP_append, h0]
  rfl

/-- `AttemptConfig` does not enter `DefaultAddressing`. -/
theorem AttemptConfig_extends (H : Host W) (c : Defs) (driver parent port lowspeed : Nat)
    (s : Sys W) :
    s.extendsWith Event.notDefaultAddressing
      (AttemptConfig H c driver parent port lowspeed s).2 := by
  unfold AttemptConfig
  exact Sys.extendsWith_trans
    (Sys.extendsWith_mark _ (.AttemptConfig driver parent port lowspeed) s rfl)
    (Sys.extendsWith_mono
      (fun ev h => Event.notDefaultAddressing_of_isCall ev
        (AttemptConfig.resetOk_isCall parent port ev h))
      (AttemptConfig.again_extends H c driver parent port lowspeed 3 _))

/-- `DefaultAddressing` puts its mark and then makes calls only. -/
theorem DefaultAddressing_extends (H : Host W) (c : Defs) (parent port lowspeed : Nat)
    (s : Sys W) :
    (s.mark (.DefaultAddressing parent port lowspeed)).extendsWith Event.isCall
      (DefaultAddressing H c parent port lowspeed s).2 := by
  have hc : ∀ (e : Ext) (t : Sys W), t.extendsWith Event.isCall (H.call e t).2 :=
    fun e t => Sys.extendsWith_call _ H e t rfl
  unfold DefaultAddressing setAddr
  simp only []
  split_ifs <;>
    repeat (first
      | exact hc _ _
      | refine Sys.extendsWith_trans ?_ (hc _ _))

/-- `DefaultAddressing` is entered once by a call of it. -/
theorem DefaultAddressing_counted_once (H : Host W) (c : Defs) (parent port lowspeed : Nat)
    (s : Sys W) :
    countDefaultAddressing (DefaultAddressing H c parent port lowspeed s).2.trace
      = countDefaultAddressing s.trace + 1 := by
  rw [Sys.extendsWith_countDefaultAddressing (Sys.extendsWith_mono
    Event.notDefaultAddressing_of_isCall (DefaultAddressing_extends H c parent port lowspeed s))]
  simp [Sys.mark, countDefaultAddressing, List.countP_append, Event.isDefaultAddressing]

/-- The first loop of `Configuring` either visits every slot, or leaves by `break`
right after an `AttemptConfig` whose result was not
`USB_DEV_CONFIG_ERROR_DEVICE_NOT_SUPPORTED`; it does not enter
`DefaultAddressing`. -/
theorem Configuring.pass1_shape (H : Host W) (c : Defs)
    (vid pid klass parent port lowspeed : Nat) :
    ∀ (left i rcode : Nat) (s : Sys W),
      s.extendsWith Event.notDefaultAddressing
        (Configuring.pass1 H c vid pid klass parent port lowspeed left i rcode s).2.2 ∧
      ((Configuring.pass1 H c vid pid klass parent port lowspeed left i rcode s).1 = i + left ∨
        ∃ d r, r ≠ c.USB_DEV_CONFIG_ERROR_DEVICE_NOT_SUPPORTED ∧
          Event.attempted 1 d r ∈
            (Configuring.pass1 H c vid pid klass parent port lowspeed left i rcode s).2.2.trace ∧
          (Configuring.pass1 H c vid pid klass parent port lowspeed left i rcode s).2.1 = r) := by
  intro left
  induction left with
  | zero => intro i rcode s; exact ⟨Sys.extendsWith_refl _ _, Or.inl rfl⟩
  | succ n ih =>
    intro i rcode s
    have next : ∀ (rc : Nat) (t : Sys W), s.extendsWith Event.notDefaultAddressing t →
        s.extendsWith Event.notDefaultAddressing
          (Configuring.pass1 H c vid pid klass parent port lowspeed n (i + 1) rc t).2.2 ∧
        ((Configuring.pass1 H c vid pid klass parent port lowspeed n (i + 1) rc t).1
            = i + (n + 1) ∨
          ∃ d r, r ≠ c.USB_DEV_CONFIG_ERROR_DEVICE_NOT_SUPPORTED ∧
            Event.attempted 1 d r ∈
              (Configuring.pass1 H c vid pid klass parent port lowspeed n (i + 1) rc t).2.2.trace ∧
            (Configuring.pass1 H c vid pid klass parent port lowspeed n (i + 1) rc t).2.1 = r) := by
      intro rc t ht
      obtain ⟨h1, h2⟩ := ih (i + 1) rc t
      refine ⟨Sys.extendsWith_trans ht h1, ?_⟩
      rcases h2 with h2 | h2
      · left; rw [h2]; omega
      · right; exact h2
    have hga : s.extendsWith Event.notDefaultAddressing (H.call (.GetAddress i) s).2 :=
      Sys.extendsWith_call _ H _ s rfl
    have hm : s.extendsWith Event.notDefaultAddressing
        (Configuring.matches H i vid pid klass (H.call (.GetAddress i) s).2).2 :=
      Sys.extendsWith_trans hga (Sys.extendsWith_mono Event.notDefaultAddressing_of_isCall
        (Configuring.matches_extends H i vid pid klass _))
    rw [Configuring.pass1]
    simp only []
    split
    · exact next rcode s (Sys.extendsWith_refl _ _)
    · split
      · exact next rcode _ hga
      · split
        · have ht := Sys.extendsWith_trans hm (Sys.extendsWith_trans
            (AttemptConfig_extends H c i parent port lowspeed _)
            (Sys.extendsWith_mark Event.notDefaultAddressing
              (.attempted 1 i (AttemptConfig H c i parent port lowspeed
                (Configuring.matches H i vid pid klass (H.call (.GetAddress i) s).2).2).1)
              _ rfl))
          split
          · rename_i hne
            exact ⟨ht, Or.inr ⟨i, _, hne, by simp [Sys.mark], rfl⟩⟩
          · exact next _ _ ht
        · exact next rcode _ hm

/-- The second loop of `Configuring` either runs to its end, or returns right
after an `AttemptConfig` whose result was neither
`USB_DEV_CONFIG_ERROR_DEVICE_NOT_SUPPORTED` nor
`USB_ERROR_CLASS_INSTANCE_ALREADY_IN_USE`; it does not enter
`DefaultAddressing`. -/
theorem Configuring.pass2_shape (H : Host W) (c : Defs)
    (vid pid klass parent port lowspeed : Nat) :
    ∀ (left i : Nat) (s : Sys W),
      s.extendsWith Event.notDefaultAddressing
        (Configuring.pass2 H c vid pid klass parent port lowspeed left i s).2 ∧
      ((Configuring.pass2 H c vid pid klass parent port lowspeed left i s).1 = none ∨
        ∃ d r, ¬ (r = c.USB_DEV_CONFIG_ERROR_DEVICE_NOT_SUPPORTED ∨
                  r = c.USB_ERROR_CLASS_INSTANCE_ALREADY_IN_USE) ∧
          Event.attempted 2 d r ∈
            (Configuring.pass2 H c vid pid klass parent port lowspeed left i s).2.trace) := by
  intro left
  induction left with
  | zero => intro i s; exact ⟨Sys.extendsWith_refl _ _, Or.inl rfl⟩
  | succ n ih =>
    intro i s
    have next : ∀ (t : Sys W), s.extendsWith Event.notDefaultAddressing t →
        s.extendsWith Event.notDefaultAddressing
          (Configuring.pass2 H c vid pid klass parent port lowspeed n (i + 1) t).2 ∧
        ((Configuring.pass2 H c vid pid klass parent port lowspeed n (i + 1) t).1 = none ∨
          ∃ d r, ¬ (r = c.USB_DEV_CONFIG_ERROR_DEVICE_NOT_SUPPORTED ∨
                    r = c.USB_ERROR_CLASS_INSTANCE_ALREADY_IN_USE) ∧
            Event.attempted 2 d r ∈
              (Configuring.pass2 H c vid pid klass parent port lowspeed n (i + 1) t).2.trace) := by
      intro t ht
      obtain ⟨h1, h2⟩ := ih (i + 1) t
      exact ⟨Sys.extendsWith_trans ht h1, h2⟩
    have hga : s.extendsWith Event.notDefaultAddressing (H.call (.GetAddress i) s).2 :=
      Sys.extendsWith_call _ H _ s rfl
    have hm : s.extendsWith Event.notDefaultAddressing
        (Configuring.matches H i vid pid klass (H.call (.GetAddress i) s).2).2 :=
      Sys.extendsWith_trans hga (Sys.extendsWith_mono Event.notDefaultAddressing_of_isCall
        (Configuring.matches_extends H i vid pid klass _))
    rw [Configuring.pass2]
    simp only []
    split
    · exact next s (Sys.extendsWith_refl _ _)
    · split
      · exact next _ hga
      · split
        · exact next _ hm
        · have ht := Sys.extendsWith_trans hm (Sys.extendsWith_trans
            (AttemptConfig_extends H c i parent port lowspeed _)
            (Sys.extendsWith_mark Event.notDefaultAddressing
              (.attempted 2 i (AttemptConfig H c i parent port lowspeed
                (Configuring.matches H i vid pid klass (H.call (.GetAddress i) s).2).2).1)
              _ rfl))
          split
          · rename_i hne
            exact ⟨ht, Or.inr ⟨i, _, hne, by simp [Sys.mark]⟩⟩
          · exact next _ ht

theorem Sys.extendsWith_mem {P : Event → Bool} {s t : Sys W} (h : s.extendsWith P t)
    {ev : Event} (hev : ev ∈ s.trace) : ev ∈ t.trace := by
  obtain ⟨ext, ht, _⟩ := h
  rw [ht]
  exact List.mem_append_left _ hev

/-- The scan of the driver table in `Configuring`: unless the first loop met a
result other than "not supported" or the second one a result other than "not
supported" and "instance in use", the function ends in `DefaultAddressing`,
entered from a state reached without entering it before. -/
theorem Configuring.dispatch_shape (H : Host W) (c : Defs) (parent port lowspeed : Nat)
    (s : Sys W) :
    (∃ d r, r ≠ c.USB_DEV_CONFIG_ERROR_DEVICE_NOT_SUPPORTED ∧
      Event.attempted 1 d r ∈ (Configuring.dispatch H c parent port lowspeed s).2.trace) ∨
    (∃ d r, ¬ (r = c.USB_DEV_CONFIG_ERROR_DEVICE_NOT_SUPPORTED ∨
               r = c.USB_ERROR_CLASS_INSTANCE_ALREADY_IN_USE) ∧
      Event.attempted 2 d r ∈ (Configuring.dispatch H c parent port lowspeed s).2.trace) ∨
    (∃ t, s.extendsWith Event.notDefaultAddressing t ∧
      Configuring.dispatch H c parent port lowspeed s
        = DefaultAddressing H c parent port lowspeed t) := by
  have hfield : s.extendsWith Event.notDefaultAddressing
      (H.call .udd_bDeviceClass (H.call .udd_idProduct (H.call .udd_idVendor s).2).2).2 :=
    Sys.extendsWith_trans (Sys.extendsWith_call _ H _ _ rfl)
      (Sys.extendsWith_trans (Sys.extendsWith_call _ H _ _ rfl)
        (Sys.extendsWith_call _ H _ _ rfl))
  obtain ⟨h1e, h1⟩ := Configuring.pass1_shape H c (H.call .udd_idVendor s).1
    (H.call .udd_idProduct (H.call .udd_idVendor s).2).1
    (H.call .udd_bDeviceClass (H.call .udd_idProduct (H.call .udd_idVendor s).2).2).1
    parent port lowspeed c.USB_NUMDEVICES 0 0
    (H.call .udd_bDeviceClass (H.call .udd_idProduct (H.call .udd_idVendor s).2).2).2
  obtain ⟨h2e, h2⟩ := Configuring.pass2_shape H c (H.call .udd_idVendor s).1
    (H.call .udd_idProduct (H.call .udd_idVendor s).2).1
    (H.call .udd_bDeviceClass (H.call .udd_idProduct (H.call .udd_idVendor s).2).2).1
    parent port lowspeed c.USB_NUMDEVICES 0
    (Configuring.pass1 H c (H.call .udd_idVendor s).1
      (H.call .udd_idProduct (H.call .udd_idVendor s).2).1
      (H.call .udd_bDeviceClass (H.call .udd_idProduct (H.call .udd_idVendor s).2).2).1
      parent port lowspeed c.USB_NUMDEVICES 0 0
      (H.call .udd_bDeviceClass (H.call .udd_idProduct (H.call .udd_idVendor s).2).2).2).2.2
  unfold Configuring.dispatch
  simp only []
  split
  · rename_i hlt
    rcases h1 with h1 | ⟨d, r, hr, hmem, _⟩
    · omega
    · exact Or.inl ⟨d, r, hr, hmem⟩
  · split
    · rename_i rcode hsome
      rcases h2 with h2 | ⟨d, r, hr, hmem⟩
      · rw [h2] at hsome; cases hsome
      · exact Or.inr (Or.inl ⟨d, r, hr, hmem⟩)
    · exact Or.inr (Or.inr ⟨_, Sys.extendsWith_trans hfield (Sys.extendsWith_trans h1e h2e),
        rfl⟩)

/-- When `Configuring` gets as far as the driver table (the pool has a slot
for address 0 and the device descriptor request succeeds), every
`AttemptConfig` of its first loop returns "device not supported" and every
`AttemptConfig` of its second loop returns "device not supported" or
"class instance already in use" (no attempt at all included), then `Configuring`
calls `DefaultAddressing(parent, port, lowspeed)`, once, and returns what that
call returns. -/
theorem Configuring_falls_back_when_all_decline (H : Host W) (c : Defs)
    (sizeof_udd parent port lowspeed : Nat) (s : Sys W)
    (hp : (H.run (.GetUsbDevicePtr 0) s.world).1 ≠ 0)
    (hdesc : ∀ ev ∈ (Configuring H c sizeof_udd parent port lowspeed s).2.trace,
      ev.descriptorRead = true)
    (hdecl : ∀ ev ∈ (Configuring H c sizeof_udd parent port lowspeed s).2.trace,
      ev.declined c = true) :
    ∃ t, Configuring H c sizeof_udd parent port lowspeed s
        = DefaultAddressing H c parent port lowspeed t ∧
      countDefaultAddressing (Configuring H c sizeof_udd parent port lowspeed s).2.trace
        = countDefaultAddressing s.trace + 1 := by
  have hd : ∀ a e n r, Event.call (.ctrlReq_GET_DESCRIPTOR_DEVICE a e n) r
      ∈ (Configuring H c sizeof_udd parent port lowspeed s).2.trace → r = 0 := by
    intro a e n r h
    simpa [Event.descriptorRead] using hdesc _ h
  have h1 : ∀ d r, Event.attempted 1 d r
      ∈ (Configuring H c sizeof_udd parent port lowspeed s).2.trace →
      r = c.USB_DEV_CONFIG_ERROR_DEVICE_NOT_SUPPORTED := by
    intro d r h
    simpa [Event.declined] using hdecl _ h
  have h2 : ∀ d r, Event.attempted 2 d r
      ∈ (Configuring H c sizeof_udd parent port lowspeed s).2.trace →
      r = c.USB_DEV_CONFIG_ERROR_DEVICE_NOT_SUPPORTED ∨
        r = c.USB_ERROR_CLASS_INSTANCE_ALREADY_IN_USE := by
    intro d r h
    simpa [Event.declined] using hdecl _ h
  have hp1 : ¬ (H.call (.GetUsbDevicePtr 0) s).1 = 0 := hp
  have hc : ∀ (e : Ext) (t : Sys W), t.extendsWith Event.notDefaultAddressing (H.call e t).2 :=
    fun e t => Sys.extendsWith_call _ H e t rfl
  -- the state in which the table scan starts
  have hpre : s.extendsWith Event.notDefaultAddressing
      (H.call (.set_epinfo 0 (.saved (H.call (.get_epinfo 0) (H.call (.GetUsbDevicePtr 0) s).2).1))
        (H.call (.ctrlReq_GET_DESCRIPTOR_DEVICE 0 0 sizeof_udd)
          (H.call (.set_lowspeed 0 lowspeed)
            (H.call (.set_epinfo 0 .local_epInfo)
              (H.call (.get_epinfo 0) (H.call (.GetUsbDevicePtr 0) s).2).2).2).2).2).2 := by
    repeat (first
      | exact hc _ _
      | refine Sys.extendsWith_trans ?_ (hc _ _))
  have hcfg : Configuring H c sizeof_udd parent port lowspeed s
      = if (H.call (.ctrlReq_GET_DESCRIPTOR_DEVICE 0 0 sizeof_udd)
          (H.call (.set_lowspeed 0 lowspeed)
            (H.call (.set_epinfo 0 .local_epInfo)
              (H.call (.get_epinfo 0) (H.call (.GetUsbDevicePtr 0) s).2).2).2).2).1 ≠ 0 then
          ((H.call (.ctrlReq_GET_DESCRIPTOR_DEVICE 0 0 sizeof_udd)
            (H.call (.set_lowspeed 0 lowspeed)
              (H.call (.set_epinfo 0 .local_epInfo)
                (H.call (.get_epinfo 0) (H.call (.GetUsbDevicePtr 0) s).2).2).2).2).1,
           (H.call (.set_epinfo 0
              (.saved (H.call (.get_epinfo 0) (H.call (.GetUsbDevicePtr 0) s).2).1))
            (H.call (.ctrlReq_GET_DESCRIPTOR_DEVICE 0 0 sizeof_udd)
              (H.call (.set_lowspeed 0 lowspeed)
                (H.call (.set_epinfo 0 .local_epInfo)
                  (H.call (.get_epinfo 0) (H.call (.GetUsbDevicePtr 0) s).2).2).2).2).2).2)
        else Configuring.dispatch H c parent port lowspeed
          (H.call (.set_epinfo 0
              (.saved (H.call (.get_epinfo 0) (H.call (.GetUsbDevicePtr 0) s).2).1))
            (H.call (.ctrlReq_GET_DESCRIPTOR_DEVICE 0 0 sizeof_udd)
              (H.call (.set_lowspeed 0 lowspeed)
                (H.call (.set_epinfo 0 .local_epInfo)
                  (H.call (.get_epinfo 0) (H.call (.GetUsbDevicePtr 0) s).2).2).2).2).2).2 := by
    unfold Configuring
    simp only [hp1, if_false]
  by_cases hrc : (H.call (.ctrlReq_GET_DESCRIPTOR_DEVICE 0 0 sizeof_udd)
          (H.call (.set_lowspeed 0 lowspeed)
            (H.call (.set_epinfo 0 .local_epInfo)
              (H.call (.get_epinfo 0) (H.call (.GetUsbDevicePtr 0) s).2).2).2).2).1 ≠ 0
  · exfalso
    apply hrc
    apply hd 0 0 sizeof_udd
    rw [hcfg, if_pos hrc]
    simp only []
    rw [Host.call_trace, Host.call_trace]
    exact List.mem_append_left _ (List.mem_append_right _ (List.mem_singleton.mpr rfl))
  · rw [if_neg hrc] at hcfg
    rw [hcfg] at h1 h2 ⊢
    rcases Configuring.dispatch_shape H c parent port lowspeed _ with
      ⟨d, r, hr, hmem⟩ | ⟨d, r, hr, hmem⟩ | ⟨t, ht, heq⟩
    · exact absurd (h1 d r hmem) hr
    · exact absurd (h2 d r hmem) hr
    · refine ⟨t, heq, ?_⟩
      rw [heq, DefaultAddressing_counted_once,
        Sys.extendsWith_countDefaultAddressing (Sys.extendsWith_trans hpre ht)]

end FallbackProofs

end USBHost

namespace HIDBoot

open USBHost

/-- What the rule of the pool excludes.  With a pool that hands out address 1
and then answers null to `GetUsbDevicePtr(1)`, against its rule, both
`DefaultAddressing` and `HIDBoot::Init` take the return
`USB_ERROR_ADDRESS_NOT_FOUND_IN_POOL` that follows the allocation: the last
call made is the failed lookup, no `FreeAddress` has been called, address 1
stays allocated, and the driver still holds `bAddress = 1`. -/
theorem enumeration_keeps_address_that_pool_cannot_find :
    (DefaultAddressing hostLostAddress samd21 0 0 0 ⟨(), []⟩).1
        = samd21.USB_ERROR_ADDRESS_NOT_FOUND_IN_POOL ∧
      samd21.USB_ERROR_ADDRESS_NOT_FOUND_IN_POOL ≠ 0 ∧
      (DefaultAddressing hostLostAddress samd21 0 0 0 ⟨(), []⟩).2.trace
        = [.DefaultAddressing 0 0 0, .call (.GetUsbDevicePtr 0) 1, .call (.get_epinfo 0) 1,
           .call (.set_lowspeed 0 0) 0, .call (.AllocAddress 0 0 0) 1,
           .call (.GetUsbDevicePtr 1) 0] ∧
      leaks (DefaultAddressing hostLostAddress samd21 0 0 0 ⟨(), []⟩).2.trace = [1] ∧
      (Init hostLostAddress (fun _ _ _ => []) samd21 hidDefs 1 18 0 0 0 fresh ⟨(), []⟩).1
        = samd21.USB_ERROR_ADDRESS_NOT_FOUND_IN_POOL ∧
      (Init hostLostAddress (fun _ _ _ => []) samd21 hidDefs 1 18 0 0 0 fresh ⟨(), []⟩).2.1.bAddress
        = 1 ∧
      calls (Init hostLostAddress (fun _ _ _ => []) samd21 hidDefs 1 18 0 0 0 fresh ⟨(), []⟩).2.2.trace
        = [.GetUsbDevicePtr 0, .get_epinfo 0, .set_epinfo 0 .driver_epInfo, .set_lowspeed 0 0,
           .ctrlReq_GET_DESCRIPTOR_DEVICE 0 0 18, .udd_bLength, .set_epinfo 0 (.saved 1),
           .AllocAddress 0 0 0, .udd_bMaxPacketSize0, .ctrlReq_SET_ADDRESS 0 0 1, .delay 300,
           .get_epinfo 0, .set_epinfo 0 .driver_epInfo, .ctrlReq_GET_DESCRIPTOR_DEVICE 1 0 18,
           .set_epinfo 0 (.saved 1), .set_lowspeed 0 0, .GetUsbDevicePtr 1] ∧
      leaks (Init hostLostAddress (fun _ _ _ => []) samd21 hidDefs 1 18 0 0 0 fresh ⟨(), []⟩).2.2.trace
        = [1] ∧
      poolFindsAllocated [] (DefaultAddressing hostLostAddress samd21 0 0 0 ⟨(), []⟩).2.trace
        = false ∧
      poolFindsAllocated []
        (Init hostLostAddress (fun _ _ _ => []) samd21 hidDefs 1 18 0 0 0 fresh
          ⟨(), []⟩).2.2.trace = false := by
  decide

end HIDBoot

namespace USBHost

/-- C11 (the code differs): `OutTransfer` of 16 bytes on an endpoint with
`maxPktSize = 8`, both dispatches succeeding, returns 0 after two calls of
`UHD_Pipe_Write` with 8 bytes each, and both calls carry bytes 0..7 of the
data: the second chunk is `data[0..8)` again, not `data[8..16)`, so the chunks
written are not the consecutive slices of the data. -/
theorem OutTransfer_second_chunk_repeats_first :
    (OutTransfer samd21 ⟨1, 8, 0, 0, 0⟩ 0 16 (List.range 16) 0 17
        [OutReply.ack samd21, OutReply.ack samd21]).map
      (fun x => (x.rcode, x.writes.map PipeWrite.bytes))
      = some (0, [[0, 1, 2, 3, 4, 5, 6, 7], [0, 1, 2, 3, 4, 5, 6, 7]]) ∧
    chunks 8 16 ((List.range 16).take 16)
      = [[0, 1, 2, 3, 4, 5, 6, 7], [8, 9, 10, 11, 12, 13, 14, 15]] ∧
    (OutTransfer samd21 ⟨1, 8, 0, 0, 0⟩ 0 16 (List.range 16) 0 17
        [OutReply.ack samd21, OutReply.ack samd21]).map
      (fun x => x.writes.map PipeWrite.bytes)
      ≠ some (chunks 8 16 ((List.range 16).take 16)) := by
  decide

end USBHost

namespace USBHost

/-- C14: for an endpoint record found by `SetPipeAddress` with NAK power `p`, the
NAK limit is `2 ^ min p USB_NAK_MAX_POWER - 1`; it is 0 exactly when `p = 0`
and it never exceeds `2 ^ USB_NAK_MAX_POWER - 1`.  `USB_NAK_MAX_POWER` is
taken to be at least 1 and below 32, the width of the shifted constant. -/
theorem SetPipeAddress_nak_limit (c : Defs) (pool : AddressPool) (addr ep n0 : Nat)
    (pep : EpInfo) (hpos : 0 < c.USB_NAK_MAX_POWER) (hmax : c.USB_NAK_MAX_POWER < 32)
    (hfound : (SetPipeAddress c pool addr ep n0).pep = some pep) :
    (SetPipeAddress c pool addr ep n0).rcode = 0 ∧
      (SetPipeAddress c pool addr ep n0).nak_limit
        = 2 ^ min pep.bmNakPower c.USB_NAK_MAX_POWER - 1 ∧
      ((SetPipeAddress c pool addr ep n0).nak_limit = 0 ↔ pep.bmNakPower = 0) ∧
      (SetPipeAddress c pool addr ep n0).nak_limit ≤ 2 ^ c.USB_NAK_MAX_POWER - 1 := by
  unfold SetPipeAddress at hfound ⊢
  cases hp : pool.GetUsbDevicePtr addr with
  | none => simp [hp] at hfound
  | some slot =>
    simp only [hp] at hfound ⊢
    by_cases he : slot.epinfo = none
    · simp [he] at hfound
    · rw [if_neg he] at hfound ⊢
      cases hg : getEpInfoEntry pool addr ep with
      | none => simp [hg] at hfound
      | some q =>
        simp only [hg, Option.some.injEq] at hfound ⊢
        subst hfound
        have hk : (if q.bmNakPower > c.USB_NAK_MAX_POWER then c.USB_NAK_MAX_POWER
            else q.bmNakPower) = min q.bmNakPower c.USB_NAK_MAX_POWER := by
          split
          · rw [Nat.min_eq_right (by omega)]
          · rw [Nat.min_eq_left (by omega)]
        rw [hk]
        have hle : min q.bmNakPower c.USB_NAK_MAX_POWER ≤ c.USB_NAK_MAX_POWER :=
          Nat.min_le_right _ _
        have hlt : 2 ^ min q.bmNakPower c.USB_NAK_MAX_POWER < 2 ^ 32 :=
          Nat.pow_lt_pow_right (by norm_num) (by omega)
        have hmono : 2 ^ min q.bmNakPower c.USB_NAK_MAX_POWER ≤ 2 ^ c.USB_NAK_MAX_POWER :=
          Nat.pow_le_pow_right (by norm_num) hle
        have hone : 1 ≤ 2 ^ min q.bmNakPower c.USB_NAK_MAX_POWER := Nat.one_le_two_pow
        have hval : u32 (u32 (0x0001 <<< min q.bmNakPower c.USB_NAK_MAX_POWER) + (2 ^ 32 - 1))
            = 2 ^ min q.bmNakPower c.USB_NAK_MAX_POWER - 1 := by
          rw [Nat.one_shiftLeft]
          unfold u32
          rw [Nat.mod_eq_of_lt hlt]
          have : 2 ^ min q.bmNakPower c.USB_NAK_MAX_POWER + (2 ^ 32 - 1)
              = (2 ^ min q.bmNakPower c.USB_NAK_MAX_POWER - 1) + 2 ^ 32 := by omega
          rw [this, Nat.add_mod_right, Nat.mod_eq_of_lt (by omega)]
        rw [hval]
        refine ⟨trivial, rfl, ?_, by omega⟩
        constructor
        · intro h0
          by_contra hne
          have h1 : 1 ≤ min q.bmNakPower c.USB_NAK_MAX_POWER := by
            rw [Nat.le_min]
            omega
          have : 2 ^ 1 ≤ 2 ^ min q.bmNakPower c.USB_NAK_MAX_POWER :=
            Nat.pow_le_pow_right (by norm_num) h1
          omega
        · intro h0
          rw [h0]
          simp

/-- The statement of `SetPipeAddress_nak_limit` at the interrupt endpoint 1 of
the device at address 1 of `poolOneDevice`, whose NAK power is 1: the limit is 1. -/
theorem SetPipeAddress_nak_limit_witness :
    (0 < samd21.USB_NAK_MAX_POWER ∧ samd21.USB_NAK_MAX_POWER < 32 ∧
      (SetPipeAddress samd21 poolOneDevice 1 1 0).pep = some ⟨1, 8, 0, 0, 1⟩) ∧
    ((SetPipeAddress samd21 poolOneDevice 1 1 0).rcode = 0 ∧
      (SetPipeAddress samd21 poolOneDevice 1 1 0).nak_limit
        = 2 ^ min (1 : Nat) samd21.USB_NAK_MAX_POWER - 1 ∧
      ((SetPipeAddress samd21 poolOneDevice 1 1 0).nak_limit = 0 ↔ (1 : Nat) = 0) ∧
      (SetPipeAddress samd21 poolOneDevice 1 1 0).nak_limit
        ≤ 2 ^ samd21.USB_NAK_MAX_POWER - 1) :=
  ⟨⟨by decide, by decide, by decide⟩,
   SetPipeAddress_nak_limit samd21 poolOneDevice 1 1 0 ⟨1, 8, 0, 0, 1⟩
     (by decide) (by decide) (by decide)⟩

end USBHost

namespace USBHost

/-- With an address or endpoint that `SetPipeAddress` does not resolve, it
returns the resource error of the first test that fails and does nothing to
the controller. -/
theorem SetPipeAddress_unresolved (c : Defs) (pool : AddressPool) (addr ep n0 code : Nat)
    (hcase :
      (pool.GetUsbDevicePtr addr = none ∧ code = c.USB_ERROR_ADDRESS_NOT_FOUND_IN_POOL) ∨
      (∃ slot, pool.GetUsbDevicePtr addr = some slot ∧ slot.epinfo = none ∧
        code = c.USB_ERROR_EPINFO_IS_NULL) ∨
      (∃ slot, pool.GetUsbDevicePtr addr = some slot ∧ slot.epinfo ≠ none ∧
        getEpInfoEntry pool addr ep = none ∧ code = c.USB_ERROR_EP_NOT_FOUND_IN_TBL)) :
    SetPipeAddress c pool addr ep n0 = ⟨code, none, n0, []⟩ := by
  unfold SetPipeAddress
  rcases hcase with ⟨hp, hc⟩ | ⟨slot, hp, he, hc⟩ | ⟨slot, hp, he, hg, hc⟩
  · simp [hp, hc]
  · simp [hp, he, hc]
  · simp [hp, he, hg, hc]

/-- C13: if the address is not in the pool, or its slot has no endpoint table, or
the endpoint number is not in that table, then `ctrlReq`, `inTransfer` and
`outTransfer` return the resource error that belongs to the case
(`USB_ERROR_ADDRESS_NOT_FOUND_IN_POOL`, `USB_ERROR_EPINFO_IS_NULL`,
`USB_ERROR_EP_NOT_FOUND_IN_TBL`), whatever the hardware would do, through the
`return` that follows `SetPipeAddress` and with no operation on the
controller: no pipe write, no dispatch.  The three codes are taken to be
non-zero. -/
theorem unresolved_endpoint_fails_before_any_pipe_access (c : Defs) (pool : AddressPool)
    (addr ep bmReqType bRequest wValLo wValHi wInd total nbytes nbytes_in data_in : Nat)
    (dataptr : Option Buffer) (p : Bool) (hw : CtrlHw) (ins : List InReply)
    (data : List Nat) (dtgl fuel : Nat) (outs : List OutReply) (code : Nat)
    (h1 : c.USB_ERROR_ADDRESS_NOT_FOUND_IN_POOL ≠ 0) (h2 : c.USB_ERROR_EPINFO_IS_NULL ≠ 0)
    (h3 : c.USB_ERROR_EP_NOT_FOUND_IN_TBL ≠ 0)
    (hcase :
      (pool.GetUsbDevicePtr addr = none ∧ code = c.USB_ERROR_ADDRESS_NOT_FOUND_IN_POOL) ∨
      (∃ slot, pool.GetUsbDevicePtr addr = some slot ∧ slot.epinfo = none ∧
        code = c.USB_ERROR_EPINFO_IS_NULL) ∨
      (∃ slot, pool.GetUsbDevicePtr addr = some slot ∧ slot.epinfo ≠ none ∧
        getEpInfoEntry pool addr ep = none ∧ code = c.USB_ERROR_EP_NOT_FOUND_IN_TBL)) :
    ctrlReq c pool addr ep bmReqType bRequest wValLo wValHi wInd total nbytes dataptr p hw
        = some ⟨code, none, [], .address⟩ ∧
      inTransfer c pool addr ep nbytes_in data_in ins = some ⟨code, none, [], .address⟩ ∧
      outTransfer c pool addr ep nbytes data dtgl fuel outs
        = some ⟨code, none, [], .address⟩ := by
  have hcode : code ≠ 0 := by
    rcases hcase with ⟨_, hc⟩ | ⟨_, _, _, hc⟩ | ⟨_, _, _, _, hc⟩ <;> rw [hc] <;> assumption
  have ha := SetPipeAddress_unresolved c pool addr ep 0 code hcase
  refine ⟨?_, ?_, ?_⟩
  · unfold ctrlReq
    simp only [ha]
    rw [if_pos hcode]
  · unfold inTransfer
    simp only [ha]
    rw [if_pos hcode]
  · unfold outTransfer
    simp only [ha]
    rw [if_pos hcode]

/-- The statement of `unresolved_endpoint_fails_before_any_pipe_access` on
`poolOneDevice`: address 5 is not in the pool, the slot of address 2 has no
endpoint table, and the device at address 1 has no endpoint 7. -/
theorem unresolved_endpoint_fails_before_any_pipe_access_witness :
    (samd21.USB_ERROR_ADDRESS_NOT_FOUND_IN_POOL ≠ 0 ∧ samd21.USB_ERROR_EPINFO_IS_NULL ≠ 0 ∧
      samd21.USB_ERROR_EP_NOT_FOUND_IN_TBL ≠ 0 ∧
      poolOneDevice.GetUsbDevicePtr 5 = none ∧
      poolOneDevice.GetUsbDevicePtr 2 = some ⟨none, 2, 0, 0⟩ ∧
      poolOneDevice.GetUsbDevicePtr 1
        = some ⟨some [⟨0, 8, 0, 0, 15⟩, ⟨1, 8, 0, 0, 1⟩], 1, 2, 0⟩ ∧
      getEpInfoEntry poolOneDevice 1 7 = none) ∧
    (ctrlReq samd21 poolOneDevice 5 0 0x80 6 0 1 0 18 18 (some ⟨0x20000000, []⟩) false hwAllAck
        = some ⟨samd21.USB_ERROR_ADDRESS_NOT_FOUND_IN_POOL, none, [], .address⟩ ∧
      inTransfer samd21 poolOneDevice 5 0 8 0x20000000 [InReply.ack samd21 8]
        = some ⟨samd21.USB_ERROR_ADDRESS_NOT_FOUND_IN_POOL, none, [], .address⟩ ∧
      outTransfer samd21 poolOneDevice 5 0 18 [1, 2, 3] 0 65 [OutReply.ack samd21]
        = some ⟨samd21.USB_ERROR_ADDRESS_NOT_FOUND_IN_POOL, none, [], .address⟩) ∧
    (ctrlReq samd21 poolOneDevice 2 0 0x80 6 0 1 0 18 18 (some ⟨0x20000000, []⟩) false hwAllAck
        = some ⟨samd21.USB_ERROR_EPINFO_IS_NULL, none, [], .address⟩ ∧
      inTransfer samd21 poolOneDevice 2 0 8 0x20000000 [InReply.ack samd21 8]
        = some ⟨samd21.USB_ERROR_EPINFO_IS_NULL, none, [], .address⟩ ∧
      outTransfer samd21 poolOneDevice 2 0 18 [1, 2, 3] 0 65 [OutReply.ack samd21]
        = some ⟨samd21.USB_ERROR_EPINFO_IS_NULL, none, [], .address⟩) ∧
    (ctrlReq samd21 poolOneDevice 1 7 0x80 6 0 1 0 18 18 (some ⟨0x20000000, []⟩) false hwAllAck
        = some ⟨samd21.USB_ERROR_EP_NOT_FOUND_IN_TBL, none, [], .address⟩ ∧
      inTransfer samd21 poolOneDevice 1 7 8 0x20000000 [InReply.ack samd21 8]
        = some ⟨samd21.USB_ERROR_EP_NOT_FOUND_IN_TBL, none, [], .address⟩ ∧
      outTransfer samd21 poolOneDevice 1 7 18 [1, 2, 3] 0 65 [OutReply.ack samd21]
        = some ⟨samd21.USB_ERROR_EP_NOT_FOUND_IN_TBL, none, [], .address⟩) :=
  ⟨⟨by decide, by decide, by decide, by decide, by decide, by decide, by decide⟩,
   unresolved_endpoint_fails_before_any_pipe_access samd21 poolOneDevice 5 0 0x80 6 0 1 0 18 18
     8 0x20000000 (some ⟨0x20000000, []⟩) false hwAllAck [InReply.ack samd21 8] [1, 2, 3] 0 65
     [OutReply.ack samd21] samd21.USB_ERROR_ADDRESS_NOT_FOUND_IN_POOL
     (by decide) (by decide) (by decide) (Or.inl ⟨by decide, rfl⟩),
   unresolved_endpoint_fails_before_any_pipe_access samd21 poolOneDevice 2 0 0x80 6 0 1 0 18 18
     8 0x20000000 (some ⟨0x20000000, []⟩) false hwAllAck [InReply.ack samd21 8] [1, 2, 3] 0 65
     [OutReply.ack samd21] samd21.USB_ERROR_EPINFO_IS_NULL
     (by decide) (by decide) (by decide)
     (Or.inr (Or.inl ⟨⟨none, 2, 0, 0⟩, by decide, rfl, rfl⟩)),
   unresolved_endpoint_fails_before_any_pipe_access samd21 poolOneDevice 1 7 0x80 6 0 1 0 18 18
     8 0x20000000 (some ⟨0x20000000, []⟩) false hwAllAck [InReply.ack samd21 8] [1, 2, 3] 0 65
     [OutReply.ack samd21] samd21.USB_ERROR_EP_NOT_FOUND_IN_TBL
     (by decide) (by decide) (by decide)
     (Or.inr (Or.inr ⟨⟨some [⟨0, 8, 0, 0, 15⟩, ⟨1, 8, 0, 0, 1⟩], 1, 2, 0⟩, by decide, by decide,
       by decide, rfl⟩))⟩

end USBHost

namespace USBHost

/-- C12 (counterexample to the claim as stated): a control request whose
`bmReqType` has the direction bit set (`0x80`) and whose `dataptr` is null, on
the control endpoint of the device at address 1, every dispatch succeeding.
There is no data stage, and the status stage is dispatched with `tokOUTHS`,
the OUT handshake, not with the IN handshake. -/
theorem ctrlReq_no_data_stage_status_is_OUT_handshake :
    ctrlReq samd21 poolOneDevice 1 0 0x80 0 0 0 0 0 0 none false hwAllAck
      = some ⟨0, some ⟨0, 8, 0, 0, 15⟩,
          [.uhd_configure_address 0 1, .UHD_Pipe0_Alloc 0 64,
           .UHD_Pipe_Write_setup 0 0x80 0 0 0 0 0, .dispatchPkt .tokSETUP 0 32767,
           .UHD_Pipe_CountZero 0, .dispatchPkt .tokOUTHS 0 32767], .status⟩ ∧
    (ctrlReq samd21 poolOneDevice 1 0 0x80 0 0 0 0 0 0 none false hwAllAck).map
        (fun x => x.ops.getLast?) ≠ some (some (.dispatchPkt .tokINHS 0 32767)) := by
  decide

/-- C12 (amended): when `SetPipeAddress` finds the endpoint, `UHD_Pipe0_Alloc`
and the SETUP dispatch succeed, and the data stage, if there is one, leaves
`rcode = 0`, then the status stage is dispatched, on the pipe of the endpoint
and last of all operations, with the token chosen by the direction bit of
`bmReqType` alone: `tokOUTHS` when bit `0x80` is set, `tokINHS` when it is
clear, with or without a data stage; `ctrlReq` returns what that dispatch
returns. -/
theorem ctrlReq_status_token_follows_direction_bit (c : Defs) (pool : AddressPool)
    (addr ep bmReqType bRequest wValLo wValHi wInd total nbytes : Nat)
    (dataptr : Option Buffer) (p : Bool) (hw : CtrlHw)
    (pep pep2 : EpInfo) (ds d : DispatchExit) (dops : List HwOp)
    (ha : (SetPipeAddress c pool addr ep 0).rcode = 0)
    (hpep : (SetPipeAddress c pool addr ep 0).pep = some pep)
    (halloc : hw.alloc = 0)
    (hsetup : dispatchPkt c hw.setup.now (SetPipeAddress c pool addr ep 0).nak_limit
      hw.setup.samples = some ds)
    (hds : ds.rcode = 0)
    (hdata : ctrlReq.data c (decide (u8 bmReqType &&& 0x80 > 0)) nbytes dataptr p hw pep
      (SetPipeAddress c pool addr ep 0).nak_limit = some (0, pep2, dops))
    (hstatus : dispatchPkt c hw.status.now (SetPipeAddress c pool addr ep 0).nak_limit
      hw.status.samples = some d) :
    ∃ before,
      ctrlReq c pool addr ep bmReqType bRequest wValLo wValHi wInd total nbytes dataptr p hw
        = some ⟨d.rcode, some pep2,
            before ++ [.dispatchPkt (if u8 bmReqType &&& 0x80 > 0 then .tokOUTHS else .tokINHS)
              pep2.epAddr (SetPipeAddress c pool addr ep 0).nak_limit], .status⟩ := by
  refine ⟨(SetPipeAddress c pool addr ep 0).ops ++ [.UHD_Pipe0_Alloc 0 64] ++
    [.UHD_Pipe_Write_setup pep.epAddr (u8 bmReqType) (u8 bRequest) (u8 wValLo) (u8 wValHi)
        (u16 wInd) (u16 total),
     .dispatchPkt .tokSETUP ep (SetPipeAddress c pool addr ep 0).nak_limit] ++ dops ++
    [.UHD_Pipe_CountZero pep2.epAddr], ?_⟩
  unfold ctrlReq
  simp only [ha, hpep, halloc, hsetup, hds, hdata, hstatus, ne_eq, not_true_eq_false,
    if_false, ite_false]
  by_cases hdir : u8 bmReqType &&& 0x80 > 0
  · simp [hdir]
  · simp [hdir]

/-- The statement of `ctrlReq_status_token_follows_direction_bit` on a
descriptor read (`bmReqType = 0x80`, 8 bytes, one IN packet) from the control
endpoint of the device at address 1: the status token is `tokOUTHS`. -/
theorem ctrlReq_status_token_follows_direction_bit_witness :
    ((SetPipeAddress samd21 poolOneDevice 1 0 0).rcode = 0 ∧
      (SetPipeAddress samd21 poolOneDevice 1 0 0).pep = some ⟨0, 8, 0, 0, 15⟩ ∧
      hwAllAck.alloc = 0 ∧
      dispatchPkt samd21 hwAllAck.setup.now (SetPipeAddress samd21 poolOneDevice 1 0 0).nak_limit
        hwAllAck.setup.samples = some ⟨0, 0, 0, 1⟩ ∧
      ctrlReq.data samd21 (decide (u8 0x80 &&& 0x80 > 0)) 8 (some ⟨0x20000000, []⟩) false
        hwAllAck ⟨0, 8, 0, 0, 15⟩ (SetPipeAddress samd21 poolOneDevice 1 0 0).nak_limit
        = some (0, ⟨0, 8, 0, 0, 15⟩, [.dispatchPkt .tokIN 0 32767]) ∧
      dispatchPkt samd21 hwAllAck.status.now
        (SetPipeAddress samd21 poolOneDevice 1 0 0).nak_limit hwAllAck.status.samples
        = some ⟨0, 0, 0, 1⟩) ∧
    ∃ before,
      ctrlReq samd21 poolOneDevice 1 0 0x80 6 0 1 0 8 8 (some ⟨0x20000000, []⟩) false hwAllAck
        = some ⟨(⟨0, 0, 0, 1⟩ : DispatchExit).rcode, some ⟨0, 8, 0, 0, 15⟩,
            before ++ [.dispatchPkt (if u8 0x80 &&& 0x80 > 0 then .tokOUTHS else .tokINHS)
              (⟨0, 8, 0, 0, 15⟩ : EpInfo).epAddr
              (SetPipeAddress samd21 poolOneDevice 1 0 0).nak_limit], .status⟩ :=
  ⟨⟨by decide, by decide, by decide, by decide, by decide, by decide⟩,
   ctrlReq_status_token_follows_direction_bit samd21 poolOneDevice 1 0 0x80 6 0 1 0 8 8
     (some ⟨0x20000000, []⟩) false hwAllAck ⟨0, 8, 0, 0, 15⟩ ⟨0, 8, 0, 0, 15⟩ ⟨0, 0, 0, 1⟩
     ⟨0, 0, 0, 1⟩ [.dispatchPkt .tokIN 0 32767]
     (by decide) (by decide) (by decide) (by decide) (by decide) (by decide) (by decide)⟩

end USBHost

namespace USBHost

section PoolRule

variable {W : Type}

theorem liveAfter_cons (live : List Nat) (ev : Event) (rest : List Event) :
    liveAfter live (ev :: rest) = liveAfter (liveAfter live [ev]) rest := by
  cases ev with
  | call e r => cases e <;> simp [liveAfter]
  | AttemptConfig d p q l => simp [liveAfter]
  | DefaultAddressing p q l => simp [liveAfter]
  | attempted n d r => simp [liveAfter]

theorem liveAfter_append (xs ys : List Event) :
    ∀ live, liveAfter live (xs ++ ys) = liveAfter (liveAfter live xs) ys := by
  induction xs with
  | nil => intro live; rfl
  | cons ev rest ih =>
    intro live
    rw [List.cons_append, liveAfter_cons, ih, ← liveAfter_cons]

theorem poolFindsAllocated_cons (live : List Nat) (ev : Event) (rest : List Event) :
    poolFindsAllocated live (ev :: rest)
      = (poolFindsAllocated live [ev] && poolFindsAllocated (liveAfter live [ev]) rest) := by
  cases ev with
  | call e r => cases e <;> simp [poolFindsAllocated, liveAfter]
  | AttemptConfig d p q l => simp [poolFindsAllocated, liveAfter]
  | DefaultAddressing p q l => simp [poolFindsAllocated, liveAfter]
  | attempted n d r => simp [poolFindsAllocated, liveAfter]

theorem poolFindsAllocated_append (xs ys : List Event) :
    ∀ live, poolFindsAllocated live (xs ++ ys)
      = (poolFindsAllocated live xs && poolFindsAllocated (liveAfter live xs) ys) := by
  induction xs with
  | nil => intro live; simp [poolFindsAllocated, liveAfter]
  | cons ev rest ih =>
    intro live
    rw [List.cons_append, poolFindsAllocated_cons, ih, poolFindsAllocated_cons live ev rest,
      ← liveAfter_cons, Bool.and_assoc]

/-- An address that is handed out stays so over a stretch without `FreeAddress`. -/
theorem mem_liveAfter_of_notFreeAddress (a : Nat) (ys : List Event)
    (hy : ∀ ev ∈ ys, ev.notFreeAddress = true) :
    ∀ live, a ∈ live → a ∈ liveAfter live ys := by
  induction ys with
  | nil => intro live h; exact h
  | cons ev rest ih =>
    intro live h
    have hrest : ∀ ev ∈ rest, ev.notFreeAddress = true :=
      fun e he => hy e (List.mem_cons_of_mem _ he)
    have hev := hy ev (List.mem_cons_self _ _)
    rw [liveAfter_cons]
    apply ih hrest
    cases ev with
    | call e r =>
      cases e <;> first
        | (exfalso; simp [Event.notFreeAddress] at hev; done)
        | (simp only [liveAfter]; split <;> simp [h])
        | (simp only [liveAfter]; exact h)
    | AttemptConfig d p q l => simpa [liveAfter] using h
    | DefaultAddressing p q l => simpa [liveAfter] using h
    | attempted n d r => simpa [liveAfter] using h

/-- Under the rule of the pool, the lookup of an address that `AllocAddress` has
handed out, with no `FreeAddress` in between, is not answered with null. -/
theorem poolFindsAllocated_lookup (live : List Nat) (xs between : List Event)
    (p q l a r : Nat) (ha : a ≠ 0) (hb : ∀ ev ∈ between, ev.notFreeAddress = true)
    (h : poolFindsAllocated live
      (xs ++ Event.call (.AllocAddress p q l) a :: (between ++ [Event.call (.GetUsbDevicePtr a) r]))
        = true) : r ≠ 0 := by
  rw [poolFindsAllocated_append, Bool.and_eq_true] at h
  have h2 := h.2
  rw [poolFindsAllocated_cons, Bool.and_eq_true] at h2
  have h3 := h2.2
  rw [poolFindsAllocated_append, Bool.and_eq_true] at h3
  have h4 := h3.2
  have hmem : a ∈ liveAfter (liveAfter (liveAfter live xs)
      [Event.call (.AllocAddress p q l) a]) between := by
    apply mem_liveAfter_of_notFreeAddress a between hb
    simp [liveAfter, ha]
  simp only [poolFindsAllocated, Bool.and_true, Bool.or_eq_true, Bool.not_eq_true',
    bne_iff_ne, ne_eq] at h4
  rcases h4 with h4 | h4
  · rw [List.contains_eq_any_beq, List.any_eq_false] at h4
    exact absurd (by simp) (h4 a hmem)
  · exact h4

/-- The same for states: `s` ends with the `AllocAddress` that handed out `a`,
`t` continues `s` without a call of `FreeAddress`, and the lookup of `a`
follows. -/
theorem poolFindsAllocated_lookup_after (live : List Nat) (xs : List Event)
    (p q l a r : Nat) (s t : Sys W) (ha : a ≠ 0)
    (hs : s.trace = xs ++ [Event.call (.AllocAddress p q l) a])
    (hst : s.extendsWith Event.notFreeAddress t)
    (h : poolFindsAllocated live (t.trace ++ [Event.call (.GetUsbDevicePtr a) r]) = true) :
    r ≠ 0 := by
  obtain ⟨between, ht, hb⟩ := hst
  rw [ht, hs] at h
  apply poolFindsAllocated_lookup live xs between p q l a r ha hb
  rw [← h]
  congr 1
  simp

end PoolRule

end USBHost

/-! ## The error paths past the allocation that do free the address -/

namespace USBHost

section LeakProofs

variable {W : Type}

theorem leaks_of_notAllocAddress (tr : List Event)
    (h : ∀ ev ∈ tr, ev.notAllocAddress = true) : leaks tr = [] := by
  induction tr with
  | nil => rfl
  | cons ev rest ih =>
    have hev := h ev (List.mem_cons_self _ _)
    have hrest := ih (fun e he => h e (List.mem_cons_of_mem _ he))
    cases ev with
    | call e r =>
      cases e <;>
        first
        | (simp [Event.notAllocAddress] at hev; done)
        | simpa [leaks] using hrest
    | AttemptConfig d p q l => simpa [leaks] using hrest
    | DefaultAddressing p q l => simpa [leaks] using hrest
    | attempted n d r => simpa [leaks] using hrest

theorem leaks_append_of_notAllocAddress (pre tr : List Event)
    (h : ∀ ev ∈ pre, ev.notAllocAddress = true) : leaks (pre ++ tr) = leaks tr := by
  induction pre with
  | nil => rfl
  | cons ev rest ih =>
    have hev := h ev (List.mem_cons_self _ _)
    have hrest := ih (fun e he => h e (List.mem_cons_of_mem _ he))
    cases ev with
    | call e r =>
      cases e <;>
        first
        | (simp [Event.notAllocAddress] at hev; done)
        | simpa [leaks] using hrest
    | AttemptConfig d p q l => simpa [leaks] using hrest
    | DefaultAddressing p q l => simpa [leaks] using hrest
    | attempted n d r => simpa [leaks] using hrest

/-- An allocation followed, without another allocation, by the release of the
address it returned leaves nothing allocated. -/
theorem leaks_alloc_then_free (parent is_hub port a r : Nat) (mid : List Event)
    (h : ∀ ev ∈ mid, ev.notAllocAddress = true) :
    leaks (Event.call (.AllocAddress parent is_hub port) a ::
      (mid ++ [Event.call (.FreeAddress a) r])) = [] := by
  have hall : ∀ ev ∈ mid ++ [Event.call (.FreeAddress a) r], ev.notAllocAddress = true := by
    intro ev hev
    rcases List.mem_append.mp hev with h1 | h1
    · exact h ev h1
    · rw [List.mem_singleton.mp h1]; rfl
  have hfree : (mid ++ [Event.call (.FreeAddress a) r]).any (Event.isFreeAddress a) = true := by
    simp [Event.isFreeAddress]
  simp only [leaks, hfree, leaks_of_notAllocAddress _ hall]
  simp

theorem Sys.freedAfter_of_extendsWith {a : Nat} {s t u : Sys W}
    (h1 : s.extendsWith Event.notAllocAddress t) (h2 : t.freedAfter a u) :
    s.freedAfter a u := by
  obtain ⟨e1, ht, hc1⟩ := h1
  obtain ⟨mid, r, hu, hc2⟩ := h2
  refine ⟨e1 ++ mid, r, by rw [hu, ht]; simp, ?_⟩
  intro ev hev
  rcases List.mem_append.mp hev with h | h
  · exact hc1 ev h
  · exact hc2 ev h

theorem Sys.freedAfter_call (H : Host W) (a : Nat) (s : Sys W) :
    s.freedAfter a (H.call (.FreeAddress a) s).2 :=
  ⟨[], (H.run (.FreeAddress a) s.world).1, by simp [Host.call], by simp⟩

/-- What a trace that starts with entries without allocation, goes on with an
allocation and ends, without another allocation, by freeing the address
leaves allocated: nothing. -/
theorem leaks_of_freedAfter {s t u : Sys W} (parent is_hub port a : Nat)
    (hs : ∀ ev ∈ s.trace, ev.notAllocAddress = true)
    (ht : t.trace = s.trace ++ [Event.call (.AllocAddress parent is_hub port) a])
    (hu : t.freedAfter a u) : leaks u.trace = [] := by
  obtain ⟨mid, r, hu, hmid⟩ := hu
  rw [hu, ht, List.append_assoc, List.append_assoc, leaks_append_of_notAllocAddress _ _ hs]
  exact leaks_alloc_then_free parent is_hub port a r mid hmid

theorem notAllocAddress_of_extendsWith {s t : Sys W} (hs : s.trace = [])
    (h : s.extendsWith Event.notAllocAddress t) :
    ∀ ev ∈ t.trace, ev.notAllocAddress = true := by
  obtain ⟨ext, ht, hc⟩ := h
  rw [ht, hs]
  simpa using hc

theorem leaks_of_extendsWith {s t : Sys W} (hs : s.trace = [])
    (h : s.extendsWith Event.notAllocAddress t) : leaks t.trace = [] :=
  leaks_of_notAllocAddress _ (notAllocAddress_of_extendsWith hs h)

/-- `DefaultAddressing`: when the pool keeps to its rule, a non-zero return
leaves no address allocated. -/
theorem DefaultAddressing_frees_when_pool_keeps_rule (H : Host W) (c : Defs)
    (parent port lowspeed : Nat) (w : W)
    (hpool : poolFindsAllocated []
      (DefaultAddressing H c parent port lowspeed ⟨w, []⟩).2.trace = true)
    (hr : (DefaultAddressing H c parent port lowspeed ⟨w, []⟩).1 ≠ 0) :
    leaks (DefaultAddressing H c parent port lowspeed ⟨w, []⟩).2.trace = [] := by
  unfold DefaultAddressing setAddr at hpool hr ⊢
  simp only [] at hpool hr ⊢
  generalize (if lowspeed ≠ 0 then 1 else 0 : Nat) = ls at hpool hr ⊢
  have hpre : (⟨w, []⟩ : Sys W).extendsWith Event.notAllocAddress
      (H.call (.set_lowspeed 0 ls) (H.call (.get_epinfo 0) (H.call (.GetUsbDevicePtr 0)
        ((⟨w, []⟩ : Sys W).mark (.DefaultAddressing parent port lowspeed))).2).2).2 := by
    refine Sys.extendsWith_trans ?_ (Sys.extendsWith_call _ _ _ _ rfl)
    refine Sys.extendsWith_trans ?_ (Sys.extendsWith_call _ _ _ _ rfl)
    refine Sys.extendsWith_trans ?_ (Sys.extendsWith_call _ _ _ _ rfl)
    exact Sys.extendsWith_mark _ _ _ rfl
  split_ifs at hpool hr ⊢ with h1 h2 h3 h4 h5
  · apply leaks_of_extendsWith (s := ⟨w, []⟩) rfl
    refine Sys.extendsWith_trans ?_ (Sys.extendsWith_call _ _ _ _ rfl)
    exact Sys.extendsWith_mark _ _ _ rfl
  · apply leaks_of_extendsWith (s := ⟨w, []⟩) rfl
    refine Sys.extendsWith_trans ?_ (Sys.extendsWith_call _ _ _ _ rfl)
    refine Sys.extendsWith_trans ?_ (Sys.extendsWith_call _ _ _ _ rfl)
    exact Sys.extendsWith_mark _ _ _ rfl
  · simp only []
    rw [Host.call_trace, leaks_append_of_notAllocAddress _ _
      (notAllocAddress_of_extendsWith rfl hpre)]
    have h0 : (H.run (.AllocAddress parent 0 port)
        (H.call (.set_lowspeed 0 ls) (H.call (.get_epinfo 0) (H.call (.GetUsbDevicePtr 0)
          ((⟨w, []⟩ : Sys W).mark (.DefaultAddressing parent port lowspeed))).2).2).2.world).1
          = 0 := h3
    simp [leaks, h0]
  · exfalso
    simp only [] at hpool
    rw [Host.call_trace] at hpool
    exact poolFindsAllocated_lookup_after [] _ parent 0 port _ _ _ _ h3
      (Host.call_trace H _ _) (Sys.extendsWith_refl _ _) hpool h4
  · simp only []
    refine leaks_of_freedAfter parent 0 port _
      (notAllocAddress_of_extendsWith rfl hpre)
      (Host.call_trace H _ _) ?_
    refine Sys.freedAfter_of_extendsWith ?_ (Sys.freedAfter_call H _ _)
    refine Sys.extendsWith_trans ?_ (Sys.extendsWith_call _ _ _ _ rfl)
    refine Sys.extendsWith_trans ?_ (Sys.extendsWith_call _ _ _ _ rfl)
    refine Sys.extendsWith_trans ?_ (Sys.extendsWith_call _ _ _ _ rfl)
    refine Sys.extendsWith_trans ?_ (Sys.extendsWith_call _ _ _ _ rfl)
    exact Sys.extendsWith_refl _ _
  · exact absurd rfl hr

end LeakProofs

end USBHost

namespace HIDBoot

open USBHost

section InitProofs

variable {W : Type}

theorem EndpointXtract_bAddress (h : HidDefs) (BOOT_PROTOCOL : Nat) (d : Driver)
    (x : EndpointCall) : (EndpointXtract h BOOT_PROTOCOL d x).bAddress = d.bAddress := by
  unfold EndpointXtract
  simp only []
  split_ifs <;> rfl

theorem EndpointXtract_foldl_bAddress (h : HidDefs) (BOOT_PROTOCOL : Nat)
    (xs : List EndpointCall) (d : Driver) :
    (xs.foldl (EndpointXtract h BOOT_PROTOCOL) d).bAddress = d.bAddress := by
  induction xs generalizing d with
  | nil => rfl
  | cons x rest ih => rw [List.foldl_cons, ih, EndpointXtract_bAddress]

theorem getConfDescr_extends (H : Host W) (addr ep conf : Nat) (s : Sys W) :
    s.extendsWith Event.notAllocAddress (getConfDescr H addr ep conf s).2.2 := by
  unfold getConfDescr
  simp only []
  split_ifs
  · exact Sys.extendsWith_call _ _ _ _ rfl
  · refine Sys.extendsWith_trans ?_ (Sys.extendsWith_call _ _ _ _ rfl)
    refine Sys.extendsWith_trans ?_ (Sys.extendsWith_call _ _ _ _ rfl)
    exact Sys.extendsWith_call _ _ _ _ rfl

/-- The loops of `Init` that read the configuration descriptors keep `bAddress`
and allocate nothing. -/
theorem Init.scan_spec (H : Host W) (parsed : Nat → Nat → W → List EndpointCall)
    (h : HidDefs) (BOOT_PROTOCOL proto : Nat) (left i : Nat) (d : Driver) (s : Sys W) :
    (Init.scan H parsed h BOOT_PROTOCOL proto left i d s).1.bAddress = d.bAddress ∧
      s.extendsWith Event.notAllocAddress
        (Init.scan H parsed h BOOT_PROTOCOL proto left i d s).2 := by
  induction left generalizing i d s with
  | zero => exact ⟨rfl, Sys.extendsWith_refl _ _⟩
  | succ n ih =>
    unfold Init.scan
    simp only []
    generalize (if (getConfDescr H d.bAddress 0 i s).2.1 = true then
        parsed proto i (getConfDescr H d.bAddress 0 i s).2.2.world else []) = found
    split_ifs
    · exact ⟨EndpointXtract_foldl_bAddress _ _ _ _, getConfDescr_extends H _ _ _ s⟩
    · obtain ⟨hb, he⟩ := ih (i + 1) (List.foldl (EndpointXtract h BOOT_PROTOCOL) d found)
        (getConfDescr H d.bAddress 0 i s).2.2
      exact ⟨hb.trans (EndpointXtract_foldl_bAddress _ _ _ _),
        Sys.extendsWith_trans (getConfDescr_extends H _ _ _ s) he⟩

theorem Init.protocols_extends (H : Host W) (h : HidDefs) (d : Driver) (left i : Nat)
    (s : Sys W) :
    s.extendsWith Event.notAllocAddress (Init.protocols H h d left i s).2 := by
  induction left generalizing i s with
  | zero => exact Sys.extendsWith_refl _ _
  | succ n ih =>
    unfold Init.protocols
    simp only []
    split_ifs
    · exact Sys.extendsWith_call _ _ _ _ rfl
    · refine Sys.extendsWith_trans ?_ (ih _ _)
      refine Sys.extendsWith_trans ?_ (Sys.extendsWith_call _ _ _ _ rfl)
      refine Sys.extendsWith_trans ?_ (Sys.extendsWith_call _ _ _ _ rfl)
      exact Sys.extendsWith_call _ _ _ _ rfl

/-- The label `Fail:` frees the address the driver holds and clears `bAddress`. -/
theorem Init.Fail_spec (H : Host W) (rcode : Nat) (d : Driver) (s : Sys W) :
    (Init.Fail H rcode d s).1 = rcode ∧ (Init.Fail H rcode d s).2.1.bAddress = 0 ∧
      s.freedAfter d.bAddress (Init.Fail H rcode d s).2.2 :=
  ⟨rfl, rfl, Sys.freedAfter_call H _ s⟩

theorem Init.leds_extends (H : Host W) (d : Driver) (rounds rcode : Nat) (s : Sys W) :
    s.extendsWith Event.notAllocAddress (Init.leds H d rounds rcode s) := by
  induction rounds generalizing rcode s with
  | zero => exact Sys.extendsWith_refl _ _
  | succ n ih =>
    unfold Init.leds
    simp only []
    split_ifs
    · refine Sys.extendsWith_trans ?_ (ih _ _)
      refine Sys.extendsWith_trans ?_ (Sys.extendsWith_call _ _ _ _ rfl)
      exact Sys.extendsWith_call _ _ _ _ rfl
    · exact Sys.extendsWith_refl _ _

theorem Init.descriptors_spec (H : Host W) (parsed : Nat → Nat → W → List EndpointCall)
    (h : HidDefs) (BOOT_PROTOCOL num_of_conf : Nat) (d : Driver) (s : Sys W) :
    (Init.descriptors H parsed h BOOT_PROTOCOL num_of_conf d s).1.bAddress = d.bAddress ∧
      s.extendsWith Event.notAllocAddress
        (Init.descriptors H parsed h BOOT_PROTOCOL num_of_conf d s).2 := by
  unfold Init.descriptors
  simp only []
  split_ifs
  · exact Init.scan_spec H parsed h _ _ _ _ d s
  · obtain ⟨hb1, he1⟩ := Init.scan_spec H parsed h BOOT_PROTOCOL h.HID_PROTOCOL_KEYBOARD
      num_of_conf 0 d s
    obtain ⟨hb2, he2⟩ := Init.scan_spec H parsed h BOOT_PROTOCOL h.HID_PROTOCOL_MOUSE
      num_of_conf 0
      (Init.scan H parsed h BOOT_PROTOCOL h.HID_PROTOCOL_KEYBOARD num_of_conf 0 d s).1
      (Init.scan H parsed h BOOT_PROTOCOL h.HID_PROTOCOL_KEYBOARD num_of_conf 0 d s).2
    exact ⟨hb2.trans hb1, Sys.extendsWith_trans he1 he2⟩
  · exact Init.scan_spec H parsed h _ _ _ _ d s
  · exact Init.scan_spec H parsed h _ _ _ _ d s
  · exact ⟨rfl, Sys.extendsWith_refl _ _⟩

/-- Every non-zero return of the configuration part of `Init` goes through
`Fail:`, which frees the address. -/
theorem Init.configure_spec (H : Host W) (parsed : Nat → Nat → W → List EndpointCall)
    (c : Defs) (h : HidDefs) (BOOT_PROTOCOL : Nat) (d : Driver) (s : Sys W)
    (hr : (Init.configure H parsed c h BOOT_PROTOCOL d s).1 ≠ 0) :
    (Init.configure H parsed c h BOOT_PROTOCOL d s).2.1.bAddress = 0 ∧
      s.freedAfter d.bAddress (Init.configure H parsed c h BOOT_PROTOCOL d s).2.2 := by
  unfold Init.configure at hr ⊢
  simp only [] at hr ⊢
  obtain ⟨hb, he⟩ := Init.descriptors_spec H parsed h BOOT_PROTOCOL
    (u8 (H.call .udd_bNumConfigurations s).1) d (H.call .udd_bNumConfigurations s).2
  generalize Init.descriptors H parsed h BOOT_PROTOCOL
    (u8 (H.call .udd_bNumConfigurations s).1) d (H.call .udd_bNumConfigurations s).2 = sc
    at hr hb he ⊢
  have hs : s.extendsWith Event.notAllocAddress sc.2 :=
    Sys.extendsWith_trans (Sys.extendsWith_call _ H .udd_bNumConfigurations s rfl) he
  split_ifs at hr ⊢ with h1 h2
  · refine ⟨rfl, ?_⟩
    rw [← hb]
    exact Sys.freedAfter_of_extendsWith hs (Init.Fail_spec H _ sc.1 sc.2).2.2
  · refine ⟨rfl, ?_⟩
    rw [← hb]
    refine Sys.freedAfter_of_extendsWith ?_ (Init.Fail_spec H _ sc.1 _).2.2
    refine Sys.extendsWith_trans hs ?_
    refine Sys.extendsWith_trans ?_ (Sys.extendsWith_call _ _ _ _ rfl)
    refine Sys.extendsWith_trans ?_ (Sys.extendsWith_call _ _ _ _ rfl)
    exact Sys.extendsWith_call _ _ _ _ rfl
  all_goals
    split at hr
    · rename_i rc heq
      refine ⟨rfl, ?_⟩
      rw [← hb]
      refine Sys.freedAfter_of_extendsWith ?_ (Init.Fail_spec H _ sc.1 _).2.2
      refine Sys.extendsWith_trans hs ?_
      refine Sys.extendsWith_trans ?_ (Init.protocols_extends H h sc.1 _ _ _)
      refine Sys.extendsWith_trans ?_ (Sys.extendsWith_call _ _ _ _ rfl)
      refine Sys.extendsWith_trans ?_ (Sys.extendsWith_call _ _ _ _ rfl)
      refine Sys.extendsWith_trans ?_ (Sys.extendsWith_call _ _ _ _ rfl)
      exact Sys.extendsWith_call _ _ _ _ rfl
    · exact absurd rfl hr

theorem Sys.freedAfter_call_eq (H : Host W) (a b : Nat) (s : Sys W) (h : b = a) :
    s.freedAfter a (H.call (.FreeAddress b) s).2 := by
  subst h
  exact Sys.freedAfter_call H _ s

theorem Init.Fail_freed (H : Host W) (rcode a : Nat) (d : Driver) (s : Sys W)
    (h : d.bAddress = a) : s.freedAfter a (Init.Fail H rcode d s).2.2 := by
  subst h
  exact (Init.Fail_spec H rcode d s).2.2

theorem Init.configure_freed (H : Host W) (parsed : Nat → Nat → W → List EndpointCall)
    (c : Defs) (h : HidDefs) (BOOT_PROTOCOL a : Nat) (d : Driver) (s : Sys W)
    (hd : d.bAddress = a)
    (hr : (Init.configure H parsed c h BOOT_PROTOCOL d s).1 ≠ 0) :
    (Init.configure H parsed c h BOOT_PROTOCOL d s).2.1.bAddress = 0 ∧
      s.freedAfter a (Init.configure H parsed c h BOOT_PROTOCOL d s).2.2 := by
  subst hd
  exact Init.configure_spec H parsed c h BOOT_PROTOCOL d s hr

/-- Past the allocation, when the pool keeps to its rule, every non-zero
return of `Init` is preceded by `FreeAddress(bAddress)` and leaves
`bAddress = 0`. -/
theorem Init.addressed_spec (H : Host W) (parsed : Nat → Nat → W → List EndpointCall)
    (c : Defs) (h : HidDefs) (BOOT_PROTOCOL sizeof_udd lowspeed len : Nat) (d : Driver)
    (s : Sys W) (ha : d.bAddress ≠ 0) (xs : List Event) (p q l : Nat)
    (hs : s.trace = xs ++ [Event.call (.AllocAddress p q l) d.bAddress])
    (hpool : poolFindsAllocated []
      (Init.addressed H parsed c h BOOT_PROTOCOL sizeof_udd lowspeed len d s).2.2.trace = true)
    (hr : (Init.addressed H parsed c h BOOT_PROTOCOL sizeof_udd lowspeed len d s).1 ≠ 0) :
    (Init.addressed H parsed c h BOOT_PROTOCOL sizeof_udd lowspeed len d s).2.1.bAddress = 0 ∧
      s.freedAfter d.bAddress
        (Init.addressed H parsed c h BOOT_PROTOCOL sizeof_udd lowspeed len d s).2.2 := by
  unfold Init.addressed setAddr at hpool hr ⊢
  simp only [] at hpool hr ⊢
  split_ifs at hpool hr ⊢ with h1 h2 h3 h4 h5
  · refine ⟨rfl, ?_⟩
    refine Sys.freedAfter_of_extendsWith ?_ (Sys.freedAfter_call_eq H _ _ _ rfl)
    refine Sys.extendsWith_trans ?_ (Sys.extendsWith_call _ _ _ _ rfl)
    refine Sys.extendsWith_trans ?_ (Sys.extendsWith_call _ _ _ _ rfl)
    refine Sys.extendsWith_trans ?_ (Sys.extendsWith_call _ _ _ _ rfl)
    exact Sys.extendsWith_call _ _ _ _ rfl
  · refine ⟨rfl, ?_⟩
    refine Sys.freedAfter_of_extendsWith ?_ (Init.Fail_freed H _ _ _ _ rfl)
    refine Sys.extendsWith_trans ?_ (Sys.extendsWith_call _ _ _ _ rfl)
    refine Sys.extendsWith_trans ?_ (Sys.extendsWith_call _ _ _ _ rfl)
    refine Sys.extendsWith_trans ?_ (Sys.extendsWith_call _ _ _ _ rfl)
    refine Sys.extendsWith_trans ?_ (Sys.extendsWith_call _ _ _ _ rfl)
    refine Sys.extendsWith_trans ?_ (Sys.extendsWith_call _ _ _ _ rfl)
    refine Sys.extendsWith_trans ?_ (Sys.extendsWith_call _ _ _ _ rfl)
    exact Sys.extendsWith_call _ _ _ _ rfl
  · exfalso
    simp only [] at hpool
    rw [Host.call_trace] at hpool
    refine poolFindsAllocated_lookup_after [] xs p q l _ _ s _ ha hs ?_ hpool h3
    repeat (first
      | exact Sys.extendsWith_call _ H _ s (by rfl)
      | refine Sys.extendsWith_trans ?_ (Sys.extendsWith_call _ H _ _ (by rfl)))
  · refine ⟨rfl, ?_⟩
    refine Sys.freedAfter_of_extendsWith ?_ (Init.Fail_freed H _ _ _ _ rfl)
    refine Sys.extendsWith_trans ?_ (Sys.extendsWith_call _ _ _ _ rfl)
    refine Sys.extendsWith_trans ?_ (Sys.extendsWith_call _ _ _ _ rfl)
    refine Sys.extendsWith_trans ?_ (Sys.extendsWith_call _ _ _ _ rfl)
    refine Sys.extendsWith_trans ?_ (Sys.extendsWith_call _ _ _ _ rfl)
    refine Sys.extendsWith_trans ?_ (Sys.extendsWith_call _ _ _ _ rfl)
    refine Sys.extendsWith_trans ?_ (Sys.extendsWith_call _ _ _ _ rfl)
    refine Sys.extendsWith_trans ?_ (Sys.extendsWith_call _ _ _ _ rfl)
    refine Sys.extendsWith_trans ?_ (Sys.extendsWith_call _ _ _ _ rfl)
    refine Sys.extendsWith_trans ?_ (Sys.extendsWith_call _ _ _ _ rfl)
    refine Sys.extendsWith_trans ?_ (Sys.extendsWith_call _ _ _ _ rfl)
    exact Sys.extendsWith_call _ _ _ _ rfl
  · obtain ⟨hb, hf⟩ := Init.configure_freed H parsed c h BOOT_PROTOCOL d.bAddress _ _ (by rfl) hr
    refine ⟨hb, Sys.freedAfter_of_extendsWith ?_ hf⟩
    refine Sys.extendsWith_trans ?_ (Sys.extendsWith_call _ _ _ _ rfl)
    refine Sys.extendsWith_trans ?_ (Sys.extendsWith_call _ _ _ _ rfl)
    refine Sys.extendsWith_trans ?_ (Sys.extendsWith_call _ _ _ _ rfl)
    refine Sys.extendsWith_trans ?_ (Sys.extendsWith_call _ _ _ _ rfl)
    refine Sys.extendsWith_trans ?_ (Sys.extendsWith_call _ _ _ _ rfl)
    refine Sys.extendsWith_trans ?_ (Sys.extendsWith_call _ _ _ _ rfl)
    refine Sys.extendsWith_trans ?_ (Sys.extendsWith_call _ _ _ _ rfl)
    refine Sys.extendsWith_trans ?_ (Sys.extendsWith_call _ _ _ _ rfl)
    refine Sys.extendsWith_trans ?_ (Sys.extendsWith_call _ _ _ _ rfl)
    refine Sys.extendsWith_trans ?_ (Sys.extendsWith_call _ _ _ _ rfl)
    exact Sys.extendsWith_call _ _ _ _ rfl
  · obtain ⟨hb, hf⟩ := Init.configure_freed H parsed c h BOOT_PROTOCOL d.bAddress _ _ (by rfl) hr
    refine ⟨hb, Sys.freedAfter_of_extendsWith ?_ hf⟩
    refine Sys.extendsWith_trans ?_ (Sys.extendsWith_call _ _ _ _ rfl)
    refine Sys.extendsWith_trans ?_ (Sys.extendsWith_call _ _ _ _ rfl)
    refine Sys.extendsWith_trans ?_ (Sys.extendsWith_call _ _ _ _ rfl)
    refine Sys.extendsWith_trans ?_ (Sys.extendsWith_call _ _ _ _ rfl)
    refine Sys.extendsWith_trans ?_ (Sys.extendsWith_call _ _ _ _ rfl)
    refine Sys.extendsWith_trans ?_ (Sys.extendsWith_call _ _ _ _ rfl)
    refine Sys.extendsWith_trans ?_ (Sys.extendsWith_call _ _ _ _ rfl)
    refine Sys.extendsWith_trans ?_ (Sys.extendsWith_call _ _ _ _ rfl)
    refine Sys.extendsWith_trans ?_ (Sys.extendsWith_call _ _ _ _ rfl)
    exact Sys.extendsWith_call _ _ _ _ rfl

/-- `HIDBoot::Init`: when the pool keeps to its rule, a non-zero return leaves
no address allocated, and a driver that entered without an address leaves
without one. -/
theorem Init_frees_when_pool_keeps_rule (H : Host W)
    (parsed : Nat → Nat → W → List EndpointCall) (c : Defs) (h : HidDefs)
    (BOOT_PROTOCOL sizeof_udd parent port lowspeed : Nat) (d : Driver) (w : W)
    (hpool : poolFindsAllocated []
      (Init H parsed c h BOOT_PROTOCOL sizeof_udd parent port lowspeed d ⟨w, []⟩).2.2.trace
        = true)
    (hr : (Init H parsed c h BOOT_PROTOCOL sizeof_udd parent port lowspeed d ⟨w, []⟩).1 ≠ 0) :
    leaks (Init H parsed c h BOOT_PROTOCOL sizeof_udd parent port lowspeed d ⟨w, []⟩).2.2.trace
        = [] ∧
      (d.bAddress = 0 →
        (Init H parsed c h BOOT_PROTOCOL sizeof_udd parent port lowspeed d ⟨w, []⟩).2.1.bAddress
          = 0) := by
  unfold Init at hpool hr ⊢
  simp only [] at hpool hr ⊢
  split_ifs at hpool hr ⊢ with h1 h2 h3 h4 h5 h6
  · exact ⟨rfl, fun h0 => absurd h0 h1⟩
  · refine ⟨?_, fun h0 => h0⟩
    apply leaks_of_extendsWith (s := ⟨w, []⟩) rfl
    exact Sys.extendsWith_call _ _ _ _ rfl
  · refine ⟨?_, fun h0 => h0⟩
    apply leaks_of_extendsWith (s := ⟨w, []⟩) rfl
    refine Sys.extendsWith_trans ?_ (Sys.extendsWith_call _ _ _ _ rfl)
    exact Sys.extendsWith_call _ _ _ _ rfl
  · refine ⟨?_, fun _ => rfl⟩
    apply leaks_of_extendsWith (s := ⟨w, []⟩) rfl
    simp only [Init.Fail]
    refine Sys.extendsWith_trans ?_ (Sys.extendsWith_call _ _ _ _ rfl)
    refine Sys.extendsWith_trans ?_ (Sys.extendsWith_call _ _ _ _ rfl)
    refine Sys.extendsWith_trans ?_ (Sys.extendsWith_call _ _ _ _ rfl)
    refine Sys.extendsWith_trans ?_ (Sys.extendsWith_call _ _ _ _ rfl)
    refine Sys.extendsWith_trans ?_ (Sys.extendsWith_call _ _ _ _ rfl)
    refine Sys.extendsWith_trans ?_ (Sys.extendsWith_call _ _ _ _ rfl)
    exact Sys.extendsWith_call _ _ _ _ rfl
  · refine ⟨?_, fun _ => h5⟩
    simp only []
    rw [Host.call_trace, leaks_append_of_notAllocAddress _ _
      (notAllocAddress_of_extendsWith (s := ⟨w, []⟩) rfl ?_)]
    · simp only [leaks]
      rw [if_neg (fun hc => hc.1 h5)]
    · refine Sys.extendsWith_trans ?_ (Sys.extendsWith_call _ _ _ _ rfl)
      refine Sys.extendsWith_trans ?_ (Sys.extendsWith_call _ _ _ _ rfl)
      refine Sys.extendsWith_trans ?_ (Sys.extendsWith_call _ _ _ _ rfl)
      refine Sys.extendsWith_trans ?_ (Sys.extendsWith_call _ _ _ _ rfl)
      refine Sys.extendsWith_trans ?_ (Sys.extendsWith_call _ _ _ _ rfl)
      refine Sys.extendsWith_trans ?_ (Sys.extendsWith_call _ _ _ _ rfl)
      exact Sys.extendsWith_call _ _ _ _ rfl
  all_goals
    obtain ⟨hb, hf⟩ := Init.addressed_spec H parsed c h BOOT_PROTOCOL sizeof_udd lowspeed _ _ _
      (by exact h5) _ parent 0 port (Host.call_trace H _ _) hpool hr
    refine ⟨leaks_of_freedAfter parent 0 port _
      (notAllocAddress_of_extendsWith (s := ⟨w, []⟩) rfl ?_) (Host.call_trace H _ _) hf,
      fun _ => hb⟩
    refine Sys.extendsWith_trans ?_ (Sys.extendsWith_call _ _ _ _ rfl)
    refine Sys.extendsWith_trans ?_ (Sys.extendsWith_call _ _ _ _ rfl)
    refine Sys.extendsWith_trans ?_ (Sys.extendsWith_call _ _ _ _ rfl)
    refine Sys.extendsWith_trans ?_ (Sys.extendsWith_call _ _ _ _ rfl)
    refine Sys.extendsWith_trans ?_ (Sys.extendsWith_call _ _ _ _ rfl)
    refine Sys.extendsWith_trans ?_ (Sys.extendsWith_call _ _ _ _ rfl)
    exact Sys.extendsWith_call _ _ _ _ rfl

end InitProofs

end HIDBoot

namespace USBHost

/-- C21 (the code differs): `OutTransfer` of 16 bytes with `maxPktSize = 8` where
the dispatch of the first chunk reports a toggle error and the next dispatch
succeeds.  The toggle is taken from the hardware, but `bytes_left` is 16 at
the failed dispatch and 8 at the next one: the failed chunk is counted as
sent, there is no third dispatch, and the function returns 0.  With a single
chunk of 8 bytes whose dispatch reports a toggle error the function makes that
one dispatch only and returns `USB_ERROR_DATATOGGLE`. -/
theorem OutTransfer_toggle_error_counts_chunk_as_sent :
    (OutTransfer samd21 ⟨1, 8, 0, 0, 0⟩ 0 16 (List.range 16) 0 17
        [OutReply.toggleError samd21 1, OutReply.ack samd21, OutReply.ack samd21]).map
      (fun x => (x.rcode, x.pending, x.writes.length))
      = some (0, [16, 8], 2) ∧
    (OutTransfer samd21 ⟨1, 8, 0, 0, 0⟩ 0 8 (List.range 8) 0 9
        [OutReply.toggleError samd21 1, OutReply.ack samd21]).map
      (fun x => (x.rcode, x.pending, x.pep.bmSndToggle))
      = some (samd21.USB_ERROR_DATATOGGLE, [8], 1) := by
  decide

/-- C22 (the code differs): `OutTransfer` of 8 bytes on an endpoint whose send
toggle is 0 while the hardware toggle reads 1 after the failed dispatch.
With `nak_limit = 3` and three NAKs the function returns `USB_ERRORFLOW`, with
three bus timeouts it returns `USB_ERRORTIMEOUT`; in both cases it leaves by
the `return` inside the `switch`, not through `breakout`, and `bmSndToggle` is
still 0.  When VBUS is lost during the dispatch the function leaves through
`breakout` and `bmSndToggle` is 1. -/
theorem OutTransfer_flow_and_timeout_return_without_resync :
    OutTransfer samd21 ⟨1, 8, 0, 0, 0⟩ 3 8 (List.range 8) 0 9 [OutReply.naks samd21 3 1]
      = some ⟨samd21.USB_ERRORFLOW, ⟨1, 8, 0, 0, 0⟩, [⟨1, 8, List.range 8⟩], [8], false,
          List.range 8⟩ ∧
    OutTransfer samd21 ⟨1, 8, 0, 0, 0⟩ 3 8 (List.range 8) 0 9 [OutReply.busTimeouts samd21 3 1]
      = some ⟨samd21.USB_ERRORTIMEOUT, ⟨1, 8, 0, 0, 0⟩, [⟨1, 8, List.range 8⟩], [8], false,
          List.range 8⟩ ∧
    OutTransfer samd21 ⟨1, 8, 0, 0, 0⟩ 3 8 (List.range 8) 0 9 [OutReply.vbusLost samd21 1]
      = some ⟨samd21.USB_ERROR_TRANSFER_TIMEOUT, ⟨1, 8, 1, 0, 0⟩, [⟨1, 8, List.range 8⟩], [8],
          true, List.range 8⟩ := by
  decide

end USBHost

namespace USBHost

/-- With `nbytes` of 256 or more the counter of the copy loop, an `uint8_t`,
stays below `nbytes` for ever: the loop has not ended after any number of
steps. -/
theorem OutTransfer.copy_runs_on (nbytes : Nat) (data : List Nat) (hn : 256 ≤ nbytes) :
    ∀ (fuel i : Nat) (buf stored : List Nat), i < 256 →
      OutTransfer.copy nbytes data fuel i buf stored = none := by
  intro fuel
  induction fuel with
  | zero => intro i buf stored _; rfl
  | succ n ih =>
    intro i buf stored hi
    rw [OutTransfer.copy, if_pos (by omega)]
    exact ih _ _ _ (Nat.mod_lt _ (by norm_num))

/-- With `nbytes` up to 255 the copy loop ends after `nbytes` stores, to the
indices `0 .. nbytes - 1` in this order. -/
theorem OutTransfer.copy_ends (nbytes : Nat) (data : List Nat) (hn : nbytes ≤ 255) :
    ∀ (k i : Nat) (buf stored : List Nat), i + k = nbytes →
      ∃ filled, OutTransfer.copy nbytes data (k + 1) i buf stored
        = some (filled, stored ++ List.range' i k) := by
  intro k
  induction k with
  | zero =>
    intro i buf stored hi
    refine ⟨buf, ?_⟩
    rw [OutTransfer.copy, if_neg (by omega)]
    simp
  | succ n ih =>
    intro i buf stored hi
    rw [OutTransfer.copy, if_pos (by omega)]
    have hu : u8 (i + 1) = i + 1 := Nat.mod_eq_of_lt (by omega)
    rw [hu]
    obtain ⟨filled, hf⟩ := ih (i + 1) (buf.set i (data.getD i 0)) (stored ++ [i]) (by omega)
    refine ⟨filled, ?_⟩
    rw [hf]
    simp [List.range']

/-- A transfer of at most 64 bytes is copied by stores to indices below 64 only. -/
theorem OutTransfer.copy_within_buffer (nbytes : Nat) (data buf : List Nat)
    (hn : nbytes ≤ 64) :
    ∃ filled, OutTransfer.copy nbytes data (nbytes + 1) 0 buf []
        = some (filled, List.range nbytes) ∧ ∀ i ∈ List.range nbytes, i < 64 := by
  obtain ⟨filled, hf⟩ := OutTransfer.copy_ends nbytes data (by omega) nbytes 0 buf []
    (by omega)
  refine ⟨filled, ?_, ?_⟩
  · rw [hf, List.range_eq_range']
    simp
  · intro i hi
    have := List.mem_range.mp hi
    omega

/-- C29 (the code differs): the copy loop of `OutTransfer` is bounded by `nbytes`,
not by the 64 bytes of `buf`.  With `nbytes = 65` it ends after storing to the
indices 0..64, the last of which lies outside `buf`; with `nbytes = 256`
the 8-bit counter wraps before it reaches `nbytes`, the loop never ends,
whatever bound is put on its steps, and `OutTransfer` on an endpoint with
`maxPktSize = 64` does not return. -/
theorem OutTransfer_copy_not_bounded_by_buffer :
    (OutTransfer.copy 65 (List.replicate 65 7) 66 0 (List.replicate 64 0) []).map
        (fun r => r.2) = some (List.range 65) ∧
    (∀ (data : List Nat) (fuel : Nat),
      OutTransfer.copy 256 data fuel 0 (List.replicate 64 0) [] = none) ∧
    (∀ (data : List Nat) (dtgl fuel : Nat) (replies : List OutReply),
      OutTransfer samd21 ⟨1, 64, 0, 0, 0⟩ 0 256 data dtgl fuel replies = none) := by
  refine ⟨by decide, ?_, ?_⟩
  · intro data fuel
    exact OutTransfer.copy_runs_on 256 data (le_refl _) fuel 0 _ _ (by norm_num)
  · intro data dtgl fuel replies
    unfold OutTransfer
    simp only []
    rw [if_neg (by decide), OutTransfer.copy_runs_on 256 data (le_refl _) fuel 0 _ _ (by norm_num)]

end USBHost

namespace serialport

/-- C23 (the code differs): `sp_new_config` stores -1 into eight members of
the structure it has allocated and nothing into `xon_xoff`, which keeps
whatever the fresh block holds.  With a block of zero bytes the call returns `SP_OK`
and a configuration whose `xon_xoff` is 0, `SP_XONXOFF_DISABLED`, not the
special value -1; for every block the other eight members are -1 and
`xon_xoff` is as `malloc` left it.  With a null result pointer the call
returns `SP_ERR_ARG`. -/
theorem sp_new_config_leaves_xon_xoff_unset :
    sp_new_config true (some ⟨0, 0, 0, 0, 0, 0, 0, 0, 0⟩)
      = (SP_OK, some ⟨-1, -1, -1, -1, -1, -1, -1, -1, SP_XONXOFF_DISABLED⟩) ∧
    SP_XONXOFF_DISABLED ≠ SP_XONXOFF_INVALID ∧
    (∀ block : sp_port_config,
      sp_new_config true (some block)
        = (SP_OK, some ⟨-1, -1, -1, -1, -1, -1, -1, -1, block.xon_xoff⟩)) ∧
    (∀ m, sp_new_config false m = (SP_ERR_ARG, none)) := by
  refine ⟨by decide, by decide, fun block => rfl, fun m => rfl⟩

/-- C24: `sp_set_config_flowcontrol` on a non-null configuration `c`.  For
`f` among the four enumerators (`f ≤ SP_FLOWCONTROL_DTRDSR`) it returns
`SP_OK`; `xon_xoff` becomes `INOUT` if `f = XONXOFF` and `DISABLED`
otherwise; `rts` and `cts` become `FLOW_CONTROL` if `f = RTSCTS`, otherwise
`cts` becomes `IGNORE` and `rts` becomes `ON` if it was `FLOW_CONTROL` and
stays as it was if not, so that it is not `FLOW_CONTROL`; `dtr` and `dsr`
likewise for `f = DTRDSR`; `baudrate`, `bits`, `parity` and `stopbits` stay.
For `f` above `SP_FLOWCONTROL_DTRDSR` it returns `SP_ERR_ARG` and the
configuration stays as it was; for a null configuration it returns
`SP_ERR_ARG`. -/
theorem sp_set_config_flowcontrol_enables_only_named (c : sp_port_config) (f : Nat) :
    sp_set_config_flowcontrol none f = (SP_ERR_ARG, none) ∧
    ∃ c2, sp_set_config_flowcontrol (some c) f
        = (if f ≤ SP_FLOWCONTROL_DTRDSR then SP_OK else SP_ERR_ARG, some c2) ∧
      c2.baudrate = c.baudrate ∧ c2.bits = c.bits ∧ c2.parity = c.parity ∧
      c2.stopbits = c.stopbits ∧
      c2.xon_xoff = (if f ≤ SP_FLOWCONTROL_DTRDSR then
          (if f = SP_FLOWCONTROL_XONXOFF then SP_XONXOFF_INOUT else SP_XONXOFF_DISABLED)
        else c.xon_xoff) ∧
      c2.rts = (if f ≤ SP_FLOWCONTROL_DTRDSR then
          (if f = SP_FLOWCONTROL_RTSCTS then SP_RTS_FLOW_CONTROL
           else if c.rts = SP_RTS_FLOW_CONTROL then SP_RTS_ON else c.rts)
        else c.rts) ∧
      c2.cts = (if f ≤ SP_FLOWCONTROL_DTRDSR then
          (if f = SP_FLOWCONTROL_RTSCTS then SP_CTS_FLOW_CONTROL else SP_CTS_IGNORE)
        else c.cts) ∧
      c2.dtr = (if f ≤ SP_FLOWCONTROL_DTRDSR then
          (if f = SP_FLOWCONTROL_DTRDSR then SP_DTR_FLOW_CONTROL
           else if c.dtr = SP_DTR_FLOW_CONTROL then SP_DTR_ON else c.dtr)
        else c.dtr) ∧
      c2.dsr = (if f ≤ SP_FLOWCONTROL_DTRDSR then
          (if f = SP_FLOWCONTROL_DTRDSR then SP_DSR_FLOW_CONTROL else SP_DSR_IGNORE)
        else c.dsr) ∧
      (c2.rts = SP_RTS_FLOW_CONTROL ↔
        f = SP_FLOWCONTROL_RTSCTS ∨
          (SP_FLOWCONTROL_DTRDSR < f ∧ c.rts = SP_RTS_FLOW_CONTROL)) ∧
      (c2.dtr = SP_DTR_FLOW_CONTROL ↔
        f = SP_FLOWCONTROL_DTRDSR ∨
          (SP_FLOWCONTROL_DTRDSR < f ∧ c.dtr = SP_DTR_FLOW_CONTROL)) := by
  refine ⟨rfl, ?_⟩
  by_cases hf : f ≤ SP_FLOWCONTROL_DTRDSR
  · have hf3 : f ≤ 3 := hf
    have hng : ¬ f > SP_FLOWCONTROL_DTRDSR := by
      simp only [SP_FLOWCONTROL_DTRDSR] at hf ⊢
      omega
    unfold sp_set_config_flowcontrol
    simp only [if_neg hng, if_pos hf]
    by_cases hr : c.rts = SP_RTS_FLOW_CONTROL <;> by_cases hd : c.dtr = SP_DTR_FLOW_CONTROL <;>
      interval_cases f <;>
      simp [hr, hd, SP_FLOWCONTROL_XONXOFF, SP_FLOWCONTROL_RTSCTS, SP_FLOWCONTROL_DTRDSR,
        SP_RTS_ON, SP_RTS_FLOW_CONTROL, SP_DTR_ON, SP_DTR_FLOW_CONTROL] <;>
      simp_all [SP_RTS_FLOW_CONTROL, SP_DTR_FLOW_CONTROL]
  · have hg : f > SP_FLOWCONTROL_DTRDSR := by omega
    refine ⟨c, ?_⟩
    unfold sp_set_config_flowcontrol
    simp only [if_pos hg, if_neg hf]
    have h2 : f ≠ SP_FLOWCONTROL_RTSCTS := by
      simp only [SP_FLOWCONTROL_DTRDSR, SP_FLOWCONTROL_RTSCTS] at hg ⊢
      omega
    have h3 : f ≠ SP_FLOWCONTROL_DTRDSR := by omega
    simp [h2, h3, hg]

end serialport

/-! ## The driver scan of `Configuring`, entry by entry -/

namespace USBHost

section ScanProofs

variable {W : Type}

theorem firstPassResults_append (a b : List Event) :
    firstPassResults (a ++ b) = firstPassResults a ++ firstPassResults b := by
  induction a with
  | nil => rfl
  | cons ev rest ih =>
    cases ev with
    | call e r => simpa [firstPassResults] using ih
    | AttemptConfig d p q l => simpa [firstPassResults] using ih
    | DefaultAddressing p q l => simpa [firstPassResults] using ih
    | attempted n d r =>
      by_cases h : n = 1 <;> simp [firstPassResults, h, ih]

theorem secondPassResults_append (a b : List Event) :
    secondPassResults (a ++ b) = secondPassResults a ++ secondPassResults b := by
  induction a with
  | nil => rfl
  | cons ev rest ih =>
    cases ev with
    | call e r => simpa [secondPassResults] using ih
    | AttemptConfig d p q l => simpa [secondPassResults] using ih
    | DefaultAddressing p q l => simpa [secondPassResults] using ih
    | attempted n d r =>
      by_cases h : n = 2 <;> simp [secondPassResults, h, ih]

theorem firstPassResults_of_calls (l : List Event) (h : ∀ ev ∈ l, ev.isCall = true) :
    firstPassResults l = [] := by
  induction l with
  | nil => rfl
  | cons ev rest ih =>
    have hev := h ev (List.mem_cons_self _ _)
    have hrest := ih (fun e he => h e (List.mem_cons_of_mem _ he))
    cases ev with
    | call e r => simpa [firstPassResults] using hrest
    | AttemptConfig d p q l => simp [Event.isCall] at hev
    | DefaultAddressing p q l => simp [Event.isCall] at hev
    | attempted n d r => simp [Event.isCall] at hev

theorem secondPassResults_of_calls (l : List Event) (h : ∀ ev ∈ l, ev.isCall = true) :
    secondPassResults l = [] := by
  induction l with
  | nil => rfl
  | cons ev rest ih =>
    have hev := h ev (List.mem_cons_self _ _)
    have hrest := ih (fun e he => h e (List.mem_cons_of_mem _ he))
    cases ev with
    | call e r => simpa [secondPassResults] using hrest
    | AttemptConfig d p q l => simp [Event.isCall] at hev
    | DefaultAddressing p q l => simp [Event.isCall] at hev
    | attempted n d r => simp [Event.isCall] at hev

theorem Event.isCall_of_byAttemptConfig (ev : Event) (h : ev.byAttemptConfig = true) :
    ev.isCall = true := by
  cases ev with
  | call e r => rfl
  | AttemptConfig d p q l => simp [Event.byAttemptConfig] at h
  | DefaultAddressing p q l => simp [Event.byAttemptConfig] at h
  | attempted n d r => simp [Event.byAttemptConfig] at h

theorem AttemptConfig.reset_footprint (H : Host W) (parent port : Nat) (s : Sys W) :
    s.extendsWith Event.byAttemptConfig (AttemptConfig.reset H parent port s) := by
  unfold AttemptConfig.reset
  split
  · exact Sys.extendsWith_trans (Sys.extendsWith_call _ H _ s (by rfl))
      (Sys.extendsWith_call _ H _ _ (by rfl))
  · exact Sys.extendsWith_call _ H _ s rfl

theorem AttemptConfig.initStep_footprint (H : Host W) (driver parent port lowspeed : Nat)
    (retry : Option (Sys W → Nat × Sys W))
    (hretry : ∀ k, retry = some k →
      ∀ s : Sys W, s.extendsWith Event.byAttemptConfig (k s).2)
    (s : Sys W) :
    s.extendsWith Event.byAttemptConfig
      (AttemptConfig.initStep H driver parent port lowspeed retry s).2 := by
  have hinit : s.extendsWith Event.byAttemptConfig
      (H.call (.Init driver parent port lowspeed) s).2 := Sys.extendsWith_call _ H _ s rfl
  unfold AttemptConfig.initStep
  cases retry with
  | none =>
    simp only []
    split
    · exact Sys.extendsWith_trans hinit (AttemptConfig.reset_footprint H parent port _)
    · exact hinit
  | some k =>
    simp only []
    split
    · exact Sys.extendsWith_trans hinit
        (Sys.extendsWith_trans (Sys.extendsWith_call _ H _ _ (by rfl)) (hretry k rfl _))
    · exact hinit

theorem AttemptConfig.body_footprint (H : Host W) (c : Defs)
    (driver parent port lowspeed : Nat) (retry : Option (Sys W → Nat × Sys W))
    (hretry : ∀ k, retry = some k →
      ∀ s : Sys W, s.extendsWith Event.byAttemptConfig (k s).2)
    (s : Sys W) :
    s.extendsWith Event.byAttemptConfig
      (AttemptConfig.body H c driver parent port lowspeed retry s).2 := by
  have hinit : ∀ t : Sys W, t.extendsWith Event.byAttemptConfig
      (AttemptConfig.initStep H driver parent port lowspeed retry t).2 :=
    AttemptConfig.initStep_footprint H driver parent port lowspeed retry hretry
  have hcd : s.extendsWith Event.byAttemptConfig
      (H.call (.ConfigureDevice driver parent port lowspeed) s).2 :=
    Sys.extendsWith_call _ H _ s rfl
  unfold AttemptConfig.body
  simp only []
  split
  · exact Sys.extendsWith_trans hcd
      (Sys.extendsWith_trans (AttemptConfig.reset_footprint H parent port _) (hinit _))
  · cases retry with
    | none =>
      simp only []
      split
      · exact hcd
      · exact Sys.extendsWith_trans hcd (hinit _)
    | some k =>
      simp only []
      split
      · exact Sys.extendsWith_trans hcd
          (Sys.extendsWith_trans (Sys.extendsWith_call _ H _ _ (by rfl)) (hretry k rfl _))
      · exact Sys.extendsWith_trans hcd (hinit _)

theorem AttemptConfig.again_footprint (H : Host W) (c : Defs)
    (driver parent port lowspeed : Nat) :
    ∀ (left : Nat) (s : Sys W),
      s.extendsWith Event.byAttemptConfig
        (AttemptConfig.again H c driver parent port lowspeed left s).2 := by
  intro left
  induction left with
  | zero =>
    intro s
    exact AttemptConfig.body_footprint H c driver parent port lowspeed none
      (fun k hk => by cases hk) s
  | succ n ih =>
    intro s
    exact AttemptConfig.body_footprint H c driver parent port lowspeed _
      (fun k hk => by cases hk; exact ih) s

/-- `AttemptConfig` adds its mark and then calls of its own kind only. -/
theorem AttemptConfig_footprint (H : Host W) (c : Defs) (driver parent port lowspeed : Nat)
    (s : Sys W) :
    ∃ ext, (AttemptConfig H c driver parent port lowspeed s).2.trace
        = s.trace ++ Event.AttemptConfig driver parent port lowspeed :: ext ∧
      ∀ ev ∈ ext, ev.byAttemptConfig = true := by
  obtain ⟨ext, h, hc⟩ := AttemptConfig.again_footprint H c driver parent port lowspeed 3
    (s.mark (.AttemptConfig driver parent port lowspeed))
  exact ⟨ext, by rw [AttemptConfig, h]; simp [Sys.mark], hc⟩

/-- `DefaultAddressing` adds its mark and then calls of its own kind only. -/
theorem DefaultAddressing_footprint (H : Host W) (c : Defs) (parent port lowspeed : Nat)
    (s : Sys W) :
    ∃ ext, (DefaultAddressing H c parent port lowspeed s).2.trace
        = s.trace ++ Event.DefaultAddressing parent port lowspeed :: ext ∧
      ∀ ev ∈ ext, ev.byDefaultAddressing = true := by
  have key : (s.mark (.DefaultAddressing parent port lowspeed)).extendsWith
      Event.byDefaultAddressing (DefaultAddressing H c parent port lowspeed s).2 := by
    unfold DefaultAddressing setAddr
    simp only []
    split_ifs <;>
      repeat (first
        | exact Sys.extendsWith_call _ H _ _ rfl
        | refine Sys.extendsWith_trans ?_ (Sys.extendsWith_call _ H _ _ (by rfl)))
  obtain ⟨ext, h, hx⟩ := key
  exact ⟨ext, by rw [h]; simp [Sys.mark], hx⟩

end ScanProofs

end USBHost

namespace USBHost

section PassProofs

variable {W : Type}

/-- The two questions of `Configuring.matches`, with their answers. -/
theorem Configuring.matches_trace (H : Host W) (i vid pid klass : Nat) (s : Sys W) :
    ∃ extm, (Configuring.matches H i vid pid klass s).2.trace = s.trace ++ extm ∧
      (((Configuring.matches H i vid pid klass s).1 = true ∧
          ∃ v, v ≠ 0 ∧ (extm = [Event.call (.VIDPIDOK i vid pid) v] ∨
            extm = [Event.call (.VIDPIDOK i vid pid) 0, Event.call (.DEVCLASSOK i klass) v])) ∨
        ((Configuring.matches H i vid pid klass s).1 = false ∧
          extm = [Event.call (.VIDPIDOK i vid pid) 0, Event.call (.DEVCLASSOK i klass) 0])) := by
  unfold Configuring.matches
  simp only []
  by_cases hv : (H.call (.VIDPIDOK i vid pid) s).1 ≠ 0
  · rw [if_pos hv]
    exact ⟨_, Host.call_trace H _ s, Or.inl ⟨rfl, _, hv, Or.inl rfl⟩⟩
  · rw [if_neg hv]
    have hv0 : (H.run (.VIDPIDOK i vid pid) s.world).1 = 0 := by
      simpa [Host.call] using hv
    by_cases hk : (H.call (.DEVCLASSOK i klass) (H.call (.VIDPIDOK i vid pid) s).2).1 ≠ 0
    · refine ⟨[Event.call (.VIDPIDOK i vid pid) 0, Event.call (.DEVCLASSOK i klass)
          (H.call (.DEVCLASSOK i klass) (H.call (.VIDPIDOK i vid pid) s).2).1], ?_,
        Or.inl ⟨by simpa using hk, _, hk, Or.inr rfl⟩⟩
      rw [Host.call_trace, Host.call_trace, hv0]
      simp [Host.call]
    · have hk0 : (H.call (.DEVCLASSOK i klass) (H.call (.VIDPIDOK i vid pid) s).2).1 = 0 := by
        simpa using hk
      refine ⟨[Event.call (.VIDPIDOK i vid pid) 0, Event.call (.DEVCLASSOK i klass) 0], ?_,
        Or.inr ⟨by simpa using hk, rfl⟩⟩
      rw [Host.call_trace, Host.call_trace, hv0]
      have : (H.run (.DEVCLASSOK i klass) (H.call (.VIDPIDOK i vid pid) s).2.world).1 = 0 := hk0
      rw [this]
      simp

theorem FirstPassFacts_nil (H : Host W) (vid pid klass : Nat) :
    FirstPassFacts H vid pid klass [] := by
  refine ⟨by simp, rfl, rfl, by simp [attempts], by simp⟩

theorem FirstPassFacts_append {H : Host W} {vid pid klass : Nat} {a b : List Event}
    (ha : FirstPassFacts H vid pid klass a) (hb : FirstPassFacts H vid pid klass b) :
    FirstPassFacts H vid pid klass (a ++ b) := by
  obtain ⟨a1, a2, a3, a4, a5⟩ := ha
  obtain ⟨b1, b2, b3, b4, b5⟩ := hb
  refine ⟨?_, ?_, ?_, ?_, ?_⟩
  · intro ev hev
    rcases List.mem_append.mp hev with h | h
    · exact a1 ev h
    · exact b1 ev h
  · rw [secondPassResults_append, a2, b2]; rfl
  · rw [attempts_append, firstPassResults_append, List.map_append, a3, b3]
  · intro d hd
    rw [attempts_append] at hd
    rcases List.mem_append.mp hd with h | h
    · obtain ⟨h1, h2, v, hv, h3⟩ := a4 d h
      exact ⟨h1, List.mem_append_left _ h2, v, hv,
        h3.imp (List.mem_append_left _) (List.mem_append_left _)⟩
    · obtain ⟨h1, h2, v, hv, h3⟩ := b4 d h
      exact ⟨h1, List.mem_append_right _ h2, v, hv,
        h3.imp (List.mem_append_right _) (List.mem_append_right _)⟩
  · intro d v hv h
    rw [attempts_append]
    rcases h with h | h
    · rcases List.mem_append.mp h with h | h
      · exact List.mem_append_left _ (a5 d v hv (Or.inl h))
      · exact List.mem_append_right _ (b5 d v hv (Or.inl h))
    · rcases List.mem_append.mp h with h | h
      · exact List.mem_append_left _ (a5 d v hv (Or.inr h))
      · exact List.mem_append_right _ (b5 d v hv (Or.inr h))

/-- The stretch added for a driver that owns an address. -/
theorem FirstPassFacts_owned (H : Host W) (vid pid klass i a : Nat) :
    FirstPassFacts H vid pid klass [Event.call (.GetAddress i) a] := by
  refine ⟨by simp [Event.inScan], rfl, rfl, by simp [attempts], by simp⟩

/-- The stretch added for a driver neither of whose predicates is true. -/
theorem FirstPassFacts_unmatched (H : Host W) (vid pid klass i a : Nat) :
    FirstPassFacts H vid pid klass
      (Event.call (.GetAddress i) a ::
        [Event.call (.VIDPIDOK i vid pid) 0, Event.call (.DEVCLASSOK i klass) 0]) := by
  refine ⟨by simp [Event.inScan], rfl, rfl, by simp [attempts], ?_⟩
  intro d v hv h
  simp at h
  omega

theorem Event.inScan_of_byAttemptConfig (ev : Event) (h : ev.byAttemptConfig = true) :
    ev.inScan = true := by
  cases ev with
  | call e r => cases e <;> first | rfl | (simp [Event.byAttemptConfig] at h)
  | AttemptConfig d p q l => rfl
  | DefaultAddressing p q l => simp [Event.byAttemptConfig] at h
  | attempted n d r => rfl

/-- What `AttemptConfig` adds after its mark holds no entry into `AttemptConfig`,
no result and none of the three questions asked of a driver. -/
theorem byAttemptConfig_observed (exta : List Event)
    (ha : ∀ ev ∈ exta, ev.byAttemptConfig = true) :
    attempts exta = [] ∧ firstPassResults exta = [] ∧ secondPassResults exta = [] ∧
      (∀ d a, Event.call (.GetAddress d) a ∉ exta) ∧
      (∀ d vid pid v, Event.call (.VIDPIDOK d vid pid) v ∉ exta) ∧
      (∀ d klass v, Event.call (.DEVCLASSOK d klass) v ∉ exta) := by
  have hcalls : ∀ ev ∈ exta, ev.isCall = true :=
    fun ev hev => Event.isCall_of_byAttemptConfig ev (ha ev hev)
  refine ⟨attempts_of_calls exta hcalls, firstPassResults_of_calls exta hcalls,
    secondPassResults_of_calls exta hcalls, ?_, ?_, ?_⟩
  · intro d a hmem
    have := ha _ hmem
    simp [Event.byAttemptConfig] at this
  · intro d vid pid v hmem
    have := ha _ hmem
    simp [Event.byAttemptConfig] at this
  · intro d klass v hmem
    have := ha _ hmem
    simp [Event.byAttemptConfig] at this

/-- The stretch added for a driver that is attempted in the first loop. -/
theorem FirstPassFacts_attempt (H : Host W) (vid pid klass i r parent port lowspeed : Nat)
    (extm exta : List Event) (hreg : H.devConfig i = true)
    (hm : ∃ v, v ≠ 0 ∧ (extm = [Event.call (.VIDPIDOK i vid pid) v] ∨
      extm = [Event.call (.VIDPIDOK i vid pid) 0, Event.call (.DEVCLASSOK i klass) v]))
    (ha : ∀ ev ∈ exta, ev.byAttemptConfig = true) :
    FirstPassFacts H vid pid klass
        (Event.call (.GetAddress i) 0 ::
          (extm ++ Event.AttemptConfig i parent port lowspeed ::
            (exta ++ [Event.attempted 1 i r]))) ∧
      firstPassResults
        (Event.call (.GetAddress i) 0 ::
          (extm ++ Event.AttemptConfig i parent port lowspeed ::
            (exta ++ [Event.attempted 1 i r]))) = [(i, r)] := by
  obtain ⟨h1, h2, h3, h4, h5, h6⟩ := byAttemptConfig_observed exta ha
  have hscan : ∀ ev ∈ exta, ev.inScan = true :=
    fun ev hev => Event.inScan_of_byAttemptConfig ev (ha ev hev)
  obtain ⟨v, hv, hm | hm⟩ := hm
  · subst hm
    refine ⟨⟨?_, ?_, ?_, ?_, ?_⟩, ?_⟩
    · intro ev hev
      simp only [List.mem_cons, List.mem_append, List.mem_singleton, List.cons_append,
        List.nil_append, List.not_mem_nil, or_false] at hev
      rcases hev with h | h | h | h | h
      · rw [h]; rfl
      · rw [h]; rfl
      · rw [h]; rfl
      · exact hscan ev h
      · rw [h]; rfl
    · simp [secondPassResults, secondPassResults_append, h3]
    · simp [attempts, attempts_append, firstPassResults, firstPassResults_append, h1, h2]
    · intro d hd
      simp [attempts, attempts_append, h1] at hd
      subst hd
      exact ⟨hreg, by simp, v, hv, Or.inl (by simp)⟩
    · intro d w hw hmem
      simp [attempts, attempts_append, h1]
      rcases hmem with hmem | hmem
      · simp [h5] at hmem
        exact hmem.1
      · simp [h6] at hmem
    · simp [firstPassResults, firstPassResults_append, h2]
  · subst hm
    refine ⟨⟨?_, ?_, ?_, ?_, ?_⟩, ?_⟩
    · intro ev hev
      simp only [List.mem_cons, List.mem_append, List.mem_singleton, List.cons_append,
        List.nil_append, List.not_mem_nil, or_false] at hev
      rcases hev with h | h | h | h | h | h
      · rw [h]; rfl
      · rw [h]; rfl
      · rw [h]; rfl
      · rw [h]; rfl
      · exact hscan ev h
      · rw [h]; rfl
    · simp [secondPassResults, secondPassResults_append, h3]
    · simp [attempts, attempts_append, firstPassResults, firstPassResults_append, h1, h2]
    · intro d hd
      simp [attempts, attempts_append, h1] at hd
      subst hd
      exact ⟨hreg, by simp, v, hv, Or.inr (by simp)⟩
    · intro d w hw hmem
      simp [attempts, attempts_append, h1]
      rcases hmem with hmem | hmem
      · simp [h5] at hmem
        omega
      · simp [h6] at hmem
        exact hmem.1
    · simp [firstPassResults, firstPassResults_append, h2]

/-- The first loop of `Configuring`, started at slot `i` with `left` slots to go:
what it adds to the trace, and how it ends. -/
theorem Configuring.pass1_run (H : Host W) (c : Defs)
    (vid pid klass parent port lowspeed : Nat) :
    ∀ (left i rcode : Nat) (s : Sys W), ∃ ext,
      (Configuring.pass1 H c vid pid klass parent port lowspeed left i rcode s).2.2.trace
        = s.trace ++ ext ∧
      FirstPassFacts H vid pid klass ext ∧
      (∀ p ∈ firstPassResults ext, i ≤ p.1 ∧ p.1 < i + left) ∧
      ((firstPassResults ext).map Prod.fst).Pairwise (· < ·) ∧
      (((Configuring.pass1 H c vid pid klass parent port lowspeed left i rcode s).1 = i + left ∧
          ∀ p ∈ firstPassResults ext, p.2 = c.USB_DEV_CONFIG_ERROR_DEVICE_NOT_SUPPORTED) ∨
        ((Configuring.pass1 H c vid pid klass parent port lowspeed left i rcode s).1 < i + left ∧
          (Configuring.pass1 H c vid pid klass parent port lowspeed left i rcode s).2.1
            ≠ c.USB_DEV_CONFIG_ERROR_DEVICE_NOT_SUPPORTED ∧
          ∃ mid, ext = mid ++
              [Event.attempted 1
                (Configuring.pass1 H c vid pid klass parent port lowspeed left i rcode s).1
                (Configuring.pass1 H c vid pid klass parent port lowspeed left i rcode s).2.1] ∧
            ∀ p ∈ firstPassResults mid,
              p.2 = c.USB_DEV_CONFIG_ERROR_DEVICE_NOT_SUPPORTED)) := by
  intro left
  induction left with
  | zero =>
    intro i rcode s
    exact ⟨[], by simp [Configuring.pass1], FirstPassFacts_nil H vid pid klass,
      by simp [firstPassResults], by simp [firstPassResults],
      Or.inl ⟨rfl, by simp [firstPassResults]⟩⟩
  | succ n ih =>
    intro i rcode s
    -- going on with the next slot after a stretch `seg` that holds no claiming result
    have next : ∀ (rc : Nat) (t : Sys W) (seg : List Event), t.trace = s.trace ++ seg →
        FirstPassFacts H vid pid klass seg →
        (firstPassResults seg = [] ∨
          firstPassResults seg = [(i, c.USB_DEV_CONFIG_ERROR_DEVICE_NOT_SUPPORTED)]) →
        ∃ ext,
          (Configuring.pass1 H c vid pid klass parent port lowspeed n (i + 1) rc t).2.2.trace
            = s.trace ++ ext ∧
          FirstPassFacts H vid pid klass ext ∧
          (∀ p ∈ firstPassResults ext, i ≤ p.1 ∧ p.1 < i + (n + 1)) ∧
          ((firstPassResults ext).map Prod.fst).Pairwise (· < ·) ∧
          (((Configuring.pass1 H c vid pid klass parent port lowspeed n (i + 1) rc t).1
                = i + (n + 1) ∧
              ∀ p ∈ firstPassResults ext,
                p.2 = c.USB_DEV_CONFIG_ERROR_DEVICE_NOT_SUPPORTED) ∨
            ((Configuring.pass1 H c vid pid klass parent port lowspeed n (i + 1) rc t).1
                < i + (n + 1) ∧
              (Configuring.pass1 H c vid pid klass parent port lowspeed n (i + 1) rc t).2.1
                ≠ c.USB_DEV_CONFIG_ERROR_DEVICE_NOT_SUPPORTED ∧
              ∃ mid, ext = mid ++
                  [Event.attempted 1
                    (Configuring.pass1 H c vid pid klass parent port lowspeed n (i + 1) rc t).1
                    (Configuring.pass1 H c vid pid klass parent port lowspeed n (i + 1) rc
                      t).2.1] ∧
                ∀ p ∈ firstPassResults mid,
                  p.2 = c.USB_DEV_CONFIG_ERROR_DEVICE_NOT_SUPPORTED)) := by
      intro rc t seg ht hseg hres
      obtain ⟨ext1, h1, hf1, hr1, hp1, hc1⟩ := ih (i + 1) rc t
      have hsegres : ∀ p ∈ firstPassResults seg,
          p.1 = i ∧ p.2 = c.USB_DEV_CONFIG_ERROR_DEVICE_NOT_SUPPORTED := by
        intro p hp
        rcases hres with h | h
        · rw [h] at hp; cases hp
        · rw [h] at hp
          rw [List.mem_singleton.mp hp]
          exact ⟨rfl, rfl⟩
      refine ⟨seg ++ ext1, by rw [h1, ht, List.append_assoc], FirstPassFacts_append hseg hf1, ?_, ?_, ?_⟩
      · intro p hp
        rw [firstPassResults_append] at hp
        rcases List.mem_append.mp hp with h | h
        · have := (hsegres p h).1; omega
        · have := hr1 p h; omega
      · rw [firstPassResults_append, List.map_append, List.pairwise_append]
        refine ⟨?_, hp1, ?_⟩
        · rcases hres with h | h <;> rw [h] <;> simp
        · intro a ha b hb
          obtain ⟨p, hp, rfl⟩ := List.mem_map.mp ha
          obtain ⟨q, hq, rfl⟩ := List.mem_map.mp hb
          have := (hsegres p hp).1
          have := hr1 q hq
          omega
      · rcases hc1 with ⟨hidx, hall⟩ | ⟨hidx, hne, mid, hmid, hall⟩
        · refine Or.inl ⟨by rw [hidx]; omega, ?_⟩
          intro p hp
          rw [firstPassResults_append] at hp
          rcases List.mem_append.mp hp with h | h
          · exact (hsegres p h).2
          · exact hall p h
        · refine Or.inr ⟨by omega, hne, seg ++ mid, by rw [hmid, List.append_assoc], ?_⟩
          intro p hp
          rw [firstPassResults_append] at hp
          rcases List.mem_append.mp hp with h | h
          · exact (hsegres p h).2
          · exact hall p h
    obtain ⟨extm, hmt, hm⟩ :=
      Configuring.matches_trace H i vid pid klass (H.call (.GetAddress i) s).2
    rw [Configuring.pass1]
    simp only []
    split
    · exact next rcode s [] (by simp) (FirstPassFacts_nil H vid pid klass) (Or.inl rfl)
    · rename_i hreg
      split
      · exact next rcode _ [Event.call (.GetAddress i) (H.run (.GetAddress i) s.world).1]
          (Host.call_trace H _ s) (FirstPassFacts_owned H vid pid klass i _) (Or.inl rfl)
      · rename_i ha0
        have ha : (H.run (.GetAddress i) s.world).1 = 0 := by
          simpa [Host.call] using ha0
        have hga : (H.call (.GetAddress i) s).2.trace
            = s.trace ++ [Event.call (.GetAddress i) 0] := by
          rw [Host.call_trace, ha]
        split
        · rename_i hmatch
          rcases hm with ⟨_, hm⟩ | ⟨hfalse, _⟩
          swap
          · rw [hfalse] at hmatch; cases hmatch
          obtain ⟨exta, hat, hfa⟩ := AttemptConfig_footprint H c i parent port lowspeed
            (Configuring.matches H i vid pid klass (H.call (.GetAddress i) s).2).2
          obtain ⟨hfacts, hresults⟩ := FirstPassFacts_attempt H vid pid klass i
            (AttemptConfig H c i parent port lowspeed
              (Configuring.matches H i vid pid klass (H.call (.GetAddress i) s).2).2).1
            parent port lowspeed extm exta (by simpa using hreg) hm hfa
          have htr : ((AttemptConfig H c i parent port lowspeed
                (Configuring.matches H i vid pid klass (H.call (.GetAddress i) s).2).2).2.mark
              (.attempted 1 i (AttemptConfig H c i parent port lowspeed
                (Configuring.matches H i vid pid klass
                  (H.call (.GetAddress i) s).2).2).1)).trace
              = s.trace ++ (Event.call (.GetAddress i) 0 ::
                  (extm ++ Event.AttemptConfig i parent port lowspeed ::
                    (exta ++ [Event.attempted 1 i (AttemptConfig H c i parent port lowspeed
                      (Configuring.matches H i vid pid klass
                        (H.call (.GetAddress i) s).2).2).1]))) := by
            simp only [Sys.mark]
            rw [hat, hmt, hga]
            simp
          split
          · rename_i hne
            refine ⟨_, htr, hfacts, ?_, ?_, Or.inr ⟨by omega, hne,
              Event.call (.GetAddress i) 0 ::
                (extm ++ Event.AttemptConfig i parent port lowspeed :: exta), ?_, ?_⟩⟩
            · intro p hp
              rw [hresults] at hp
              rw [List.mem_singleton.mp hp]
              simp
            · rw [hresults]; simp
            · simp
            · intro p hp
              obtain ⟨h1, h2, _⟩ := byAttemptConfig_observed exta hfa
              obtain ⟨v, _, hm | hm⟩ := hm <;> subst hm <;>
                simp [firstPassResults, firstPassResults_append, h2] at hp
          · rename_i heq
            have heq2 : (AttemptConfig H c i parent port lowspeed
                (Configuring.matches H i vid pid klass (H.call (.GetAddress i) s).2).2).1
                  = c.USB_DEV_CONFIG_ERROR_DEVICE_NOT_SUPPORTED := by
              simpa using heq
            exact next _ _ _ htr hfacts (Or.inr (by rw [hresults, heq2]))
        · rename_i hmatch
          rcases hm with ⟨htrue, _⟩ | ⟨_, hm⟩
          · rw [htrue] at hmatch; exact absurd rfl hmatch
          subst hm
          exact next rcode _ _ (by rw [hmt, hga]; simp)
            (FirstPassFacts_unmatched H vid pid klass i 0) (Or.inl rfl)

end PassProofs

end USBHost

namespace USBHost

section SecondPassProofs

variable {W : Type}

theorem SecondPassFacts_nil (H : Host W) (vid pid klass : Nat) :
    SecondPassFacts H vid pid klass [] := by
  refine ⟨by simp, rfl, rfl, by simp [attempts], by simp⟩

theorem SecondPassFacts_append {H : Host W} {vid pid klass : Nat} {a b : List Event}
    (ha : SecondPassFacts H vid pid klass a) (hb : SecondPassFacts H vid pid klass b) :
    SecondPassFacts H vid pid klass (a ++ b) := by
  obtain ⟨a1, a2, a3, a4, a5⟩ := ha
  obtain ⟨b1, b2, b3, b4, b5⟩ := hb
  refine ⟨?_, ?_, ?_, ?_, ?_⟩
  · intro ev hev
    rcases List.mem_append.mp hev with h | h
    · exact a1 ev h
    · exact b1 ev h
  · rw [firstPassResults_append, a2, b2]; rfl
  · rw [attempts_append, secondPassResults_append, List.map_append, a3, b3]
  · intro d hd
    rw [attempts_append] at hd
    rcases List.mem_append.mp hd with h | h
    · obtain ⟨h1, h2, h3, h4⟩ := a4 d h
      exact ⟨h1, List.mem_append_left _ h2, List.mem_append_left _ h3,
        List.mem_append_left _ h4⟩
    · obtain ⟨h1, h2, h3, h4⟩ := b4 d h
      exact ⟨h1, List.mem_append_right _ h2, List.mem_append_right _ h3,
        List.mem_append_right _ h4⟩
  · intro d h
    rw [attempts_append]
    rcases List.mem_append.mp h with h | h
    · exact List.mem_append_left _ (a5 d h)
    · exact List.mem_append_right _ (b5 d h)

/-- The stretch added in the second loop for a driver that owns an address. -/
theorem SecondPassFacts_owned (H : Host W) (vid pid klass i a : Nat) :
    SecondPassFacts H vid pid klass [Event.call (.GetAddress i) a] := by
  refine ⟨by simp [Event.inScan], rfl, rfl, by simp [attempts], by simp⟩

/-- The stretch added in the second loop for a driver one of whose predicates is
true: the loop goes on to the next slot. -/
theorem SecondPassFacts_matched (H : Host W) (vid pid klass i a : Nat) (extm : List Event)
    (hm : ∃ v, v ≠ 0 ∧ (extm = [Event.call (.VIDPIDOK i vid pid) v] ∨
      extm = [Event.call (.VIDPIDOK i vid pid) 0, Event.call (.DEVCLASSOK i klass) v])) :
    SecondPassFacts H vid pid klass (Event.call (.GetAddress i) a :: extm) ∧
      secondPassResults (Event.call (.GetAddress i) a :: extm) = [] := by
  obtain ⟨v, hv, hm | hm⟩ := hm
  · subst hm
    refine ⟨⟨by simp [Event.inScan], rfl, rfl, by simp [attempts], by simp⟩, rfl⟩
  · subst hm
    refine ⟨⟨by simp [Event.inScan], rfl, rfl, by simp [attempts], ?_⟩, rfl⟩
    intro d h
    simp at h
    omega

/-- The stretch added for a driver that is attempted in the second loop. -/
theorem SecondPassFacts_attempt (H : Host W) (vid pid klass i r parent port lowspeed : Nat)
    (exta : List Event) (hreg : H.devConfig i = true)
    (ha : ∀ ev ∈ exta, ev.byAttemptConfig = true) :
    SecondPassFacts H vid pid klass
        (Event.call (.GetAddress i) 0 ::
          ([Event.call (.VIDPIDOK i vid pid) 0, Event.call (.DEVCLASSOK i klass) 0] ++
            Event.AttemptConfig i parent port lowspeed ::
              (exta ++ [Event.attempted 2 i r]))) ∧
      secondPassResults
        (Event.call (.GetAddress i) 0 ::
          ([Event.call (.VIDPIDOK i vid pid) 0, Event.call (.DEVCLASSOK i klass) 0] ++
            Event.AttemptConfig i parent port lowspeed ::
              (exta ++ [Event.attempted 2 i r]))) = [(i, r)] := by
  obtain ⟨h1, h2, h3, h4, h5, h6⟩ := byAttemptConfig_observed exta ha
  have hscan : ∀ ev ∈ exta, ev.inScan = true :=
    fun ev hev => Event.inScan_of_byAttemptConfig ev (ha ev hev)
  refine ⟨⟨?_, ?_, ?_, ?_, ?_⟩, ?_⟩
  · intro ev hev
    simp only [List.mem_cons, List.mem_append, List.mem_singleton, List.cons_append,
      List.nil_append, List.not_mem_nil, or_false] at hev
    rcases hev with h | h | h | h | h | h
    · rw [h]; rfl
    · rw [h]; rfl
    · rw [h]; rfl
    · rw [h]; rfl
    · exact hscan ev h
    · rw [h]; rfl
  · simp [firstPassResults, firstPassResults_append, h2]
  · simp [attempts, attempts_append, secondPassResults, secondPassResults_append, h1, h3]
  · intro d hd
    simp [attempts, attempts_append, h1] at hd
    subst hd
    exact ⟨hreg, by simp, by simp, by simp⟩
  · intro d hmem
    simp [attempts, attempts_append, h1]
    simp [h6] at hmem
    exact hmem
  · simp [secondPassResults, secondPassResults_append, h3]

/-- The second loop of `Configuring`, started at slot `i` with `left` slots to go:
what it adds to the trace, and how it ends. -/
theorem Configuring.pass2_run (H : Host W) (c : Defs)
    (vid pid klass parent port lowspeed : Nat) :
    ∀ (left i : Nat) (s : Sys W), ∃ ext,
      (Configuring.pass2 H c vid pid klass parent port lowspeed left i s).2.trace
        = s.trace ++ ext ∧
      SecondPassFacts H vid pid klass ext ∧
      (∀ p ∈ secondPassResults ext, i ≤ p.1 ∧ p.1 < i + left) ∧
      ((secondPassResults ext).map Prod.fst).Pairwise (· < ·) ∧
      (((Configuring.pass2 H c vid pid klass parent port lowspeed left i s).1 = none ∧
          ∀ p ∈ secondPassResults ext, p.2 = c.USB_DEV_CONFIG_ERROR_DEVICE_NOT_SUPPORTED ∨
            p.2 = c.USB_ERROR_CLASS_INSTANCE_ALREADY_IN_USE) ∨
        (∃ idx rc,
          (Configuring.pass2 H c vid pid klass parent port lowspeed left i s).1 = some rc ∧
          rc ≠ c.USB_DEV_CONFIG_ERROR_DEVICE_NOT_SUPPORTED ∧
          rc ≠ c.USB_ERROR_CLASS_INSTANCE_ALREADY_IN_USE ∧
          ∃ mid, ext = mid ++ [Event.attempted 2 idx rc] ∧
            ∀ p ∈ secondPassResults mid, p.2 = c.USB_DEV_CONFIG_ERROR_DEVICE_NOT_SUPPORTED ∨
              p.2 = c.USB_ERROR_CLASS_INSTANCE_ALREADY_IN_USE)) := by
  intro left
  induction left with
  | zero =>
    intro i s
    exact ⟨[], by simp [Configuring.pass2], SecondPassFacts_nil H vid pid klass,
      by simp [secondPassResults], by simp [secondPassResults],
      Or.inl ⟨rfl, by simp [secondPassResults]⟩⟩
  | succ n ih =>
    intro i s
    -- going on with the next slot after a stretch `seg` that holds no final result
    have next : ∀ (t : Sys W) (seg : List Event), t.trace = s.trace ++ seg →
        SecondPassFacts H vid pid klass seg →
        (secondPassResults seg = [] ∨
          ∃ r, (r = c.USB_DEV_CONFIG_ERROR_DEVICE_NOT_SUPPORTED ∨
              r = c.USB_ERROR_CLASS_INSTANCE_ALREADY_IN_USE) ∧
            secondPassResults seg = [(i, r)]) →
        ∃ ext,
          (Configuring.pass2 H c vid pid klass parent port lowspeed n (i + 1) t).2.trace
            = s.trace ++ ext ∧
          SecondPassFacts H vid pid klass ext ∧
          (∀ p ∈ secondPassResults ext, i ≤ p.1 ∧ p.1 < i + (n + 1)) ∧
          ((secondPassResults ext).map Prod.fst).Pairwise (· < ·) ∧
          (((Configuring.pass2 H c vid pid klass parent port lowspeed n (i + 1) t).1 = none ∧
              ∀ p ∈ secondPassResults ext,
                p.2 = c.USB_DEV_CONFIG_ERROR_DEVICE_NOT_SUPPORTED ∨
                  p.2 = c.USB_ERROR_CLASS_INSTANCE_ALREADY_IN_USE) ∨
            (∃ idx rc,
              (Configuring.pass2 H c vid pid klass parent port lowspeed n (i + 1) t).1
                = some rc ∧
              rc ≠ c.USB_DEV_CONFIG_ERROR_DEVICE_NOT_SUPPORTED ∧
              rc ≠ c.USB_ERROR_CLASS_INSTANCE_ALREADY_IN_USE ∧
              ∃ mid, ext = mid ++ [Event.attempted 2 idx rc] ∧
                ∀ p ∈ secondPassResults mid,
                  p.2 = c.USB_DEV_CONFIG_ERROR_DEVICE_NOT_SUPPORTED ∨
                    p.2 = c.USB_ERROR_CLASS_INSTANCE_ALREADY_IN_USE)) := by
      intro t seg ht hseg hres
      obtain ⟨ext1, h1, hf1, hr1, hp1, hc1⟩ := ih (i + 1) t
      have hsegres : ∀ p ∈ secondPassResults seg,
          p.1 = i ∧ (p.2 = c.USB_DEV_CONFIG_ERROR_DEVICE_NOT_SUPPORTED ∨
            p.2 = c.USB_ERROR_CLASS_INSTANCE_ALREADY_IN_USE) := by
        intro p hp
        rcases hres with h | ⟨r, hr, h⟩
        · rw [h] at hp; cases hp
        · rw [h] at hp
          rw [List.mem_singleton.mp hp]
          exact ⟨rfl, hr⟩
      refine ⟨seg ++ ext1, by rw [h1, ht, List.append_assoc], SecondPassFacts_append hseg hf1, ?_, ?_, ?_⟩
      · intro p hp
        rw [secondPassResults_append] at hp
        rcases List.mem_append.mp hp with h | h
        · have := (hsegres p h).1; omega
        · have := hr1 p h; omega
      · rw [secondPassResults_append, List.map_append, List.pairwise_append]
        refine ⟨?_, hp1, ?_⟩
        · rcases hres with h | ⟨r, _, h⟩ <;> rw [h] <;> simp
        · intro a ha b hb
          obtain ⟨p, hp, rfl⟩ := List.mem_map.mp ha
          obtain ⟨q, hq, rfl⟩ := List.mem_map.mp hb
          have := (hsegres p hp).1
          have := hr1 q hq
          omega
      · rcases hc1 with ⟨hnone, hall⟩ | ⟨idx, rc, hsome, hne1, hne2, mid, hmid, hall⟩
        · refine Or.inl ⟨hnone, ?_⟩
          intro p hp
          rw [secondPassResults_append] at hp
          rcases List.mem_append.mp hp with h | h
          · exact (hsegres p h).2
          · exact hall p h
        · refine Or.inr ⟨idx, rc, hsome, hne1, hne2, seg ++ mid,
            by rw [hmid, List.append_assoc], ?_⟩
          intro p hp
          rw [secondPassResults_append] at hp
          rcases List.mem_append.mp hp with h | h
          · exact (hsegres p h).2
          · exact hall p h
    obtain ⟨extm, hmt, hm⟩ :=
      Configuring.matches_trace H i vid pid klass (H.call (.GetAddress i) s).2
    rw [Configuring.pass2]
    simp only []
    split
    · exact next s [] (by simp) (SecondPassFacts_nil H vid pid klass) (Or.inl rfl)
    · rename_i hreg
      split
      · exact next _ [Event.call (.GetAddress i) (H.run (.GetAddress i) s.world).1]
          (Host.call_trace H _ s) (SecondPassFacts_owned H vid pid klass i _) (Or.inl rfl)
      · rename_i ha0
        have ha : (H.run (.GetAddress i) s.world).1 = 0 := by
          simpa [Host.call] using ha0
        have hga : (H.call (.GetAddress i) s).2.trace
            = s.trace ++ [Event.call (.GetAddress i) 0] := by
          rw [Host.call_trace, ha]
        split
        · rename_i hmatch
          rcases hm with ⟨_, hm⟩ | ⟨hfalse, _⟩
          swap
          · rw [hfalse] at hmatch; cases hmatch
          obtain ⟨hfacts, hresults⟩ := SecondPassFacts_matched H vid pid klass i 0 extm hm
          exact next _ _ (by rw [hmt, hga]; simp) hfacts (Or.inl hresults)
        · rename_i hmatch
          rcases hm with ⟨htrue, _⟩ | ⟨_, hm⟩
          · rw [htrue] at hmatch; exact absurd rfl hmatch
          subst hm
          obtain ⟨exta, hat, hfa⟩ := AttemptConfig_footprint H c i parent port lowspeed
            (Configuring.matches H i vid pid klass (H.call (.GetAddress i) s).2).2
          obtain ⟨hfacts, hresults⟩ := SecondPassFacts_attempt H vid pid klass i
            (AttemptConfig H c i parent port lowspeed
              (Configuring.matches H i vid pid klass (H.call (.GetAddress i) s).2).2).1
            parent port lowspeed exta (by simpa using hreg) hfa
          have htr : ((AttemptConfig H c i parent port lowspeed
                (Configuring.matches H i vid pid klass (H.call (.GetAddress i) s).2).2).2.mark
              (.attempted 2 i (AttemptConfig H c i parent port lowspeed
                (Configuring.matches H i vid pid klass
                  (H.call (.GetAddress i) s).2).2).1)).trace
              = s.trace ++ (Event.call (.GetAddress i) 0 ::
                  ([Event.call (.VIDPIDOK i vid pid) 0, Event.call (.DEVCLASSOK i klass) 0] ++
                    Event.AttemptConfig i parent port lowspeed ::
                    (exta ++ [Event.attempted 2 i (AttemptConfig H c i parent port lowspeed
                      (Configuring.matches H i vid pid klass
                        (H.call (.GetAddress i) s).2).2).1]))) := by
            simp only [Sys.mark]
            rw [hat, hmt, hga]
            simp
          split
          · rename_i hne
            refine ⟨_, htr, hfacts, ?_, ?_, Or.inr ⟨i, _, rfl, fun h => hne (Or.inl h),
              fun h => hne (Or.inr h),
              Event.call (.GetAddress i) 0 ::
                ([Event.call (.VIDPIDOK i vid pid) 0, Event.call (.DEVCLASSOK i klass) 0] ++
                  Event.AttemptConfig i parent port lowspeed :: exta), ?_, ?_⟩⟩
            · intro p hp
              rw [hresults] at hp
              rw [List.mem_singleton.mp hp]
              simp
            · rw [hresults]; simp
            · simp
            · intro p hp
              obtain ⟨h1, h2, h3, _⟩ := byAttemptConfig_observed exta hfa
              simp [secondPassResults, secondPassResults_append, h3] at hp
          · rename_i heq
            have heq2 : (AttemptConfig H c i parent port lowspeed
                (Configuring.matches H i vid pid klass (H.call (.GetAddress i) s).2).2).1
                  = c.USB_DEV_CONFIG_ERROR_DEVICE_NOT_SUPPORTED ∨
                (AttemptConfig H c i parent port lowspeed
                (Configuring.matches H i vid pid klass (H.call (.GetAddress i) s).2).2).1
                  = c.USB_ERROR_CLASS_INSTANCE_ALREADY_IN_USE :=
              Classical.not_not.mp heq
            exact next _ _ htr hfacts (Or.inr ⟨_, heq2, hresults⟩)

end SecondPassProofs

end USBHost

namespace USBHost

section DispatchProofs

variable {W : Type}

/-- The part of `Configuring` that follows a successful read of the device
descriptor: the three fields read, the stretch of the first loop, and then
either nothing (a driver of the first loop took the device or failed on it),
or the stretch of the second loop, followed by `DefaultAddressing` when that
loop runs to its end. -/
theorem Configuring.dispatch_run (H : Host W) (c : Defs) (parent port lowspeed : Nat)
    (s : Sys W) :
    ∃ vid pid klass ext1 tail,
      (Configuring.dispatch H c parent port lowspeed s).2.trace
        = s.trace ++ ([Event.call .udd_idVendor vid, Event.call .udd_idProduct pid,
            Event.call .udd_bDeviceClass klass] ++ (ext1 ++ tail)) ∧
      FirstPassFacts H vid pid klass ext1 ∧
      (∀ p ∈ firstPassResults ext1, p.1 < c.USB_NUMDEVICES) ∧
      ((firstPassResults ext1).map Prod.fst).Pairwise (· < ·) ∧
      ((tail = [] ∧
          (Configuring.dispatch H c parent port lowspeed s).1
            ≠ c.USB_DEV_CONFIG_ERROR_DEVICE_NOT_SUPPORTED ∧
          ∃ idx mid, ext1 = mid ++
              [Event.attempted 1 idx (Configuring.dispatch H c parent port lowspeed s).1] ∧
            ∀ p ∈ firstPassResults mid, p.2 = c.USB_DEV_CONFIG_ERROR_DEVICE_NOT_SUPPORTED) ∨
        ((∀ p ∈ firstPassResults ext1, p.2 = c.USB_DEV_CONFIG_ERROR_DEVICE_NOT_SUPPORTED) ∧
          ∃ ext2 extd, tail = ext2 ++ extd ∧
            SecondPassFacts H vid pid klass ext2 ∧
            (∀ p ∈ secondPassResults ext2, p.1 < c.USB_NUMDEVICES) ∧
            ((secondPassResults ext2).map Prod.fst).Pairwise (· < ·) ∧
            ((extd = [] ∧
                (Configuring.dispatch H c parent port lowspeed s).1
                  ≠ c.USB_DEV_CONFIG_ERROR_DEVICE_NOT_SUPPORTED ∧
                (Configuring.dispatch H c parent port lowspeed s).1
                  ≠ c.USB_ERROR_CLASS_INSTANCE_ALREADY_IN_USE ∧
                ∃ idx mid, ext2 = mid ++
                    [Event.attempted 2 idx
                      (Configuring.dispatch H c parent port lowspeed s).1] ∧
                  ∀ p ∈ secondPassResults mid,
                    p.2 = c.USB_DEV_CONFIG_ERROR_DEVICE_NOT_SUPPORTED ∨
                      p.2 = c.USB_ERROR_CLASS_INSTANCE_ALREADY_IN_USE) ∨
              ((∀ p ∈ secondPassResults ext2,
                  p.2 = c.USB_DEV_CONFIG_ERROR_DEVICE_NOT_SUPPORTED ∨
                    p.2 = c.USB_ERROR_CLASS_INSTANCE_ALREADY_IN_USE) ∧
                ∃ rest, extd = Event.DefaultAddressing parent port lowspeed :: rest ∧
                  ∀ ev ∈ rest, ev.byDefaultAddressing = true)))) := by
  have hpre : (H.call .udd_bDeviceClass
        (H.call .udd_idProduct (H.call .udd_idVendor s).2).2).2.trace
      = s.trace ++ [Event.call .udd_idVendor (H.call .udd_idVendor s).1,
          Event.call .udd_idProduct (H.call .udd_idProduct (H.call .udd_idVendor s).2).1,
          Event.call .udd_bDeviceClass (H.call .udd_bDeviceClass
            (H.call .udd_idProduct (H.call .udd_idVendor s).2).2).1] := by
    simp [Host.call]
  unfold Configuring.dispatch
  simp only []
  generalize H.call .udd_idVendor s = c1 at hpre ⊢
  generalize H.call .udd_idProduct c1.2 = c2 at hpre ⊢
  generalize H.call .udd_bDeviceClass c2.2 = c3 at hpre ⊢
  obtain ⟨ext1, h1, hf1, hr1, hp1, hc1⟩ := Configuring.pass1_run H c c1.1 c2.1 c3.1
    parent port lowspeed c.USB_NUMDEVICES 0 0 c3.2
  generalize Configuring.pass1 H c c1.1 c2.1 c3.1 parent port lowspeed
    c.USB_NUMDEVICES 0 0 c3.2 = first at h1 hc1 ⊢
  obtain ⟨ext2, h2, hf2, hr2, hp2, hc2⟩ := Configuring.pass2_run H c c1.1 c2.1 c3.1
    parent port lowspeed c.USB_NUMDEVICES 0 first.2.2
  generalize Configuring.pass2 H c c1.1 c2.1 c3.1 parent port lowspeed
    c.USB_NUMDEVICES 0 first.2.2 = second at h2 hc2 ⊢
  obtain ⟨rest, hd, hfd⟩ := DefaultAddressing_footprint H c parent port lowspeed second.2
  have hr1b : ∀ p ∈ firstPassResults ext1, p.1 < c.USB_NUMDEVICES := by
    intro p hp; have := hr1 p hp; omega
  have hr2b : ∀ p ∈ secondPassResults ext2, p.1 < c.USB_NUMDEVICES := by
    intro p hp; have := hr2 p hp; omega
  split
  · rename_i hlt
    rcases hc1 with ⟨hidx, _⟩ | ⟨_, hne, mid, hmid, hall⟩
    · omega
    · exact ⟨c1.1, c2.1, c3.1, ext1, [], by rw [h1, hpre]; simp, hf1, hr1b, hp1,
        Or.inl ⟨rfl, hne, _, mid, hmid, hall⟩⟩
  · rename_i hge
    have hall1 : ∀ p ∈ firstPassResults ext1,
        p.2 = c.USB_DEV_CONFIG_ERROR_DEVICE_NOT_SUPPORTED := by
      rcases hc1 with ⟨_, hall⟩ | ⟨hidx, _⟩
      · exact hall
      · omega
    split
    · rename_i rcode hsome
      rcases hc2 with ⟨hnone, _⟩ | ⟨idx, rc, hrc, hne1, hne2, mid, hmid, hall⟩
      · rw [hnone] at hsome; cases hsome
      · rw [hsome] at hrc
        cases hrc
        exact ⟨c1.1, c2.1, c3.1, ext1, ext2, by rw [h2, h1, hpre]; simp, hf1, hr1b, hp1,
          Or.inr ⟨hall1, ext2, [], by simp, hf2, hr2b, hp2,
            Or.inl ⟨rfl, hne1, hne2, idx, mid, hmid, hall⟩⟩⟩
    · rename_i hnone
      rcases hc2 with ⟨_, hall⟩ | ⟨idx, rc, hrc, _⟩
      · exact ⟨c1.1, c2.1, c3.1, ext1, ext2 ++ Event.DefaultAddressing parent port lowspeed :: rest,
          by rw [hd, h2, h1, hpre]; simp, hf1, hr1b, hp1,
          Or.inr ⟨hall1, ext2, _, rfl, hf2, hr2b, hp2, Or.inr ⟨hall, rest, rfl, hfd⟩⟩⟩
      · rw [hnone] at hrc; cases hrc

end DispatchProofs

end USBHost

namespace USBHost

section ConfiguringProofs

variable {W : Type}

/-- The six calls with which `Configuring` begins when slot 0 of the pool is found. -/
theorem Configuring_head (H : Host W) (c : Defs) (sizeof_udd parent port lowspeed : Nat)
    (s : Sys W) (hp : (H.run (.GetUsbDevicePtr 0) s.world).1 ≠ 0) :
    ∃ old r1 r2 rc r3, ∃ t : Sys W,
      t.trace = s.trace ++
        [Event.call (.GetUsbDevicePtr 0) (H.run (.GetUsbDevicePtr 0) s.world).1,
          Event.call (.get_epinfo 0) old,
          Event.call (.set_epinfo 0 .local_epInfo) r1,
          Event.call (.set_lowspeed 0 lowspeed) r2,
          Event.call (.ctrlReq_GET_DESCRIPTOR_DEVICE 0 0 sizeof_udd) rc,
          Event.call (.set_epinfo 0 (.saved old)) r3] ∧
      ((rc ≠ 0 ∧ Configuring H c sizeof_udd parent port lowspeed s = (rc, t)) ∨
        (rc = 0 ∧ Configuring H c sizeof_udd parent port lowspeed s
          = Configuring.dispatch H c parent port lowspeed t)) := by
  have htr : (H.call (.set_epinfo 0
        (.saved (H.call (.get_epinfo 0) (H.call (.GetUsbDevicePtr 0) s).2).1))
      (H.call (.ctrlReq_GET_DESCRIPTOR_DEVICE 0 0 sizeof_udd)
        (H.call (.set_lowspeed 0 lowspeed)
          (H.call (.set_epinfo 0 .local_epInfo)
            (H.call (.get_epinfo 0) (H.call (.GetUsbDevicePtr 0) s).2).2).2).2).2).2.trace
      = s.trace ++
        [Event.call (.GetUsbDevicePtr 0) (H.run (.GetUsbDevicePtr 0) s.world).1,
          Event.call (.get_epinfo 0)
            (H.call (.get_epinfo 0) (H.call (.GetUsbDevicePtr 0) s).2).1,
          Event.call (.set_epinfo 0 .local_epInfo)
            (H.call (.set_epinfo 0 .local_epInfo)
              (H.call (.get_epinfo 0) (H.call (.GetUsbDevicePtr 0) s).2).2).1,
          Event.call (.set_lowspeed 0 lowspeed)
            (H.call (.set_lowspeed 0 lowspeed)
              (H.call (.set_epinfo 0 .local_epInfo)
                (H.call (.get_epinfo 0) (H.call (.GetUsbDevicePtr 0) s).2).2).2).1,
          Event.call (.ctrlReq_GET_DESCRIPTOR_DEVICE 0 0 sizeof_udd)
            (H.call (.ctrlReq_GET_DESCRIPTOR_DEVICE 0 0 sizeof_udd)
              (H.call (.set_lowspeed 0 lowspeed)
                (H.call (.set_epinfo 0 .local_epInfo)
                  (H.call (.get_epinfo 0) (H.call (.GetUsbDevicePtr 0) s).2).2).2).2).1,
          Event.call (.set_epinfo 0
              (.saved (H.call (.get_epinfo 0) (H.call (.GetUsbDevicePtr 0) s).2).1))
            (H.call (.set_epinfo 0
                (.saved (H.call (.get_epinfo 0) (H.call (.GetUsbDevicePtr 0) s).2).1))
              (H.call (.ctrlReq_GET_DESCRIPTOR_DEVICE 0 0 sizeof_udd)
                (H.call (.set_lowspeed 0 lowspeed)
                  (H.call (.set_epinfo 0 .local_epInfo)
                    (H.call (.get_epinfo 0)
                      (H.call (.GetUsbDevicePtr 0) s).2).2).2).2).2).1] := by
    simp [Host.call]
  unfold Configuring
  simp only []
  have hp2 : ¬ (H.call (.GetUsbDevicePtr 0) s).1 = 0 := hp
  rw [if_neg hp2]
  generalize H.call (.get_epinfo 0) (H.call (.GetUsbDevicePtr 0) s).2 = c1 at htr ⊢
  generalize H.call (.set_epinfo 0 .local_epInfo) c1.2 = c2 at htr ⊢
  generalize H.call (.set_lowspeed 0 lowspeed) c2.2 = c3 at htr ⊢
  generalize H.call (.ctrlReq_GET_DESCRIPTOR_DEVICE 0 0 sizeof_udd) c3.2 = c4 at htr ⊢
  generalize H.call (.set_epinfo 0 (.saved c1.1)) c4.2 = c5 at htr ⊢
  refine ⟨c1.1, c2.1, c3.1, c4.1, c5.1, c5.2, htr, ?_⟩
  by_cases hrc : c4.1 ≠ 0
  · rw [if_pos hrc]
    exact Or.inl ⟨hrc, rfl⟩
  · rw [if_neg hrc]
    exact Or.inr ⟨Classical.not_not.mp hrc, rfl⟩

theorem Event.notSetEpinfo_of_inScan (ev : Event) (h : ev.inScan = true) :
    ev.notSetEpinfo = true := by
  cases ev with
  | call e r => cases e <;> first | rfl | (simp [Event.inScan, Event.byAttemptConfig] at h)
  | AttemptConfig d p q l => rfl
  | DefaultAddressing p q l => rfl
  | attempted n d r => rfl

theorem Event.notSetEpinfo_of_byDefaultAddressing (ev : Event)
    (h : ev.byDefaultAddressing = true) : ev.notSetEpinfo = true := by
  cases ev with
  | call e r => cases e <;> first | rfl | (simp [Event.byDefaultAddressing] at h)
  | AttemptConfig d p q l => rfl
  | DefaultAddressing p q l => rfl
  | attempted n d r => rfl

/-- Nothing that follows the read of the device descriptor stores to `epinfo`. -/
theorem Configuring.dispatch_notSetEpinfo (H : Host W) (c : Defs)
    (parent port lowspeed : Nat) (s : Sys W) :
    ∃ vid pid klass rest,
      (Configuring.dispatch H c parent port lowspeed s).2.trace
        = s.trace ++ ([Event.call .udd_idVendor vid, Event.call .udd_idProduct pid,
            Event.call .udd_bDeviceClass klass] ++ rest) ∧
      ∀ ev ∈ rest, ev.notSetEpinfo = true := by
  obtain ⟨vid, pid, klass, ext1, tail, htr, hf1, _, _, hcase⟩ :=
    Configuring.dispatch_run H c parent port lowspeed s
  refine ⟨vid, pid, klass, ext1 ++ tail, htr, ?_⟩
  intro ev hev
  rcases List.mem_append.mp hev with h | h
  · exact Event.notSetEpinfo_of_inScan ev (hf1.1 ev h)
  · rcases hcase with ⟨ht, _⟩ | ⟨_, ext2, extd, ht, hf2, _, _, hcase2⟩
    · rw [ht] at h; cases h
    · rw [ht] at h
      rcases List.mem_append.mp h with h | h
      · exact Event.notSetEpinfo_of_inScan ev (hf2.1 ev h)
      · rcases hcase2 with ⟨hd, _⟩ | ⟨_, rest, hd, hfd⟩
        · rw [hd] at h; cases h
        · rw [hd] at h
          rcases List.mem_cons.mp h with h | h
          · rw [h]; rfl
          · exact Event.notSetEpinfo_of_byDefaultAddressing ev (hfd ev h)

/-- C25.  Whenever `Configuring` finds slot 0 of the pool, its trace begins with
the lookup, the read of `p->epinfo` (answer `old`), the store of the address
of the local 8-byte record, the store of `lowspeed`, the device-descriptor
request (answer `rc`) and the store of `old` back to `p->epinfo`, in this
order and for every `rc`.  When `rc` is not 0 nothing follows and `rc` is
returned; when it is 0 the descriptor fields are read next, and nothing that
follows (the scans of the driver table, `DefaultAddressing`) stores to
`epinfo` again.  When slot 0 is not found no store is made at all. -/
theorem Configuring_restores_epinfo_right_after_descriptor_request (H : Host W) (c : Defs)
    (sizeof_udd parent port lowspeed : Nat) (s : Sys W) :
    if (H.run (.GetUsbDevicePtr 0) s.world).1 = 0 then
      (Configuring H c sizeof_udd parent port lowspeed s).2.trace
        = s.trace ++ [Event.call (.GetUsbDevicePtr 0) 0]
    else
      ∃ old r1 r2 rc r3 rest,
        (Configuring H c sizeof_udd parent port lowspeed s).2.trace = s.trace ++
          ([Event.call (.GetUsbDevicePtr 0) (H.run (.GetUsbDevicePtr 0) s.world).1,
            Event.call (.get_epinfo 0) old,
            Event.call (.set_epinfo 0 .local_epInfo) r1,
            Event.call (.set_lowspeed 0 lowspeed) r2,
            Event.call (.ctrlReq_GET_DESCRIPTOR_DEVICE 0 0 sizeof_udd) rc,
            Event.call (.set_epinfo 0 (.saved old)) r3] ++ rest) ∧
        (∀ ev ∈ rest, ev.notSetEpinfo = true) ∧
        ((rc ≠ 0 ∧ rest = [] ∧ (Configuring H c sizeof_udd parent port lowspeed s).1 = rc) ∨
          (rc = 0 ∧ ∃ vid pid klass later, rest =
            [Event.call .udd_idVendor vid, Event.call .udd_idProduct pid,
              Event.call .udd_bDeviceClass klass] ++ later)) := by
  split
  · rename_i h0
    unfold Configuring
    simp only []
    have h0b : (H.call (.GetUsbDevicePtr 0) s).1 = 0 := h0
    rw [if_pos h0b, Host.call_trace, h0]
  · rename_i hp
    obtain ⟨old, r1, r2, rc, r3, t, ht, hcase⟩ :=
      Configuring_head H c sizeof_udd parent port lowspeed s hp
    rcases hcase with ⟨hrc, heq⟩ | ⟨hrc, heq⟩
    · refine ⟨old, r1, r2, rc, r3, [], ?_, by simp, Or.inl ⟨hrc, rfl, by rw [heq]⟩⟩
      rw [heq, List.append_nil]
      exact ht
    · obtain ⟨vid, pid, klass, rest, htr, hrest⟩ :=
        Configuring.dispatch_notSetEpinfo H c parent port lowspeed t
      refine ⟨old, r1, r2, rc, r3, _, ?_, ?_, Or.inr ⟨hrc, vid, pid, klass, rest, rfl⟩⟩
      · rw [heq, htr, ht, List.append_assoc]
      · intro ev hev
        rcases List.mem_append.mp hev with h | h
        · simp at h
          rcases h with h | h | h <;> rw [h] <;> rfl
        · exact hrest ev h

end ConfiguringProofs

end USBHost

namespace USBHost

section ScanOutcome

variable {W : Type}

end ScanOutcome

end USBHost

namespace USBHost

section PassClaims

variable {W : Type}

end PassClaims

end USBHost

namespace USBHost

section ChainProofs

variable {W : Type}

theorem countBusReset_append (a b : List Event) :
    countBusReset (a ++ b) = countBusReset a + countBusReset b := by
  simp [countBusReset]

/-- The loop over the driver table with `Poll` adds no call of `UHD_BusReset`. -/
theorem Task.forEach_Poll_countBusReset (H : Host W) :
    ∀ (left i : Nat) (s : Sys W),
      countBusReset (Task.forEach H Ext.Poll left i s).trace = countBusReset s.trace := by
  intro left
  induction left with
  | zero => intro i s; rfl
  | succ n ih =>
    intro i s
    rw [Task.forEach, ih]
    split
    · rw [Host.call_trace, countBusReset_append]
      simp [countBusReset, Event.isBusReset]
    · rfl

/-- C28 as stated fails.  A tick of `Task` in `USB_STATE_CONFIGURING`, with VBUS
reading connected and a driver whose `Init` keeps answering 5, issues a bus
reset (from `AttemptConfig`) and ends in `USB_STATE_ERROR`: a bus reset on a
tick that does not leave `USB_ATTACHED_SUBSTATE_RESET_DEVICE`. -/
theorem Task_Configuring_tick_issues_bus_reset :
    ((hostInitAnswers 5).run .UHD_GetVBUSState ()).1 = samd21.UHD_STATE_CONNECTED ∧
    (Task (hostInitAnswers 5) samd21 18 ⟨samd21.USB_STATE_CONFIGURING, 0, 0⟩
        ⟨(), []⟩).1.usb_task_state = samd21.USB_STATE_ERROR ∧
    countBusReset (Task (hostInitAnswers 5) samd21 18 ⟨samd21.USB_STATE_CONFIGURING, 0, 0⟩
        ⟨(), []⟩).2.trace = 1 ∧
    Event.call .UHD_BusReset 0 ∈ (Task (hostInitAnswers 5) samd21 18
        ⟨samd21.USB_STATE_CONFIGURING, 0, 0⟩ ⟨(), []⟩).2.trace := by
  decide

/-- C28, as the code has it.  With VBUS reading connected, a tick of `Task` that
starts in one of the six states of the chain ends in the same state or makes
one of the allowed moves (to the immediate successor, or from Configuring to
Error); it ends in Configuring coming from another state exactly when it
starts in Attached-WaitStartOfFrame, `Is_uhd_sof()` answers true and
`delay < millis()`; and as to bus resets: a tick that starts in
Attached-ResetDevice issues exactly one and ends in
Attached-WaitResetComplete, a tick that starts in Configuring issues those
that the call of `Configuring(0, 0, 0)` issues (through `AttemptConfig`) and
no other, and a tick that starts in one of the other four states issues
none. -/
theorem Task_attached_chain_steps_and_bus_resets (H : Host W) (c : Defs) (sizeof_udd : Nat)
    (e : Engine) (s : Sys W)
    (hlab : c.stateLabels.Nodup) (hvl : c.vbusLabels.Nodup)
    (hfam : ∀ x ∈ c.attachedChain, x &&& c.USB_STATE_MASK ≠ c.USB_STATE_DETACHED)
    (hst : e.usb_task_state ∈ c.attachedChain)
    (hv : (H.run .UHD_GetVBUSState s.world).1 = c.UHD_STATE_CONNECTED) :
    ((Task H c sizeof_udd e s).1.usb_task_state = e.usb_task_state ∨
      (e.usb_task_state, (Task H c sizeof_udd e s).1.usb_task_state) ∈ c.chainSteps) ∧
    (((Task H c sizeof_udd e s).1.usb_task_state = c.USB_STATE_CONFIGURING ∧
        e.usb_task_state ≠ c.USB_STATE_CONFIGURING) ↔
      (e.usb_task_state = c.USB_ATTACHED_SUBSTATE_WAIT_SOF ∧
        (H.call .Is_uhd_sof
          (Task.forEach H Ext.Poll c.USB_NUMDEVICES 0 (H.call .UHD_GetVBUSState s).2)).1 ≠ 0 ∧
        e.delay < (H.call .millis (H.call .Is_uhd_sof
          (Task.forEach H Ext.Poll c.USB_NUMDEVICES 0
            (H.call .UHD_GetVBUSState s).2)).2).1)) ∧
    ((e.usb_task_state = c.USB_ATTACHED_SUBSTATE_RESET_DEVICE ∧
        (Task H c sizeof_udd e s).1.usb_task_state
          = c.USB_ATTACHED_SUBSTATE_WAIT_RESET_COMPLETE ∧
        countBusReset (Task H c sizeof_udd e s).2.trace = countBusReset s.trace + 1) ∨
      (e.usb_task_state = c.USB_STATE_CONFIGURING ∧
        (Task H c sizeof_udd e s).2 = (Configuring H c sizeof_udd 0 0 0
          (Task.forEach H Ext.Poll c.USB_NUMDEVICES 0 (H.call .UHD_GetVBUSState s).2)).2 ∧
        countBusReset (Task.forEach H Ext.Poll c.USB_NUMDEVICES 0
          (H.call .UHD_GetVBUSState s).2).trace = countBusReset s.trace) ∨
      (e.usb_task_state ≠ c.USB_ATTACHED_SUBSTATE_RESET_DEVICE ∧
        e.usb_task_state ≠ c.USB_STATE_CONFIGURING ∧
        countBusReset (Task H c sizeof_udd e s).2.trace = countBusReset s.trace)) := by
  have hlab2 : c.stateLabels.reverse.Nodup := List.nodup_reverse.mpr hlab
  simp only [Defs.stateLabels, Defs.vbusLabels, List.reverse_cons, List.reverse_nil,
    List.nil_append, List.cons_append, List.nodup_cons, List.mem_cons,
    List.mem_singleton, not_or, List.not_mem_nil, not_false_eq_true, List.nodup_nil,
    and_true] at hlab hlab2 hvl
  obtain ⟨⟨hED, hEC⟩, hDC⟩ := hvl
  have h1 : (H.call .UHD_GetVBUSState s).1 = c.UHD_STATE_CONNECTED := hv
  have hvb : Task.vbus H c e s = (e, (H.call .UHD_GetVBUSState s).2) := by
    unfold Task.vbus
    simp [h1, Ne.symm hEC, Ne.symm hDC, hfam _ hst]
  have hcount : countBusReset (Task.forEach H Ext.Poll c.USB_NUMDEVICES 0
      (H.call .UHD_GetVBUSState s).2).trace = countBusReset s.trace := by
    rw [Task.forEach_Poll_countBusReset, Host.call_trace, countBusReset_append]
    simp [countBusReset, Event.isBusReset]
  unfold Task
  rw [hvb]
  simp only []
  generalize Task.forEach H Ext.Poll c.USB_NUMDEVICES 0 (H.call .UHD_GetVBUSState s).2 = t
    at hcount ⊢
  simp only [Defs.attachedChain, List.mem_cons, List.mem_singleton, List.not_mem_nil,
    or_false] at hst
  rw [← hcount]
  rcases hst with h | h | h | h | h | h
  · unfold Task.stage
    simp only [h, hlab, hlab2, if_true, if_false]
    split <;>
      simp [h, Defs.chainSteps, Defs.attachedChain, hlab, hlab2, Host.call_trace,
        countBusReset_append, countBusReset, Event.isBusReset]
  · unfold Task.stage
    simp only [h, hlab, hlab2, if_true, if_false]
    simp [h, Defs.chainSteps, Defs.attachedChain, hlab, hlab2, Host.call_trace,
        countBusReset_append, countBusReset, Event.isBusReset]
  · unfold Task.stage
    simp only [h, hlab, hlab2, if_true, if_false]
    split <;>
      simp [h, Defs.chainSteps, Defs.attachedChain, hlab, hlab2, Host.call_trace,
        countBusReset_append, countBusReset, Event.isBusReset]
  · unfold Task.stage
    simp only [h, hlab, hlab2, if_true, if_false]
    split
    · split <;>
      simp_all [Defs.chainSteps, Defs.attachedChain, Host.call_trace,
        countBusReset_append, countBusReset, Event.isBusReset]
    · simp_all [Defs.chainSteps, Defs.attachedChain, Host.call_trace,
        countBusReset_append, countBusReset, Event.isBusReset]
  · unfold Task.stage
    simp only [h, hlab, hlab2, if_true, if_false]
    split
    · split <;>
      simp [h, Defs.chainSteps, Defs.attachedChain, hlab, hlab2]
    · simp [h, Defs.chainSteps, Defs.attachedChain, hlab, hlab2]
  · unfold Task.stage
    simp only [h, hlab, hlab2, if_true, if_false]
    simp [h, Defs.chainSteps, Defs.attachedChain, hlab, hlab2]

/-- The statement of `Task_attached_chain_steps_and_bus_resets` on two ticks with
the constants of the SAMD21 port: from Attached-ResetDevice the tick makes
the allowed move to Attached-WaitResetComplete and issues one bus reset; from
Attached-WaitStartOfFrame, with start-of-frame reported and the timer (50)
behind `millis()` (100), the tick enters Configuring. -/
theorem Task_attached_chain_steps_and_bus_resets_witness :
    (samd21.stateLabels.Nodup ∧ samd21.vbusLabels.Nodup ∧
      (∀ x ∈ samd21.attachedChain, x &&& samd21.USB_STATE_MASK ≠ samd21.USB_STATE_DETACHED) ∧
      samd21.USB_ATTACHED_SUBSTATE_RESET_DEVICE ∈ samd21.attachedChain ∧
      samd21.USB_ATTACHED_SUBSTATE_WAIT_SOF ∈ samd21.attachedChain ∧
      ((hostVbusReads samd21.UHD_STATE_CONNECTED).run .UHD_GetVBUSState ()).1
        = samd21.UHD_STATE_CONNECTED ∧
      (hostFramesRunning.run .UHD_GetVBUSState ()).1 = samd21.UHD_STATE_CONNECTED) ∧
    ((Task (hostVbusReads samd21.UHD_STATE_CONNECTED) samd21 18
          ⟨samd21.USB_ATTACHED_SUBSTATE_RESET_DEVICE, 0, 0⟩ ⟨(), []⟩).1.usb_task_state
        = samd21.USB_ATTACHED_SUBSTATE_RESET_DEVICE ∨
      (samd21.USB_ATTACHED_SUBSTATE_RESET_DEVICE,
        (Task (hostVbusReads samd21.UHD_STATE_CONNECTED) samd21 18
          ⟨samd21.USB_ATTACHED_SUBSTATE_RESET_DEVICE, 0, 0⟩ ⟨(), []⟩).1.usb_task_state)
        ∈ samd21.chainSteps) ∧
    ((Task (hostVbusReads samd21.UHD_STATE_CONNECTED) samd21 18
          ⟨samd21.USB_ATTACHED_SUBSTATE_RESET_DEVICE, 0, 0⟩ ⟨(), []⟩).1.usb_task_state
        = samd21.USB_ATTACHED_SUBSTATE_WAIT_RESET_COMPLETE ∧
      countBusReset (Task (hostVbusReads samd21.UHD_STATE_CONNECTED) samd21 18
          ⟨samd21.USB_ATTACHED_SUBSTATE_RESET_DEVICE, 0, 0⟩ ⟨(), []⟩).2.trace
        = countBusReset ([] : List Event) + 1) ∧
    ((Task hostFramesRunning samd21 18 ⟨samd21.USB_ATTACHED_SUBSTATE_WAIT_SOF, 0, 50⟩
          ⟨(), []⟩).1.usb_task_state = samd21.USB_STATE_CONFIGURING ∧
      samd21.USB_ATTACHED_SUBSTATE_WAIT_SOF ≠ samd21.USB_STATE_CONFIGURING) :=
  ⟨⟨by decide, by decide, by decide, by decide, by decide, rfl, rfl⟩,
   (Task_attached_chain_steps_and_bus_resets (hostVbusReads samd21.UHD_STATE_CONNECTED)
     samd21 18 ⟨samd21.USB_ATTACHED_SUBSTATE_RESET_DEVICE, 0, 0⟩ ⟨(), []⟩
     (by decide) (by decide) (by decide) (by decide) rfl).1,
   (Task_attached_chain_steps_and_bus_resets (hostVbusReads samd21.UHD_STATE_CONNECTED)
     samd21 18 ⟨samd21.USB_ATTACHED_SUBSTATE_RESET_DEVICE, 0, 0⟩ ⟨(), []⟩
     (by decide) (by decide) (by decide) (by decide) rfl).2.2.elim (fun h => h.2)
       (fun h => h.elim (fun h => absurd h.1 (by decide)) (fun h => absurd rfl h.1)),
   (Task_attached_chain_steps_and_bus_resets hostFramesRunning
     samd21 18 ⟨samd21.USB_ATTACHED_SUBSTATE_WAIT_SOF, 0, 50⟩ ⟨(), []⟩
     (by decide) (by decide) (by decide) (by decide) rfl).2.1.mpr
       ⟨rfl, by decide, by decide⟩⟩

end ChainProofs

end USBHost

namespace USBHost

/-! ## `setEpInfoEntry` and `getEpInfoEntry` -/

/-- The loop of `getEpInfoEntry` finds the first record among the first `n`
whose `epAddr` is `ep`. -/
theorem getEpInfoEntry.scan_eq_find (ep : Nat) :
    ∀ (n : Nat) (t : List EpInfo),
      getEpInfoEntry.scan ep n t = (t.take n).find? (fun r => decide (r.epAddr = ep)) := by
  intro n
  induction n with
  | zero => intro t; cases t <;> rfl
  | succ k ih =>
    intro t
    cases t with
    | nil => rfl
    | cons r rest =>
      rw [getEpInfoEntry.scan, List.take_succ_cons, List.find?_cons]
      by_cases h : r.epAddr = ep
      · simp [h]
      · simp [h, ih]

/-- The slot found for `addr` once its fields have been written. -/
theorem AddressPool.GetUsbDevicePtr_writeSlot (pool : AddressPool) (addr : Nat)
    (f : UsbDeviceDefinition → UsbDeviceDefinition) (p : UsbDeviceDefinition)
    (hp : pool.GetUsbDevicePtr addr = some p) :
    (pool.writeSlot addr f).GetUsbDevicePtr addr = some (f p) := by
  unfold AddressPool.GetUsbDevicePtr at hp
  unfold AddressPool.writeSlot
  split at hp
  · cases hp
  · rename_i i hi
    simp only [hp]
    unfold AddressPool.GetUsbDevicePtr
    simp only [hi]
    have hlt : i < pool.thePool.length := by
      rcases Nat.lt_or_ge i pool.thePool.length with h | h
      · exact h
      · rw [List.getElem?_eq_none h] at hp; cases hp
    simp [List.getElem?_set, hlt]

/-- C30.  For an address that the pool finds, a non-null table `t` and a count
`n` that the field `epcount` holds, `setEpInfoEntry(a, n, t)` returns 0 and
`getEpInfoEntry(a, e)` then returns, for every `e`, the first record among the
first `n` of `t` whose `epAddr` is `e`, and the null pointer when there is
none.  With a null table `setEpInfoEntry` returns `USB_ERROR_INVALID_ARGUMENT`
whatever the address, with a table and an address that the pool does not find
it returns `USB_ERROR_ADDRESS_NOT_FOUND_IN_POOL`, and in both cases the pool is
left as it was. -/
theorem setEpInfoEntry_getEpInfoEntry_round_trip (c : Defs) (devAddressBits epcountBits : Nat)
    (pool : AddressPool) (a n : Nat) (t : List EpInfo)
    (ha : pool.GetUsbDevicePtr a ≠ none) (hn : n < 2 ^ epcountBits) :
    (setEpInfoEntry c devAddressBits epcountBits pool a n (some t)).1 = 0 ∧
    (∀ e, getEpInfoEntry (setEpInfoEntry c devAddressBits epcountBits pool a n (some t)).2 a e
      = (t.take n).find? (fun r => decide (r.epAddr = e))) ∧
    (∀ b m, setEpInfoEntry c devAddressBits epcountBits pool b m none
      = (c.USB_ERROR_INVALID_ARGUMENT, pool)) ∧
    (∀ b m u, pool.GetUsbDevicePtr b = none →
      setEpInfoEntry c devAddressBits epcountBits pool b m (some u)
        = (c.USB_ERROR_ADDRESS_NOT_FOUND_IN_POOL, pool)) := by
  obtain ⟨p, hp⟩ := Option.ne_none_iff_exists'.mp ha
  refine ⟨?_, ?_, fun b m => rfl, ?_⟩
  · simp [setEpInfoEntry, hp]
  · intro e
    have hw := AddressPool.GetUsbDevicePtr_writeSlot pool a
      (fun p => { p with devAddress := a % 2 ^ devAddressBits, epinfo := some t,
                         epcount := n % 2 ^ epcountBits }) p hp
    simp only [setEpInfoEntry, hp]
    unfold getEpInfoEntry
    rw [hw]
    simp only []
    rw [Nat.mod_eq_of_lt hn]
    exact getEpInfoEntry.scan_eq_find e n t
  · intro b m u hb
    simp [setEpInfoEntry, hb]

/-- The round trip on a pool: a table of two records is installed for address 2,
which had none; endpoint 1 is then found, endpoint 5 is not. -/
theorem setEpInfoEntry_getEpInfoEntry_round_trip_witness :
    (poolOneDevice.GetUsbDevicePtr 2 ≠ none ∧ 2 < 2 ^ 8) ∧
    (setEpInfoEntry samd21 8 8 poolOneDevice 2 2
        (some [⟨0, 8, 0, 0, 15⟩, ⟨1, 64, 0, 0, 1⟩])).1 = 0 ∧
    getEpInfoEntry (setEpInfoEntry samd21 8 8 poolOneDevice 2 2
        (some [⟨0, 8, 0, 0, 15⟩, ⟨1, 64, 0, 0, 1⟩])).2 2 1 = some ⟨1, 64, 0, 0, 1⟩ ∧
    getEpInfoEntry (setEpInfoEntry samd21 8 8 poolOneDevice 2 2
        (some [⟨0, 8, 0, 0, 15⟩, ⟨1, 64, 0, 0, 1⟩])).2 2 5 = none :=
  ⟨⟨by decide, by decide⟩,
   (setEpInfoEntry_getEpInfoEntry_round_trip samd21 8 8 poolOneDevice 2 2
     [⟨0, 8, 0, 0, 15⟩, ⟨1, 64, 0, 0, 1⟩] (by decide) (by decide)).1,
   ((setEpInfoEntry_getEpInfoEntry_round_trip samd21 8 8 poolOneDevice 2 2
     [⟨0, 8, 0, 0, 15⟩, ⟨1, 64, 0, 0, 1⟩] (by decide) (by decide)).2.1 1).trans (by decide),
   ((setEpInfoEntry_getEpInfoEntry_round_trip samd21 8 8 poolOneDevice 2 2
     [⟨0, 8, 0, 0, 15⟩, ⟨1, 64, 0, 0, 1⟩] (by decide) (by decide)).2.1 5).trans (by decide)⟩

end USBHost

namespace USBHost

section FallbackClaim

variable {W : Type}

theorem Event.descriptorRead_of_inScan (ev : Event) (h : ev.inScan = true) :
    ev.descriptorRead = true := by
  cases ev with
  | call e r => cases e <;> first | rfl | (simp [Event.inScan, Event.byAttemptConfig] at h)
  | AttemptConfig d p q l => rfl
  | DefaultAddressing p q l => rfl
  | attempted n d r => rfl

theorem Event.descriptorRead_of_byDefaultAddressing (ev : Event)
    (h : ev.byDefaultAddressing = true) : ev.descriptorRead = true := by
  cases ev with
  | call e r => cases e <;> first | rfl | (simp [Event.byDefaultAddressing] at h)
  | AttemptConfig d p q l => rfl
  | DefaultAddressing p q l => rfl
  | attempted n d r => rfl

/-- Nothing that follows the read of the device descriptor in `Configuring` is a
device descriptor request. -/
theorem Configuring.dispatch_descriptorRead (H : Host W) (c : Defs)
    (parent port lowspeed : Nat) (s : Sys W) :
    ∃ rest, (Configuring.dispatch H c parent port lowspeed s).2.trace = s.trace ++ rest ∧
      ∀ ev ∈ rest, ev.descriptorRead = true := by
  obtain ⟨vid, pid, klass, ext1, tail, htr, hf1, _, _, hcase⟩ :=
    Configuring.dispatch_run H c parent port lowspeed s
  refine ⟨_, htr, ?_⟩
  intro ev hev
  rcases List.mem_append.mp hev with h | h
  · simp at h
    rcases h with h | h | h <;> rw [h] <;> rfl
  rcases List.mem_append.mp h with h | h
  · exact Event.descriptorRead_of_inScan ev (hf1.1 ev h)
  · rcases hcase with ⟨ht, _⟩ | ⟨_, ext2, extd, ht, hf2, _, _, hcase2⟩
    · rw [ht] at h; cases h
    · rw [ht] at h
      rcases List.mem_append.mp h with h | h
      · exact Event.descriptorRead_of_inScan ev (hf2.1 ev h)
      · rcases hcase2 with ⟨hd, _⟩ | ⟨_, rest, hd, hfd⟩
        · rw [hd] at h; cases h
        · rw [hd] at h
          rcases List.mem_cons.mp h with h | h
          · rw [h]; rfl
          · exact Event.descriptorRead_of_byDefaultAddressing ev (hfd ev h)

/-- C17 as stated fails.  The pool has the slot of address 0 and a driver is
registered, but the device descriptor request answers 13: no driver is
attempted, so every driver attempted has declined, yet `Configuring` returns
13 and does not enter `DefaultAddressing`.  The same with a pool that has no
slot for address 0: `Configuring` returns `USB_ERROR_ADDRESS_NOT_FOUND_IN_POOL`
and does not enter `DefaultAddressing`. -/
theorem Configuring_returns_error_before_driver_table :
    (∀ ev ∈ (Configuring hostDescriptorFails samd21 18 0 0 0 ⟨(), []⟩).2.trace,
      ev.declined samd21 = true) ∧
    attempts (Configuring hostDescriptorFails samd21 18 0 0 0 ⟨(), []⟩).2.trace = [] ∧
    (Configuring hostDescriptorFails samd21 18 0 0 0 ⟨(), []⟩).1 = 13 ∧
    countDefaultAddressing
      (Configuring hostDescriptorFails samd21 18 0 0 0 ⟨(), []⟩).2.trace = 0 ∧
    (∀ ev ∈ (Configuring (hostVbusReads samd21.UHD_STATE_CONNECTED) samd21 18 0 0 0
        ⟨(), []⟩).2.trace, ev.declined samd21 = true) ∧
    (Configuring (hostVbusReads samd21.UHD_STATE_CONNECTED) samd21 18 0 0 0 ⟨(), []⟩).1
      = samd21.USB_ERROR_ADDRESS_NOT_FOUND_IN_POOL ∧
    countDefaultAddressing
      (Configuring (hostVbusReads samd21.UHD_STATE_CONNECTED) samd21 18 0 0 0
        ⟨(), []⟩).2.trace = 0 := by
  decide

/-- C17, as the code has it.  Take a run of `Configuring` in which every
`AttemptConfig` of the first loop returns "device not supported" and every
one of the second loop returns "device not supported" or "class instance
already in use" (no attempt at all included).  If the pool has no slot for
address 0, `Configuring` returns `USB_ERROR_ADDRESS_NOT_FOUND_IN_POOL`; if it
has and the device descriptor request fails, `Configuring` returns the code
of that request; in both cases no driver is attempted and `DefaultAddressing`
is not entered.  If the pool has the slot and no device descriptor request
fails, `Configuring` enters `DefaultAddressing(parent, port, lowspeed)`
exactly once and returns what that call returns. -/
theorem Configuring_falls_back_once_driver_table_is_reached (H : Host W) (c : Defs)
    (sizeof_udd parent port lowspeed : Nat) (w : W)
    (hdecl : ∀ ev ∈ (Configuring H c sizeof_udd parent port lowspeed ⟨w, []⟩).2.trace,
      ev.declined c = true) :
    ((H.run (.GetUsbDevicePtr 0) w).1 = 0 →
      (Configuring H c sizeof_udd parent port lowspeed ⟨w, []⟩).1
          = c.USB_ERROR_ADDRESS_NOT_FOUND_IN_POOL ∧
        attempts (Configuring H c sizeof_udd parent port lowspeed ⟨w, []⟩).2.trace = [] ∧
        countDefaultAddressing
          (Configuring H c sizeof_udd parent port lowspeed ⟨w, []⟩).2.trace = 0) ∧
    ((H.run (.GetUsbDevicePtr 0) w).1 ≠ 0 →
      (Configuring H c sizeof_udd parent port lowspeed ⟨w, []⟩).2.trace.all
        Event.descriptorRead = false →
      (∃ rc, rc ≠ 0 ∧
          Event.call (.ctrlReq_GET_DESCRIPTOR_DEVICE 0 0 sizeof_udd) rc
            ∈ (Configuring H c sizeof_udd parent port lowspeed ⟨w, []⟩).2.trace ∧
          (Configuring H c sizeof_udd parent port lowspeed ⟨w, []⟩).1 = rc) ∧
        attempts (Configuring H c sizeof_udd parent port lowspeed ⟨w, []⟩).2.trace = [] ∧
        countDefaultAddressing
          (Configuring H c sizeof_udd parent port lowspeed ⟨w, []⟩).2.trace = 0) ∧
    ((H.run (.GetUsbDevicePtr 0) w).1 ≠ 0 →
      (Configuring H c sizeof_udd parent port lowspeed ⟨w, []⟩).2.trace.all
        Event.descriptorRead = true →
      countDefaultAddressing
          (Configuring H c sizeof_udd parent port lowspeed ⟨w, []⟩).2.trace = 1 ∧
        ∃ t, Configuring H c sizeof_udd parent port lowspeed ⟨w, []⟩
          = DefaultAddressing H c parent port lowspeed t) := by
  refine ⟨?_, ?_, ?_⟩
  · intro hp
    have h0 : (H.call (.GetUsbDevicePtr 0) (⟨w, []⟩ : Sys W)).1 = 0 := hp
    have heq : Configuring H c sizeof_udd parent port lowspeed ⟨w, []⟩
        = (c.USB_ERROR_ADDRESS_NOT_FOUND_IN_POOL,
            (H.call (.GetUsbDevicePtr 0) (⟨w, []⟩ : Sys W)).2) := by
      unfold Configuring
      simp only []
      rw [if_pos h0]
    rw [heq]
    refine ⟨rfl, ?_, ?_⟩
    · simp [Host.call, attempts]
    · simp [Host.call, countDefaultAddressing, Event.isDefaultAddressing]
  · intro hp hfail
    obtain ⟨old, r1, r2, rc, r3, t, ht, hcase⟩ :=
      Configuring_head H c sizeof_udd parent port lowspeed ⟨w, []⟩ hp
    rcases hcase with ⟨hrc, heq⟩ | ⟨hrc, heq⟩
    · have htr : (Configuring H c sizeof_udd parent port lowspeed ⟨w, []⟩).2.trace
          = [Event.call (.GetUsbDevicePtr 0) (H.run (.GetUsbDevicePtr 0) w).1,
              Event.call (.get_epinfo 0) old,
              Event.call (.set_epinfo 0 .local_epInfo) r1,
              Event.call (.set_lowspeed 0 lowspeed) r2,
              Event.call (.ctrlReq_GET_DESCRIPTOR_DEVICE 0 0 sizeof_udd) rc,
              Event.call (.set_epinfo 0 (.saved old)) r3] := by
        rw [heq]
        simpa using ht
      rw [htr]
      refine ⟨⟨rc, hrc, by simp, by rw [heq]⟩, ?_, ?_⟩
      · simp [attempts]
      · simp [countDefaultAddressing, Event.isDefaultAddressing]
    · exfalso
      obtain ⟨rest, hrest, hall⟩ := Configuring.dispatch_descriptorRead H c parent port
        lowspeed t
      have hdesc : (Configuring H c sizeof_udd parent port lowspeed ⟨w, []⟩).2.trace.all
          Event.descriptorRead = true := by
        rw [List.all_eq_true, heq, hrest, ht]
        intro ev hev
        rcases List.mem_append.mp hev with h | h
        · simp at h
          rcases h with h | h | h | h | h | h <;> rw [h]
          all_goals first | rfl | simp [Event.descriptorRead, hrc]
        · exact hall ev h
      rw [hdesc] at hfail
      cases hfail
  · intro hp hdesc
    obtain ⟨t2, h1, h2⟩ := Configuring_falls_back_when_all_decline H c sizeof_udd parent port
      lowspeed ⟨w, []⟩ hp (List.all_eq_true.mp hdesc) hdecl
    exact ⟨by rw [h2]; rfl, t2, h1⟩

/-- The statement of `Configuring_falls_back_once_driver_table_is_reached` in its
three cases: a pool without the slot of address 0; a descriptor request that
fails with 13; and a table whose driver of slot 0 matches and answers "not
supported" and whose driver of slot 1 is tried blindly and answers "instance
in use", where `DefaultAddressing` is entered once. -/
theorem Configuring_falls_back_once_driver_table_is_reached_witness :
    (((∀ ev ∈ (Configuring (hostVbusReads samd21.UHD_STATE_CONNECTED) samd21 18 0 0 0
          ⟨(), []⟩).2.trace, ev.declined samd21 = true) ∧
        ((hostVbusReads samd21.UHD_STATE_CONNECTED).run (.GetUsbDevicePtr 0) ()).1 = 0) ∧
      ((∀ ev ∈ (Configuring hostDescriptorFails samd21 18 0 0 0 ⟨(), []⟩).2.trace,
          ev.declined samd21 = true) ∧
        (hostDescriptorFails.run (.GetUsbDevicePtr 0) ()).1 ≠ 0 ∧
        (Configuring hostDescriptorFails samd21 18 0 0 0 ⟨(), []⟩).2.trace.all
          Event.descriptorRead = false) ∧
      ((∀ ev ∈ (Configuring hostDeclined samd21 18 0 0 0 ⟨(), []⟩).2.trace,
          ev.declined samd21 = true) ∧
        (hostDeclined.run (.GetUsbDevicePtr 0) ()).1 ≠ 0 ∧
        (Configuring hostDeclined samd21 18 0 0 0 ⟨(), []⟩).2.trace.all
          Event.descriptorRead = true ∧
        Event.attempted 1 0 samd21.USB_DEV_CONFIG_ERROR_DEVICE_NOT_SUPPORTED
          ∈ (Configuring hostDeclined samd21 18 0 0 0 ⟨(), []⟩).2.trace ∧
        Event.attempted 2 1 samd21.USB_ERROR_CLASS_INSTANCE_ALREADY_IN_USE
          ∈ (Configuring hostDeclined samd21 18 0 0 0 ⟨(), []⟩).2.trace)) ∧
    ((Configuring (hostVbusReads samd21.UHD_STATE_CONNECTED) samd21 18 0 0 0 ⟨(), []⟩).1
        = samd21.USB_ERROR_ADDRESS_NOT_FOUND_IN_POOL ∧
      attempts (Configuring (hostVbusReads samd21.UHD_STATE_CONNECTED) samd21 18 0 0 0
        ⟨(), []⟩).2.trace = [] ∧
      countDefaultAddressing (Configuring (hostVbusReads samd21.UHD_STATE_CONNECTED)
        samd21 18 0 0 0 ⟨(), []⟩).2.trace = 0) ∧
    ((∃ rc, rc ≠ 0 ∧
        Event.call (.ctrlReq_GET_DESCRIPTOR_DEVICE 0 0 18) rc
          ∈ (Configuring hostDescriptorFails samd21 18 0 0 0 ⟨(), []⟩).2.trace ∧
        (Configuring hostDescriptorFails samd21 18 0 0 0 ⟨(), []⟩).1 = rc) ∧
      attempts (Configuring hostDescriptorFails samd21 18 0 0 0 ⟨(), []⟩).2.trace = [] ∧
      countDefaultAddressing
        (Configuring hostDescriptorFails samd21 18 0 0 0 ⟨(), []⟩).2.trace = 0) ∧
    (countDefaultAddressing (Configuring hostDeclined samd21 18 0 0 0 ⟨(), []⟩).2.trace = 1 ∧
      ∃ t, Configuring hostDeclined samd21 18 0 0 0 ⟨(), []⟩
        = DefaultAddressing hostDeclined samd21 0 0 0 t) :=
  ⟨⟨⟨by decide, rfl⟩, ⟨by decide, by decide, by decide⟩,
      ⟨by decide, by decide, by decide, by decide, by decide⟩⟩,
   (Configuring_falls_back_once_driver_table_is_reached
     (hostVbusReads samd21.UHD_STATE_CONNECTED) samd21 18 0 0 0 () (by decide)).1 rfl,
   (Configuring_falls_back_once_driver_table_is_reached
     hostDescriptorFails samd21 18 0 0 0 () (by decide)).2.1 (by decide) (by decide),
   (Configuring_falls_back_once_driver_table_is_reached
     hostDeclined samd21 18 0 0 0 () (by decide)).2.2 (by decide) (by decide)⟩

end FallbackClaim

end USBHost

namespace HIDBoot

open USBHost

section FreedOnFailure

variable {W : Type}

/-- C19.  Take a run of `DefaultAddressing`, or of `HIDBoot::Init`, in which the
pool keeps to its rule that an address it has handed out is found until it
is freed.  If the run returns a non-zero code, every non-zero address that
`AllocAddress` has returned in it is named by a later `FreeAddress` of the
run: no address is left allocated.  For `Init`, a driver that entered without
an address (the only way to reach `AllocAddress`) then returns with
`bAddress = 0`. -/
theorem enumeration_frees_address_on_every_error_path (H : Host W)
    (parsed : Nat → Nat → W → List EndpointCall) (c : Defs) (h : HidDefs)
    (BOOT_PROTOCOL sizeof_udd parent port lowspeed : Nat) (d : Driver) (w : W) :
    (poolFindsAllocated [] (DefaultAddressing H c parent port lowspeed ⟨w, []⟩).2.trace = true →
      (DefaultAddressing H c parent port lowspeed ⟨w, []⟩).1 ≠ 0 →
      leaks (DefaultAddressing H c parent port lowspeed ⟨w, []⟩).2.trace = []) ∧
    (poolFindsAllocated []
        (Init H parsed c h BOOT_PROTOCOL sizeof_udd parent port lowspeed d ⟨w, []⟩).2.2.trace
        = true →
      (Init H parsed c h BOOT_PROTOCOL sizeof_udd parent port lowspeed d ⟨w, []⟩).1 ≠ 0 →
      leaks (Init H parsed c h BOOT_PROTOCOL sizeof_udd parent port lowspeed d
          ⟨w, []⟩).2.2.trace = [] ∧
        (d.bAddress = 0 →
          (Init H parsed c h BOOT_PROTOCOL sizeof_udd parent port lowspeed d
            ⟨w, []⟩).2.1.bAddress = 0)) :=
  ⟨DefaultAddressing_frees_when_pool_keeps_rule H c parent port lowspeed w,
   Init_frees_when_pool_keeps_rule H parsed c h BOOT_PROTOCOL sizeof_udd parent port lowspeed
     d w⟩

/-- The statement of `enumeration_frees_address_on_every_error_path` on a run: the
pool hands out address 1 and finds it, the device refuses the address with
code 5.  Both functions return 5 after `FreeAddress(1)`; no address is left
allocated and the driver holds no address. -/
theorem enumeration_frees_address_on_every_error_path_witness :
    ((poolFindsAllocated [] (DefaultAddressing hostSetAddressFails samd21 0 0 0
          ⟨(), []⟩).2.trace = true ∧
        (DefaultAddressing hostSetAddressFails samd21 0 0 0 ⟨(), []⟩).1 ≠ 0 ∧
        Event.call (.AllocAddress 0 0 0) 1
          ∈ (DefaultAddressing hostSetAddressFails samd21 0 0 0 ⟨(), []⟩).2.trace) ∧
      (poolFindsAllocated []
          (Init hostSetAddressFails (fun _ _ _ => []) samd21 hidDefs 1 18 0 0 0 fresh
            ⟨(), []⟩).2.2.trace = true ∧
        (Init hostSetAddressFails (fun _ _ _ => []) samd21 hidDefs 1 18 0 0 0 fresh
          ⟨(), []⟩).1 ≠ 0 ∧
        Event.call (.AllocAddress 0 0 0) 1
          ∈ (Init hostSetAddressFails (fun _ _ _ => []) samd21 hidDefs 1 18 0 0 0 fresh
            ⟨(), []⟩).2.2.trace ∧
        fresh.bAddress = 0)) ∧
    leaks (DefaultAddressing hostSetAddressFails samd21 0 0 0 ⟨(), []⟩).2.trace = [] ∧
    leaks (Init hostSetAddressFails (fun _ _ _ => []) samd21 hidDefs 1 18 0 0 0 fresh
      ⟨(), []⟩).2.2.trace = [] ∧
    (Init hostSetAddressFails (fun _ _ _ => []) samd21 hidDefs 1 18 0 0 0 fresh
      ⟨(), []⟩).2.1.bAddress = 0 :=
  ⟨⟨⟨by decide, by decide, by decide⟩, ⟨by decide, by decide, by decide, rfl⟩⟩,
   (enumeration_frees_address_on_every_error_path hostSetAddressFails (fun _ _ _ => [])
     samd21 hidDefs 1 18 0 0 0 fresh ()).1 (by decide) (by decide),
   ((enumeration_frees_address_on_every_error_path hostSetAddressFails (fun _ _ _ => [])
     samd21 hidDefs 1 18 0 0 0 fresh ()).2 (by decide) (by decide)).1,
   ((enumeration_frees_address_on_every_error_path hostSetAddressFails (fun _ _ _ => [])
     samd21 hidDefs 1 18 0 0 0 fresh ()).2 (by decide) (by decide)).2 rfl⟩

end FreedOnFailure

end HIDBoot
